import Mathlib

/-! The module planning_env: world representation of the exploration planner.

A shallow embedding of `planning_env.h` / `planning_env.cpp` (class
`planning_env_ns::PlanningEnv`) together with theorems about the keypose-cloud
ring, the diff cloud, the collision query and the coverage marking.

Conventions of the embedding.

* Coordinates and lengths (`float` / `double` in the source) are integers in a
  fixed-point unit; rounding of floating-point arithmetic is not modelled.
  The squeeze ratio of the coverage dilation is a rational number and the
  heights of the z-compressed points are exact quotients.
* The colour channels `r`, `g`, `b` (`uint8_t`) are natural numbers; the only
  values the code writes are `0` and `255`.
* A point cloud is the list of its points (`cloud->points`); `+=` on clouds is
  list concatenation; `Publish()` calls and timers have no effect on the state.
* Collaborators whose code is outside `planning_env.*` (surface extractor,
  downsizer, kd-tree, grid store, occupancy grid, viewpoint manager, sensor
  model) are taken as parameters.
-/

set_option autoImplicit false

namespace planning_env_ns

/-! ## Data model -/

/-- The channels of `PlannerCloudPointType` (`pcl::PointXYZRGBNormal`) that
`planning_env` reads or writes: position, and the colour channels used as age
tag (`r`), covered flag (`g`) and a free channel (`b`). The normal, curvature
and alpha channels are never touched by this code and are left out. -/
structure PlannerCloudPointType where
  x : Int
  y : Int
  z : Int
  r : Nat := 0
  g : Nat := 0
  b : Nat := 0
deriving DecidableEq, Repr

/-- The PCL point type `pcl::PointXYZI`. -/
structure PointXYZI where
  x : Int
  y : Int
  z : Int
  intensity : Int := 0
deriving DecidableEq, Repr

/-- A position, `Eigen::Vector3d` or `geometry_msgs::Point` in the source. -/
structure Vector3d where
  x : Int
  y : Int
  z : Int
deriving DecidableEq, Repr

abbrev PlannerCloudType := List PlannerCloudPointType

/-- A point of the z-compressed planning cloud `squeezed_planner_cloud_`. In
the source it is a `PlannerCloudPointType` whose `z` is the quotient
`point.z / kCoverCloudZSqueezeRatio`. The quotient is in general not a whole
number of the units in which positions are counted here, so the height of a
compressed point is kept exactly, as a rational number. -/
structure SqueezedPointType where
  x : Int
  y : Int
  z : ℚ
  r : Nat := 0
  g : Nat := 0
  b : Nat := 0
deriving DecidableEq, Repr

abbrev SqueezedCloudType := List SqueezedPointType

abbrev XYZICloud := List PointXYZI

/-- The structure `planning_env_ns::PlanningEnvParameters` (the fields used by the embedded
functions). `int` parameters that are compared with `size_t` values are kept
as `Int` so that the conversion can be modelled. -/
structure PlanningEnvParameters where
  kStackedCloudDwzLeafSize : Int
  kPlannerCloudDwzLeafSize : Int
  kCollisionCloudDwzLeafSize : Int
  kKeyposeGraphCollisionCheckRadius : Int
  kKeyposeGraphCollisionCheckPointNumThr : Int
  kKeyposeCloudStackNum : Nat
  kCoverCloudZSqueezeRatio : ℚ
  kUseFrontier : Bool
  kFrontierClusterTolerance : Int
  kFrontierClusterMinSize : Int
  kExtractFrontierRange : Vector3d
deriving DecidableEq, Repr

/-- The calls `planning_env` makes on `pointcloud_manager_`, in call order.
The grid store is external; its state is represented by the trace of calls it
has received, and its answers are functions of that trace. -/
inductive GridCall where
  | UpdateOldCloudPoints
  | UpdatePointCloud (cloud : PlannerCloudType)
  | UpdateCoveredCloudPoints
  | GetPointCloud
  | GetCloudPointIndex (index : Nat)
  | UpdateCoveredCloudPointsAt (cloud_idx : Int) (cloud_point_idx : Int)
deriving DecidableEq, Repr

/-- The bookkeeping calls `planning_env` makes on the viewpoint manager. -/
inductive ViewPointCall where
  | ResetViewPointCoveredPointList (viewpoint_ind : Int)
  | AddUncoveredPoint (viewpoint_ind : Int) (point_ind : Int)
  | AddUncoveredFrontierPoint (viewpoint_ind : Int) (point_ind : Int)
deriving DecidableEq, Repr

/-- The class `viewpoint_manager_ns::ViewPointManager` as seen from `planning_env`: three
scalars, the candidate list, the two visibility queries (answers do not depend
on the bookkeeping calls) and the trace of bookkeeping calls received. -/
structure ViewPointManager where
  GetSensorRange : Int
  GetCoverageOcclusionThr : Int
  GetCoverageDilationRadius : Int
  candidate_indices_ : List Int
  ViewPointVisited : Int → Bool
  VisibleByViewPoint : PlannerCloudPointType → Int → Bool
  VisibleByViewPointXYZI : PointXYZI → Int → Bool
  calls : List ViewPointCall

/-- The class `lidar_model_ns::LiDARModel` as seen from `planning_env`. -/
structure LiDARModel where
  getPosition : Vector3d
  CheckVisibility : PlannerCloudPointType → Int → Bool

/-- The functions of other components that `planning_env` calls.

* `ExtractVerticalSurface` is `vertical_surface_extractor_` applied to an input
  cloud, the output cloud having been cleared before the call.
* `ExtractVerticalFrontier input out` is `vertical_frontier_extractor_`; `out`
  is the content of the output cloud before the call.
* `Downsize leaf cloud` is `stacked_cloud_downsizer_.Downsize` with the three
  leaf sizes equal to `leaf`; `DownsizeXYZI` is `collision_cloud_downsizer_`.
* `radiusSearch indexed query radius` is `KdTreeFLANN::radiusSearch` on a tree
  whose input cloud is `indexed`; it returns the `neighbor_indices` vector.
  `radiusSearchSqueezed` is the same function on the tree of the z-compressed
  planning cloud, whose points have exact quotients as heights.
* `GetPointCloud`, `GetCloudPointIndex` are the grid store's answers after the
  given trace of calls.
* `GetFrontier out position range` is `rolling_occupancy_grid_->GetFrontier`.
* `extractClusters tolerance cloud` is `pcl::EuclideanClusterExtraction` with
  minimum cluster size 1 and maximum cluster size 10000. -/
structure Collaborators where
  ExtractVerticalSurface : PlannerCloudType → PlannerCloudType
  ExtractVerticalFrontier : XYZICloud → XYZICloud → XYZICloud
  Downsize : Int → PlannerCloudType → PlannerCloudType
  DownsizeXYZI : Int → XYZICloud → XYZICloud
  radiusSearch : PlannerCloudType → PlannerCloudPointType → Int → List Int
  radiusSearchSqueezed : SqueezedCloudType → PlannerCloudPointType → Int → List Int
  GetPointCloud : List GridCall → PlannerCloudType
  GetCloudPointIndex : List GridCall → Nat → Int × Int
  GetFrontier : XYZICloud → Vector3d → Vector3d → XYZICloud
  extractClusters : Int → XYZICloud → List (List Int)
  InFOVSimple : Vector3d → Vector3d → Int × Int → Int → Int → Int → Bool

/-- The members of `planning_env_ns::PlanningEnv` used by the embedded
functions. A kd-tree member holds the cloud it was last given by
`setInputCloud`. -/
structure PlanningEnv where
  parameters_ : PlanningEnvParameters
  keypose_cloud_stack_ : List PlannerCloudType
  vertical_surface_cloud_stack_ : List PlannerCloudType
  keypose_cloud_count_ : Nat
  robot_position_ : Vector3d
  prev_robot_position_ : Vector3d
  keypose_cloud_ : PlannerCloudType
  stacked_cloud_ : PlannerCloudType
  stacked_vertical_surface_cloud_ : PlannerCloudType
  stacked_vertical_surface_cloud_kdtree_ : PlannerCloudType
  vertical_surface_cloud_ : PlannerCloudType
  collision_cloud_ : XYZICloud
  diff_cloud_ : PlannerCloudType
  planner_cloud_ : PlannerCloudType
  pointcloud_manager_ : List GridCall
  squeezed_planner_cloud_ : SqueezedCloudType
  squeezed_planner_cloud_kdtree_ : SqueezedCloudType
  uncovered_cloud_ : XYZICloud
  uncovered_frontier_cloud_ : XYZICloud
  frontier_cloud_ : XYZICloud
  filtered_frontier_cloud_ : XYZICloud
  kdtree_frontier_cloud_ : XYZICloud

/-- The constructor `PlanningEnv::PlanningEnv`: both stacks get
`kKeyposeCloudStackNum` empty clouds, the write index is `0`, every cloud is
empty. The two position members are not initialised by the constructor and
are arguments here. -/
def PlanningEnv.construct (parameters : PlanningEnvParameters)
    (robot_position prev_robot_position : Vector3d) : PlanningEnv where
  parameters_ := parameters
  keypose_cloud_stack_ := List.replicate parameters.kKeyposeCloudStackNum []
  vertical_surface_cloud_stack_ := List.replicate parameters.kKeyposeCloudStackNum []
  keypose_cloud_count_ := 0
  robot_position_ := robot_position
  prev_robot_position_ := prev_robot_position
  keypose_cloud_ := []
  stacked_cloud_ := []
  stacked_vertical_surface_cloud_ := []
  stacked_vertical_surface_cloud_kdtree_ := []
  vertical_surface_cloud_ := []
  collision_cloud_ := []
  diff_cloud_ := []
  planner_cloud_ := []
  pointcloud_manager_ := []
  squeezed_planner_cloud_ := []
  squeezed_planner_cloud_kdtree_ := []
  uncovered_cloud_ := []
  uncovered_frontier_cloud_ := []
  frontier_cloud_ := []
  filtered_frontier_cloud_ := []
  kdtree_frontier_cloud_ := []

/-! ## Sweep ingestion -/

/-- The loop `for (i = 0; i < kKeyposeCloudStackNum; i++) cloud += *stack[i]`
started from a cleared cloud. -/
def stackUnion (stackNum : Nat) (stack : List PlannerCloudType) : PlannerCloudType :=
  (List.range stackNum).flatMap (fun i => stack.getD i [])

/-- The re-tagging of the incoming sweep: `point.r = 0; point.g = 0; point.b = 0`. -/
def tagNew (cloud : PlannerCloudType) : PlannerCloudType :=
  cloud.map (fun point => { point with r := 0, g := 0, b := 0 })

/-- The re-tagging of the previous aggregate: `point.r = 255`. -/
def tagOld (cloud : PlannerCloudType) : PlannerCloudType :=
  cloud.map (fun point => { point with r := 255 })

/-- The cloud `stacked_cloud_` holds right after the first `Downsize` of
`UpdateKeyposeCloud` (header lines 188-194): the previous aggregate tagged
old, plus the incoming sweep tagged new, downsized. -/
def mergedCloud (C : Collaborators) (env : PlanningEnv) (keypose_cloud : PlannerCloudType) :
    PlannerCloudType :=
  C.Downsize env.parameters_.kStackedCloudDwzLeafSize
    (tagOld env.stacked_cloud_ ++ tagNew keypose_cloud)

/-- The conversion `pcl::copyPointCloud<PlannerCloudPointType, pcl::PointXYZI>` on
one point. -/
def toXYZI (point : PlannerCloudPointType) : PointXYZI :=
  { x := point.x, y := point.y, z := point.z, intensity := 0 }

/-- The method `PlanningEnv::UpdateCollisionCloud`. -/
def UpdateCollisionCloud (C : Collaborators) (env : PlanningEnv) : PlanningEnv :=
  { env with
    collision_cloud_ :=
      C.DownsizeXYZI env.parameters_.kCollisionCloudDwzLeafSize
        ((List.range env.parameters_.kKeyposeCloudStackNum).flatMap
          (fun i => (env.vertical_surface_cloud_stack_.getD i []).map toXYZI)) }

/-- The conversion of an `int` to `size_t` that C++ performs when the two are
compared (64-bit `size_t`). -/
def toSizeT (v : Int) : Nat := (v % 2 ^ 64).toNat

/-- The assignment `points[point_ind].intensity = cluster_count` (no effect when the index is
outside the cloud, which the clusterer never produces). -/
def setIntensity (cloud : XYZICloud) (point_ind : Int) (value : Int) : XYZICloud :=
  if 0 ≤ point_ind then
    match cloud[point_ind.toNat]? with
    | some point => cloud.set point_ind.toNat { point with intensity := value }
    | none => cloud
  else cloud

/-- The labelling loop of `UpdateFrontiers` (lines 187-201) over the clusters
not yet visited; the state is the cloud, the inlier list and `cluster_count`. -/
def labelClusters (minSize : Int) :
    List (List Int) → XYZICloud × List Int × Int → XYZICloud × List Int × Int
  | [], state => state
  | indices :: rest, (cloud, inliers, cluster_count) =>
    if indices.length < toSizeT minSize then
      labelClusters minSize rest (cloud, inliers, cluster_count)
    else
      labelClusters minSize rest
        (indices.foldl (fun c point_ind => setIntensity c point_ind cluster_count) cloud,
         inliers ++ indices, cluster_count + 1)

/-- Modelled from the spec: `pcl::ExtractIndices` with `setNegative(false)`,
which keeps the points designated by the index list, in the order of the list. -/
def extractIndices (cloud : XYZICloud) (inliers : List Int) : XYZICloud :=
  inliers.filterMap (fun i => if 0 ≤ i then cloud[i.toNat]? else none)

/-- The method `PlanningEnv::UpdateFrontiers`. -/
def UpdateFrontiers (C : Collaborators) (env : PlanningEnv) : PlanningEnv :=
  if env.parameters_.kUseFrontier then
    let frontier := C.GetFrontier env.frontier_cloud_ env.robot_position_
      env.parameters_.kExtractFrontierRange
    let filtered :=
      if frontier ≠ [] then C.ExtractVerticalFrontier frontier env.filtered_frontier_cloud_
      else env.filtered_frontier_cloud_
    if filtered ≠ [] then
      let cluster_indices := C.extractClusters env.parameters_.kFrontierClusterTolerance filtered
      let labelled := labelClusters env.parameters_.kFrontierClusterMinSize cluster_indices
        (filtered, [], 0)
      { env with
        prev_robot_position_ := env.robot_position_
        frontier_cloud_ := frontier
        kdtree_frontier_cloud_ := filtered
        filtered_frontier_cloud_ := extractIndices labelled.1 labelled.2.1 }
    else
      { env with
        prev_robot_position_ := env.robot_position_
        frontier_cloud_ := frontier
        filtered_frontier_cloud_ := filtered }
  else env

/-- The method `PlanningEnv::UpdateKeyposeCloud<PlannerCloudPointType>` (the instantiation
the planner uses, for which the initial `copyPointCloud` is the identity). -/
def UpdateKeyposeCloud (C : Collaborators) (env : PlanningEnv)
    (keypose_cloud : PlannerCloudType) : PlanningEnv :=
  if keypose_cloud = [] then env
  else
    let stackNum := env.parameters_.kKeyposeCloudStackNum
    let leaf := env.parameters_.kStackedCloudDwzLeafSize
    -- Extract surface of interest
    let vertical_surface := C.ExtractVerticalSurface keypose_cloud
    let manager := env.pointcloud_manager_ ++
      [GridCall.UpdateOldCloudPoints, GridCall.UpdatePointCloud vertical_surface,
       GridCall.UpdateCoveredCloudPoints, GridCall.GetPointCloud]
    let planner := C.GetPointCloud (env.pointcloud_manager_ ++
      [GridCall.UpdateOldCloudPoints, GridCall.UpdatePointCloud vertical_surface,
       GridCall.UpdateCoveredCloudPoints])
    -- Get the diff cloud
    let keypose := tagNew keypose_cloud
    let merged := mergedCloud C env keypose_cloud
    let diff := merged.filter (fun point => decide (point.r < 40))
    -- Stack together
    let stack := env.keypose_cloud_stack_.set env.keypose_cloud_count_ keypose
    let count1 := (env.keypose_cloud_count_ + 1) % stackNum
    let stacked := C.Downsize leaf (stackUnion stackNum stack)
    let vstack := env.vertical_surface_cloud_stack_.set count1 vertical_surface
    let count2 := (count1 + 1) % stackNum
    let stacked_vertical := C.Downsize leaf (stackUnion stackNum vstack)
    UpdateFrontiers C (UpdateCollisionCloud C
      { env with
        keypose_cloud_ := keypose
        vertical_surface_cloud_ := vertical_surface
        pointcloud_manager_ := manager
        planner_cloud_ := planner
        diff_cloud_ := diff
        keypose_cloud_stack_ := stack
        stacked_cloud_ := stacked
        vertical_surface_cloud_stack_ := vstack
        keypose_cloud_count_ := count2
        stacked_vertical_surface_cloud_ := stacked_vertical
        stacked_vertical_surface_cloud_kdtree_ := stacked_vertical })

/-- A sequence of sweeps pushed through `UpdateKeyposeCloud`, oldest first. -/
def pushAll (C : Collaborators) (env : PlanningEnv) (sweeps : List PlannerCloudType) :
    PlanningEnv :=
  sweeps.foldl (UpdateKeyposeCloud C) env

/-! ## Collision query -/

/-- The method `PlanningEnv::InCollision`. The comparison of `neighbor_indices.size()`
with the `int` threshold converts the threshold to `size_t`. -/
def InCollision (C : Collaborators) (env : PlanningEnv) (x y z : Int) : Bool :=
  if env.stacked_cloud_ = [] then false
  else
    let check_point : PlannerCloudPointType := { x := x, y := y, z := z }
    let neighbor_indices := C.radiusSearch env.stacked_vertical_surface_cloud_kdtree_
      check_point env.parameters_.kKeyposeGraphCollisionCheckRadius
    if neighbor_indices.length > toSizeT env.parameters_.kKeyposeGraphCollisionCheckPointNumThr
    then true
    else false

/-! ## Coverage marking -/

/-- The test of lines 276-288 of `planning_env.cpp`: the point is within
`diff_z_max = sensor_range * 0.3` of the robot height, inside the simple field
of view, and visible for the sensor model. The product with `0.3` is compared
exactly (`10 * |dz| < 3 * sensor_range`); `xy_dist_threshold` is
`3 * (leaf / 2) / 0.3 = 5 * leaf` and `z_diff_threshold` is `3 * leaf`. -/
def coveredBySensor (C : Collaborators) (parameters : PlanningEnvParameters)
    (robot_viewpoint : LiDARModel) (vm : ViewPointManager) (point : PlannerCloudPointType) :
    Bool :=
  decide (10 * |point.z - robot_viewpoint.getPosition.z| < 3 * vm.GetSensorRange) &&
  C.InFOVSimple ⟨point.x, point.y, point.z⟩ robot_viewpoint.getPosition (3, 10)
    vm.GetSensorRange (5 * parameters.kPlannerCloudDwzLeafSize)
    (3 * parameters.kPlannerCloudDwzLeafSize) &&
  robot_viewpoint.CheckVisibility point vm.GetCoverageOcclusionThr

/-- The loop of lines 291-302: some candidate viewpoint is visited and sees the
point (the loop stops at the first one). -/
def coveredByVisitedViewPoint (vm : ViewPointManager) (point : PlannerCloudPointType) : Bool :=
  vm.candidate_indices_.any
    (fun viewpoint_ind => vm.ViewPointVisited viewpoint_ind &&
      vm.VisibleByViewPoint point viewpoint_ind)

/-- One iteration of the marking loop (lines 267-303) on the point it reads:
the point as the iteration leaves it, and whether its index is pushed onto
`covered_point_indices`. -/
def directMark (C : Collaborators) (parameters : PlanningEnvParameters)
    (robot_viewpoint : LiDARModel) (vm : ViewPointManager) (point : PlannerCloudPointType) :
    PlannerCloudPointType × Bool :=
  if point.g > 0 then ({ point with g := 255 }, false)
  else if coveredBySensor C parameters robot_viewpoint vm point then
    ({ point with g := 255 }, true)
  else if coveredByVisitedViewPoint vm point then ({ point with g := 255 }, true)
  else (point, false)

/-- The marking loop (lines 267-303) from index `i` on, over the points not yet
visited: the points as the loop leaves them and the indices it pushes onto
`covered_point_indices`. -/
def directPass (C : Collaborators) (parameters : PlanningEnvParameters)
    (robot_viewpoint : LiDARModel) (vm : ViewPointManager) :
    Nat → PlannerCloudType → PlannerCloudType × List Nat
  | _, [] => ([], [])
  | i, point :: rest =>
    let marked := directMark C parameters robot_viewpoint vm point
    let tail := directPass C parameters robot_viewpoint vm (i + 1) rest
    (marked.1 :: tail.1, if marked.2 then i :: tail.2 else tail.2)

/-- The body of the loop of lines 307-312: the copy of a point whose height is
the quotient of the height of the point by the squeeze ratio. -/
def squeezePoint (ratio : ℚ) (point : PlannerCloudPointType) : SqueezedPointType :=
  { x := point.x, y := point.y, z := (point.z : ℚ) / ratio,
    r := point.r, g := point.g, b := point.b }

/-- The z-compressed copy of the planning cloud (lines 306-312). -/
def squeeze (ratio : ℚ) (cloud : PlannerCloudType) : SqueezedCloudType :=
  cloud.map (squeezePoint ratio)

/-- The assignment `planner_cloud_->cloud_->points[idx].g = 255`. -/
def setCovered (cloud : PlannerCloudType) (idx : Nat) : PlannerCloudType :=
  match cloud[idx]? with
  | some point => cloud.set idx { point with g := 255 }
  | none => cloud

/-- The inner loop of the dilation (lines 324-328). `MY_ASSERT` ends the
process when an index is outside the planning cloud: the result is `none`. -/
def markNearby (cloud : PlannerCloudType) : List Int → Option PlannerCloudType
  | [] => some cloud
  | idx :: rest =>
    if 0 ≤ idx ∧ idx < cloud.length then markNearby (setCovered cloud idx.toNat) rest
    else none

/-- The dilation loop (lines 316-330) over the seeds not yet visited. The
query point is the point of the planning cloud; the tree was built over
`squeezed`. -/
def dilate (C : Collaborators) (squeezed : SqueezedCloudType) (radius : Int) :
    PlannerCloudType → List Nat → Option PlannerCloudType
  | cloud, [] => some cloud
  | cloud, ind :: rest =>
    match cloud[ind]? with
    | none => dilate C squeezed radius cloud rest
    | some point =>
      match markNearby cloud (C.radiusSearchSqueezed squeezed point radius) with
      | none => none
      | some cloud1 => dilate C squeezed radius cloud1 rest

/-- The propagation loop (lines 333-343) from index `i` on: the trace of calls
the grid store has received when the loop ends. -/
def propagate (C : Collaborators) : Nat → PlannerCloudType → List GridCall → List GridCall
  | _, [], manager => manager
  | i, point :: rest, manager =>
    if point.g > 0 then
      let found := C.GetCloudPointIndex manager i
      propagate C (i + 1) rest
        (manager ++ [GridCall.GetCloudPointIndex i,
          GridCall.UpdateCoveredCloudPointsAt found.1 found.2])
    else propagate C (i + 1) rest manager

/-- The method `PlanningEnv::UpdateCoveredArea`; `none` when `MY_ASSERT` fails. The
viewpoint manager is only queried. -/
def UpdateCoveredArea (C : Collaborators) (env : PlanningEnv) (robot_viewpoint : LiDARModel)
    (vm : ViewPointManager) : Option PlanningEnv :=
  if env.planner_cloud_ = [] then some env
  else
    let direct := directPass C env.parameters_ robot_viewpoint vm 0 env.planner_cloud_
    let squeezed := squeeze env.parameters_.kCoverCloudZSqueezeRatio direct.1
    match dilate C squeezed vm.GetCoverageDilationRadius direct.1 direct.2 with
    | none => none
    | some cloud =>
      some { env with
        planner_cloud_ := cloud
        squeezed_planner_cloud_ := squeezed
        squeezed_planner_cloud_kdtree_ := squeezed
        pointcloud_manager_ := propagate C 0 cloud env.pointcloud_manager_ }

/-! ## Uncovered enumeration -/

/-- The loop over `candidate_indices_` of `GetUncoveredArea` for one point
(lines 369-380, 401-411): every unvisited viewpoint that sees the point gets
the registration `call`; the flag is `observed`. -/
def observePoint (vm : ViewPointManager) (visible : Int → Bool) (call : Int → ViewPointCall)
    (calls : List ViewPointCall) : List ViewPointCall × Bool :=
  vm.candidate_indices_.foldl
    (fun (acc : List ViewPointCall × Bool) viewpoint_ind =>
      if (!vm.ViewPointVisited viewpoint_ind) && visible viewpoint_ind then
        (acc.1 ++ [call viewpoint_ind], true)
      else acc)
    (calls, false)

/-- The loop over the planning cloud of `GetUncoveredArea` (lines 361-391) from
index `i` on; the state is the trace of bookkeeping calls, `uncovered_cloud_`
and `uncovered_point_num`. -/
def uncoveredLoop (vm : ViewPointManager) :
    Nat → PlannerCloudType → List ViewPointCall × XYZICloud × Int →
      List ViewPointCall × XYZICloud × Int
  | _, [], state => state
  | i, point :: rest, (calls, cloud, num) =>
    if point.g > 0 then uncoveredLoop vm (i + 1) rest (calls, cloud, num)
    else
      let seen := observePoint vm (vm.VisibleByViewPoint point)
        (fun viewpoint_ind => ViewPointCall.AddUncoveredPoint viewpoint_ind num) calls
      if seen.2 then
        uncoveredLoop vm (i + 1) rest
          (seen.1, cloud ++ [{ x := point.x, y := point.y, z := point.z, intensity := i }],
           num + 1)
      else uncoveredLoop vm (i + 1) rest (seen.1, cloud, num)

/-- The loop over the filtered frontier cloud of `GetUncoveredArea`
(lines 397-422) from index `i` on. -/
def uncoveredFrontierLoop (vm : ViewPointManager) :
    Nat → XYZICloud → List ViewPointCall × XYZICloud × Int →
      List ViewPointCall × XYZICloud × Int
  | _, [], state => state
  | i, point :: rest, (calls, cloud, num) =>
    let seen := observePoint vm (vm.VisibleByViewPointXYZI point)
      (fun viewpoint_ind => ViewPointCall.AddUncoveredFrontierPoint viewpoint_ind num) calls
    if seen.2 then
      uncoveredFrontierLoop vm (i + 1) rest
        (seen.1, cloud ++ [{ x := point.x, y := point.y, z := point.z, intensity := i }],
         num + 1)
    else uncoveredFrontierLoop vm (i + 1) rest (seen.1, cloud, num)

/-- The result of `GetUncoveredArea`: the environment, the viewpoint manager
and the two output counters. -/
structure UncoveredArea where
  env : PlanningEnv
  viewpoint_manager : ViewPointManager
  uncovered_point_num : Int
  uncovered_frontier_point_num : Int

/-- The method `PlanningEnv::GetUncoveredArea`. -/
def GetUncoveredArea (env : PlanningEnv) (vm : ViewPointManager) : UncoveredArea :=
  let reset := vm.calls ++
    vm.candidate_indices_.map ViewPointCall.ResetViewPointCoveredPointList
  let points := uncoveredLoop vm 0 env.planner_cloud_ (reset, [], 0)
  let frontier :=
    if env.parameters_.kUseFrontier then
      uncoveredFrontierLoop vm 0 env.filtered_frontier_cloud_ (points.1, [], 0)
    else (points.1, [], 0)
  { env := { env with
      uncovered_cloud_ := points.2.1
      uncovered_frontier_cloud_ := frontier.2.1 }
    viewpoint_manager := { vm with calls := frontier.1 }
    uncovered_point_num := points.2.2
    uncovered_frontier_point_num := frontier.2.2 }

/-! ## Models of the downsizer and of the radius search -/

/-- The voxel of edge `leaf` that contains a point. -/
def voxelIndex (leaf : Int) (point : PlannerCloudPointType) : Int × Int × Int :=
  (point.x / leaf, point.y / leaf, point.z / leaf)

/-- The point a voxel yields: every channel is the arithmetic mean of the
channel over the merged points (integer channels: the mean rounded down). -/
def centroid (group : PlannerCloudType) : PlannerCloudPointType :=
  { x := (group.map (fun p => p.x)).sum / group.length
    y := (group.map (fun p => p.y)).sum / group.length
    z := (group.map (fun p => p.z)).sum / group.length
    r := (group.map (fun p => p.r)).sum / group.length
    g := (group.map (fun p => p.g)).sum / group.length
    b := (group.map (fun p => p.b)).sum / group.length }

/-- Adds a point to the voxel with the given index, or opens a new voxel. -/
def insertVoxel (index : Int × Int × Int) (point : PlannerCloudPointType) :
    List ((Int × Int × Int) × PlannerCloudType) → List ((Int × Int × Int) × PlannerCloudType)
  | [] => [(index, [point])]
  | (k, group) :: rest =>
    if k = index then (k, group ++ [point]) :: rest
    else (k, group) :: insertVoxel index point rest

/-- The points of a cloud grouped by voxel, voxels in order of first occurrence. -/
def voxelGroups (leaf : Int) (cloud : PlannerCloudType) :
    List ((Int × Int × Int) × PlannerCloudType) :=
  cloud.foldl (fun voxels point => insertVoxel (voxelIndex leaf point) point voxels) []

/-- Modelled from the spec: the point-cloud downsizer
(`pointcloud_utils_ns::PointCloudDownsizer::Downsize`, density-averaging
voxel-grid downsampling), whose code is not among the sources. Each voxel of
edge `leaf` that holds at least one input point yields one output point, and
each output channel, the age `r` included, is the arithmetic mean of that
channel over the input points merged into the voxel. -/
def voxelDownsize (leaf : Int) (cloud : PlannerCloudType) : PlannerCloudType :=
  (voxelGroups leaf cloud).map (fun voxel => centroid voxel.2)

/-- Squared Euclidean distance between the positions of two points. -/
def sqDist (a b : PlannerCloudPointType) : Int :=
  (a.x - b.x) ^ 2 + (a.y - b.y) ^ 2 + (a.z - b.z) ^ 2

/-- Modelled from the spec: the kd-tree radius search
(`pcl::KdTreeFLANN::radiusSearch`), which returns the indices of the points of
the indexed cloud that lie within `radius` of the query position. -/
def radiusSearchModel (indexed : PlannerCloudType) (query : PlannerCloudPointType)
    (radius : Int) : List Int :=
  ((List.range indexed.length).filter
    (fun i => match indexed[i]? with
      | some point => decide (sqDist point query ≤ radius ^ 2)
      | none => false)).map Int.ofNat

/-- Squared Euclidean distance between the positions of two points of a
compressed cloud. -/
def sqDistSqueezed (a b : SqueezedPointType) : ℚ :=
  ((a.x - b.x : Int) : ℚ) ^ 2 + ((a.y - b.y : Int) : ℚ) ^ 2 + (a.z - b.z) ^ 2

/-- Modelled from the spec: the same radius search on the tree of a
z-compressed cloud. It returns the indices of the indexed points that lie
within `radius` of the position of the query point; the query point is taken
as it is given (`squeezePoint 1` leaves the height as it is). -/
def radiusSearchSqueezedModel (indexed : SqueezedCloudType) (query : PlannerCloudPointType)
    (radius : Int) : List Int :=
  ((List.range indexed.length).filter
    (fun i => match indexed[i]? with
      | some point => decide (sqDistSqueezed point (squeezePoint 1 query) ≤ (radius : ℚ) ^ 2)
      | none => false)).map Int.ofNat

/-! ## Concrete collaborators used to evaluate the embedding -/

/-- Collaborators for concrete evaluation: every point is a vertical-surface
point, the downsizer and the radius search are the two models above, the grid
store returns the union of the clouds it was given, nothing is a frontier, the
simple field-of-view test always succeeds. -/
def sampleCollaborators : Collaborators where
  ExtractVerticalSurface := fun cloud => cloud
  ExtractVerticalFrontier := fun cloud _ => cloud
  Downsize := voxelDownsize
  DownsizeXYZI := fun _ cloud => cloud
  radiusSearch := radiusSearchModel
  radiusSearchSqueezed := radiusSearchSqueezedModel
  GetPointCloud := fun trace =>
    trace.flatMap (fun call => match call with
      | GridCall.UpdatePointCloud cloud => cloud
      | _ => [])
  GetCloudPointIndex := fun _ i => (0, (i : Int))
  GetFrontier := fun _ _ _ => []
  extractClusters := fun _ cloud => [(List.range cloud.length).map Int.ofNat]
  InFOVSimple := fun _ _ _ _ _ _ => true

/-- Parameters for concrete evaluation: the defaults of `ReadParameters` in
units of 0.1 (leaf sizes 0.2, check radius 0.4, squeeze ratio 2), with the
given stack depth. -/
def sampleParameters (stackNum : Nat) : PlanningEnvParameters where
  kStackedCloudDwzLeafSize := 2
  kPlannerCloudDwzLeafSize := 2
  kCollisionCloudDwzLeafSize := 2
  kKeyposeGraphCollisionCheckRadius := 4
  kKeyposeGraphCollisionCheckPointNumThr := 1
  kKeyposeCloudStackNum := stackNum
  kCoverCloudZSqueezeRatio := 2
  kUseFrontier := false
  kFrontierClusterTolerance := 10
  kFrontierClusterMinSize := 30
  kExtractFrontierRange := ⟨300, 300, 30⟩

/-- A freshly constructed environment with the sample parameters. -/
def sampleEnv (stackNum : Nat) : PlanningEnv :=
  PlanningEnv.construct (sampleParameters stackNum) ⟨0, 0, 0⟩ ⟨0, 0, 0⟩

/-- A sensor at the origin for which nothing is occluded. -/
def sampleLiDAR : LiDARModel where
  getPosition := ⟨0, 0, 0⟩
  CheckVisibility := fun _ _ => true

/-- A viewpoint manager without candidate viewpoints: sensor range 20,
dilation radius 1 (in units of 0.1). -/
def sampleViewPointManager : ViewPointManager where
  GetSensorRange := 200
  GetCoverageOcclusionThr := 3
  GetCoverageDilationRadius := 10
  candidate_indices_ := []
  ViewPointVisited := fun _ => false
  VisibleByViewPoint := fun _ _ => false
  VisibleByViewPointXYZI := fun _ _ => false
  calls := []

/-- An environment whose planning cloud holds two uncovered points above the
robot, at heights 4 and 8 (in units of 0.1), and one covered point. -/
def sampleCoverageEnv : PlanningEnv :=
  { sampleEnv 5 with
    planner_cloud_ :=
      [{ x := 0, y := 0, z := 40 }, { x := 0, y := 0, z := 80 },
       { x := 500, y := 0, z := 0, g := 255 }] }

/-! ## Predicates used in the statements -/

/-- Point by point, `after` is `before` except that some covered flags have
been set to `255`. -/
def flagsRaised (before after : PlannerCloudType) : Prop :=
  ∀ i : Nat, after[i]? = before[i]? ∨
    ∃ point : PlannerCloudPointType,
      before[i]? = some point ∧ after[i]? = some { point with g := 255 }

/-- Every index a radius search returns designates a point of the indexed
cloud (the contract of the kd-tree that `MY_ASSERT` checks). -/
def searchInRange (C : Collaborators) : Prop :=
  ∀ (indexed : PlannerCloudType) (query : PlannerCloudPointType) (radius : Int),
    ∀ idx ∈ C.radiusSearch indexed query radius, 0 ≤ idx ∧ idx < indexed.length

/-- The same contract for the tree of the z-compressed planning cloud. -/
def squeezedSearchInRange (C : Collaborators) : Prop :=
  ∀ (indexed : SqueezedCloudType) (query : PlannerCloudPointType) (radius : Int),
    ∀ idx ∈ C.radiusSearchSqueezed indexed query radius, 0 ≤ idx ∧ idx < indexed.length

/-- The assumption on the downsizer used for the novelty claims: the age `r` of
every output point is the mean (rounded down) of the ages of a non-empty group
of input points, the points merged into its voxel. -/
def downsizeAveragesAge (C : Collaborators) : Prop :=
  ∀ (leaf : Int) (cloud : PlannerCloudType), ∀ point ∈ C.Downsize leaf cloud,
    ∃ group : PlannerCloudType, group ≠ [] ∧ (∀ q ∈ group, q ∈ cloud) ∧
      point.r = (group.map (fun q => q.r)).sum / group.length

/-! ## Definitions that follow the wording of the specification -/

/-- The wording "visible from at least one unvisited candidate viewpoint", for
a point whose visibility from each viewpoint is `visible`. -/
def seenByUnvisited (vm : ViewPointManager) (visible : Int → Bool) : Bool :=
  vm.candidate_indices_.any
    (fun viewpoint_ind => (!vm.ViewPointVisited viewpoint_ind) && visible viewpoint_ind)

/-- The wording "registers itself against every viewpoint that can see it": the
bookkeeping calls made for a list of emitted points, the first of which has
position `num` in the output; `call viewpoint position` is the registration. -/
def registrations {α : Type} (vm : ViewPointManager) (call : Int → Int → ViewPointCall)
    (visible : α → Int → Bool) : Nat → List α → List ViewPointCall
  | _, [] => []
  | num, point :: rest =>
    (vm.candidate_indices_.filter
      (fun viewpoint_ind => (!vm.ViewPointVisited viewpoint_ind) &&
        visible point viewpoint_ind)).map (fun viewpoint_ind => call viewpoint_ind num) ++
    registrations vm call visible (num + 1) rest

/-- The indices a trace of bookkeeping calls registers with one viewpoint
through `AddUncoveredPoint`, in call order. -/
def registeredWith (viewpoint_ind : Int) (calls : List ViewPointCall) : List Int :=
  calls.filterMap (fun call => match call with
    | ViewPointCall.AddUncoveredPoint v j => if v = viewpoint_ind then some j else none
    | _ => none)

/-- The cloud the clustering step of `UpdateFrontiers` works on: the output of
the vertical-surface filter when the frontier query is not empty, and the
filtered frontier cloud as the previous cycle left it otherwise. -/
def frontierToCluster (C : Collaborators) (env : PlanningEnv) : XYZICloud :=
  if C.GetFrontier env.frontier_cloud_ env.robot_position_
      env.parameters_.kExtractFrontierRange ≠ [] then
    C.ExtractVerticalFrontier
      (C.GetFrontier env.frontier_cloud_ env.robot_position_
        env.parameters_.kExtractFrontierRange) env.filtered_frontier_cloud_
  else env.filtered_frontier_cloud_

/-- The wording "assign surviving clusters sequential integer ids written into
each point's intensity channel": the points of the given clusters, cluster
after cluster, each with the rank of its cluster (counted from `id`) as
intensity. -/
def labelledClusters (cloud : XYZICloud) : Nat → List (List Int) → XYZICloud
  | _, [] => []
  | id, cluster :: rest =>
    cluster.filterMap
      (fun idx => if 0 ≤ idx then
          (cloud[idx.toNat]?).map (fun point => { point with intensity := (id : Int) })
        else none) ++
    labelledClusters cloud (id + 1) rest

/-- The wording "every point now covered": the indices of the points of a
planning cloud whose covered flag is `> 0`, in ascending order. -/
def coveredIndices (cloud : PlannerCloudType) : List Nat :=
  ((cloud.enumFrom 0).filter (fun ip => decide (ip.2.g > 0))).map Prod.fst

/-- The wording "report its covered status into the external windowed grid
store", for a list of planning-cloud indices: for each index in turn, the grid
store is asked for the (cloud index, point index) pair of the index and its
mark-covered operation is called with that pair. The result is the trace of
the grid store afterwards. -/
def reportCovered (C : Collaborators) : List Nat → List GridCall → List GridCall
  | [], manager => manager
  | i :: rest, manager =>
    reportCovered C rest
      (manager ++ [GridCall.GetCloudPointIndex i,
        GridCall.UpdateCoveredCloudPointsAt (C.GetCloudPointIndex manager i).1
          (C.GetCloudPointIndex manager i).2])

/-! ## Concrete frontier and viewpoint data -/

/-- Euclidean clustering of points that lie on the x axis in ascending order:
a point joins the cluster of its predecessor when their distance is at most
the tolerance, and opens a new cluster otherwise. The arguments are the `x` of
the predecessor, the index of the next point, the points still to visit and
the cluster being built. -/
def chainClusters (tolerance : Int) : Int → Nat → XYZICloud → List Int → List (List Int)
  | _, _, [], current => [current]
  | previous, i, point :: rest, current =>
    if point.x - previous ≤ tolerance then
      chainClusters tolerance point.x (i + 1) rest (current ++ [(i : Int)])
    else current :: chainClusters tolerance point.x (i + 1) rest [(i : Int)]

/-- Collaborators for the frontier pipeline: the occupancy grid has three
frontier points on the x axis when the robot is at `x = 0` and none when it is
elsewhere, the vertical filter keeps everything, the clusterer chains the
points along the x axis. -/
def sampleFrontierCollaborators : Collaborators :=
  { sampleCollaborators with
    GetFrontier := fun _ position _ =>
      if position.x = 0 then
        [{ x := 10, y := 0, z := 0 }, { x := 12, y := 0, z := 0 }, { x := 90, y := 0, z := 0 }]
      else []
    ExtractVerticalFrontier := fun cloud _ => cloud
    extractClusters := fun tolerance cloud =>
      match cloud with
      | [] => []
      | point :: rest => chainClusters tolerance point.x 1 rest [0] }

/-- A fresh environment with frontier mode enabled and minimum cluster size 2. -/
def sampleFrontierEnv : PlanningEnv :=
  PlanningEnv.construct
    { sampleParameters 5 with kUseFrontier := true, kFrontierClusterMinSize := 2 }
    ⟨0, 0, 0⟩ ⟨0, 0, 0⟩

/-- A viewpoint manager with candidates 1, 2, 3: viewpoint 1 is visited and
sees everything, viewpoint 2 sees the points with `x < 100`, viewpoint 3 sees
the points with `x < 50`. -/
def sampleCandidates : ViewPointManager where
  GetSensorRange := 200
  GetCoverageOcclusionThr := 3
  GetCoverageDilationRadius := 10
  candidate_indices_ := [1, 2, 3]
  ViewPointVisited := fun v => decide (v = 1)
  VisibleByViewPoint := fun point v =>
    decide (v = 1) || (decide (v = 2) && decide (point.x < 100)) ||
      (decide (v = 3) && decide (point.x < 50))
  VisibleByViewPointXYZI := fun point v =>
    decide (v = 1) || (decide (v = 2) && decide (point.x < 100)) ||
      (decide (v = 3) && decide (point.x < 50))
  calls := []

/-- An environment whose planning cloud has four points: one covered, one seen
by viewpoints 2 and 3, one seen by viewpoint 2 only, one seen by no unvisited
viewpoint. -/
def sampleUncoveredEnv : PlanningEnv :=
  { sampleEnv 5 with
    planner_cloud_ :=
      [{ x := 0, y := 0, z := 0, g := 255 }, { x := 20, y := 0, z := 0 },
       { x := 70, y := 0, z := 0 }, { x := 500, y := 0, z := 0 }] }

/-- An uncovered point on the vertical axis, at the height
`num * den * (radius + 1)` for the squeeze ratio `num / den`. -/
def squeezeSeed (ratio : ℚ) (radius : Int) : PlannerCloudPointType :=
  { x := 0, y := 0, z := ratio.num * (ratio.den : Int) * (radius + 1) }

/-- The uncovered point straight above `squeezeSeed`, at `ratio` times its
height, which is `num * num * (radius + 1)`. -/
def squeezeAbove (ratio : ℚ) (radius : Int) : PlannerCloudPointType :=
  { x := 0, y := 0, z := ratio.num * ratio.num * (radius + 1) }

/-- An environment with the given squeeze ratio whose planning cloud holds the
two points above. -/
def squeezeEnv (ratio : ℚ) (radius : Int) : PlanningEnv :=
  { sampleEnv 5 with
    parameters_ := { sampleParameters 5 with kCoverCloudZSqueezeRatio := ratio }
    planner_cloud_ := [squeezeSeed ratio radius, squeezeAbove ratio radius] }

/-- A sensor at the position of `squeezeSeed` for which nothing is occluded. -/
def squeezeLiDAR (ratio : ℚ) (radius : Int) : LiDARModel where
  getPosition := ⟨0, 0, ratio.num * (ratio.den : Int) * (radius + 1)⟩
  CheckVisibility := fun _ _ => true

/-- A viewpoint manager without candidate viewpoints, with sensor range 1 and
the given dilation radius. -/
def squeezeViewPointManager (radius : Int) : ViewPointManager :=
  { sampleViewPointManager with GetSensorRange := 1, GetCoverageDilationRadius := radius }

/-! ## Frame lemmas for sweep ingestion -/

section frame

variable (C : Collaborators) (env : PlanningEnv)

theorem UpdateFrontiers_ring :
    (UpdateFrontiers C env).parameters_ = env.parameters_ ∧
    (UpdateFrontiers C env).keypose_cloud_stack_ = env.keypose_cloud_stack_ ∧
    (UpdateFrontiers C env).vertical_surface_cloud_stack_ = env.vertical_surface_cloud_stack_ ∧
    (UpdateFrontiers C env).keypose_cloud_count_ = env.keypose_cloud_count_ ∧
    (UpdateFrontiers C env).stacked_cloud_ = env.stacked_cloud_ ∧
    (UpdateFrontiers C env).stacked_vertical_surface_cloud_ =
      env.stacked_vertical_surface_cloud_ ∧
    (UpdateFrontiers C env).stacked_vertical_surface_cloud_kdtree_ =
      env.stacked_vertical_surface_cloud_kdtree_ ∧
    (UpdateFrontiers C env).diff_cloud_ = env.diff_cloud_ ∧
    (UpdateFrontiers C env).planner_cloud_ = env.planner_cloud_ ∧
    (UpdateFrontiers C env).collision_cloud_ = env.collision_cloud_ := by
  unfold UpdateFrontiers
  dsimp only
  split_ifs <;> exact ⟨rfl, rfl, rfl, rfl, rfl, rfl, rfl, rfl, rfl, rfl⟩

variable {keypose_cloud : PlannerCloudType}

theorem UpdateKeyposeCloud_parameters (keypose_cloud : PlannerCloudType) :
    (UpdateKeyposeCloud C env keypose_cloud).parameters_ = env.parameters_ := by
  unfold UpdateKeyposeCloud
  split
  · rfl
  · rw [(UpdateFrontiers_ring C _).1]; rfl

theorem UpdateKeyposeCloud_nil : UpdateKeyposeCloud C env [] = env := by
  simp [UpdateKeyposeCloud]

theorem UpdateKeyposeCloud_kdtree (h : keypose_cloud ≠ []) :
    (UpdateKeyposeCloud C env keypose_cloud).stacked_vertical_surface_cloud_kdtree_ =
      (UpdateKeyposeCloud C env keypose_cloud).stacked_vertical_surface_cloud_ := by
  unfold UpdateKeyposeCloud
  rw [if_neg h, (UpdateFrontiers_ring C _).2.2.2.2.2.2.1, (UpdateFrontiers_ring C _).2.2.2.2.2.1]
  rfl

theorem UpdateKeyposeCloud_stack (h : keypose_cloud ≠ []) :
    (UpdateKeyposeCloud C env keypose_cloud).keypose_cloud_stack_ =
      env.keypose_cloud_stack_.set env.keypose_cloud_count_ (tagNew keypose_cloud) := by
  unfold UpdateKeyposeCloud
  rw [if_neg h, (UpdateFrontiers_ring C _).2.1]; rfl

theorem UpdateKeyposeCloud_count (h : keypose_cloud ≠ []) :
    (UpdateKeyposeCloud C env keypose_cloud).keypose_cloud_count_ =
      ((env.keypose_cloud_count_ + 1) % env.parameters_.kKeyposeCloudStackNum + 1) %
        env.parameters_.kKeyposeCloudStackNum := by
  unfold UpdateKeyposeCloud
  rw [if_neg h, (UpdateFrontiers_ring C _).2.2.2.1]; rfl

theorem UpdateKeyposeCloud_vertical_stack (h : keypose_cloud ≠ []) :
    (UpdateKeyposeCloud C env keypose_cloud).vertical_surface_cloud_stack_ =
      env.vertical_surface_cloud_stack_.set
        ((env.keypose_cloud_count_ + 1) % env.parameters_.kKeyposeCloudStackNum)
        (C.ExtractVerticalSurface keypose_cloud) := by
  unfold UpdateKeyposeCloud
  rw [if_neg h, (UpdateFrontiers_ring C _).2.2.1]; rfl

theorem UpdateKeyposeCloud_stacked_cloud (h : keypose_cloud ≠ []) :
    (UpdateKeyposeCloud C env keypose_cloud).stacked_cloud_ =
      C.Downsize env.parameters_.kStackedCloudDwzLeafSize
        (stackUnion env.parameters_.kKeyposeCloudStackNum
          (env.keypose_cloud_stack_.set env.keypose_cloud_count_ (tagNew keypose_cloud))) := by
  unfold UpdateKeyposeCloud
  rw [if_neg h, (UpdateFrontiers_ring C _).2.2.2.2.1]; rfl

theorem UpdateKeyposeCloud_diff_cloud (h : keypose_cloud ≠ []) :
    (UpdateKeyposeCloud C env keypose_cloud).diff_cloud_ =
      (mergedCloud C env keypose_cloud).filter (fun point => decide (point.r < 40)) := by
  unfold UpdateKeyposeCloud
  rw [if_neg h, (UpdateFrontiers_ring C _).2.2.2.2.2.2.2.1]; rfl

end frame

/-! ## Empty sweeps -/

/-- C9: `UpdateKeyposeCloud` called with an empty sweep returns the environment
unchanged, so every slot of both stacks, the write index, both stacked
aggregates, the planner cloud and the collision cloud are as before the call. -/
theorem empty_sweep_is_noop (C : Collaborators) (env : PlanningEnv) :
    UpdateKeyposeCloud C env [] = env ∧
    (UpdateKeyposeCloud C env []).keypose_cloud_stack_ = env.keypose_cloud_stack_ ∧
    (UpdateKeyposeCloud C env []).vertical_surface_cloud_stack_ =
      env.vertical_surface_cloud_stack_ ∧
    (UpdateKeyposeCloud C env []).keypose_cloud_count_ = env.keypose_cloud_count_ ∧
    (UpdateKeyposeCloud C env []).stacked_cloud_ = env.stacked_cloud_ ∧
    (UpdateKeyposeCloud C env []).stacked_vertical_surface_cloud_ =
      env.stacked_vertical_surface_cloud_ ∧
    (UpdateKeyposeCloud C env []).planner_cloud_ = env.planner_cloud_ ∧
    (UpdateKeyposeCloud C env []).collision_cloud_ = env.collision_cloud_ := by
  have h : UpdateKeyposeCloud C env [] = env := by simp [UpdateKeyposeCloud]
  rw [h]
  exact ⟨rfl, rfl, rfl, rfl, rfl, rfl, rfl, rfl⟩

/-- C10 as the code has it: with an empty incoming sweep the diff cloud of the
previous cycle is retained as it was; it is not cleared. -/
theorem empty_sweep_keeps_diff_cloud (C : Collaborators) (env : PlanningEnv) :
    (UpdateKeyposeCloud C env []).diff_cloud_ = env.diff_cloud_ := by
  simp [UpdateKeyposeCloud]

/-- C10 as stated fails: on a fresh environment (stack depth 5), after the sweep
consisting of the origin has been ingested, an empty sweep leaves the diff
cloud non-empty (it still holds the origin point). -/
theorem empty_sweep_diff_cloud_not_cleared :
    (UpdateKeyposeCloud sampleCollaborators
      (UpdateKeyposeCloud sampleCollaborators (sampleEnv 5) [{ x := 0, y := 0, z := 0 }])
      []).diff_cloud_ = [{ x := 0, y := 0, z := 0 }] ∧
    (UpdateKeyposeCloud sampleCollaborators
      (UpdateKeyposeCloud sampleCollaborators (sampleEnv 5) [{ x := 0, y := 0, z := 0 }])
      []).diff_cloud_ ≠ [] := by
  constructor
  · rw [UpdateKeyposeCloud_nil, UpdateKeyposeCloud_diff_cloud _ _ (by decide)]
    decide
  · rw [UpdateKeyposeCloud_nil, UpdateKeyposeCloud_diff_cloud _ _ (by decide)]
    decide

/-! ## The diff cloud -/

/-- C7: after a call with a non-empty sweep the diff cloud is the sub-sequence
of the points with age `r < 40` of `Downsize (previous aggregate tagged 255 ++
sweep tagged 0)`, and it is the same whatever the diff cloud held before. -/
theorem diff_cloud_recomputed_each_cycle (C : Collaborators) (env : PlanningEnv)
    (keypose_cloud previous_diff : PlannerCloudType) (h : keypose_cloud ≠ []) :
    (UpdateKeyposeCloud C env keypose_cloud).diff_cloud_ =
      (C.Downsize env.parameters_.kStackedCloudDwzLeafSize
        (env.stacked_cloud_.map (fun point => { point with r := 255 }) ++
          keypose_cloud.map (fun point => { point with r := 0, g := 0, b := 0 }))).filter
        (fun point => decide (point.r < 40)) ∧
    (UpdateKeyposeCloud C { env with diff_cloud_ := previous_diff } keypose_cloud).diff_cloud_ =
      (UpdateKeyposeCloud C env keypose_cloud).diff_cloud_ := by
  constructor
  · rw [UpdateKeyposeCloud_diff_cloud C env h]; rfl
  · rw [UpdateKeyposeCloud_diff_cloud C env h, UpdateKeyposeCloud_diff_cloud C _ h]; rfl

/-! ## The ring of raw sweeps -/

section ring

variable (C : Collaborators)

theorem pushAll_append (env : PlanningEnv) (front back : List PlannerCloudType) :
    pushAll C env (front ++ back) = pushAll C (pushAll C env front) back := by
  simp [pushAll, List.foldl_append]

theorem pushAll_cons (env : PlanningEnv) (first : PlannerCloudType)
    (rest : List PlannerCloudType) :
    pushAll C env (first :: rest) = pushAll C (UpdateKeyposeCloud C env first) rest := rfl

theorem pushAll_parameters (sweeps : List PlannerCloudType) (env : PlanningEnv) :
    (pushAll C env sweeps).parameters_ = env.parameters_ := by
  induction sweeps generalizing env with
  | nil => rfl
  | cons first rest ih => rw [pushAll_cons, ih, UpdateKeyposeCloud_parameters]

/-- Each non-empty push advances the write index by two, modulo the depth. -/
theorem UpdateKeyposeCloud_count_add_two (env : PlanningEnv) {keypose_cloud : PlannerCloudType}
    (h : keypose_cloud ≠ []) :
    (UpdateKeyposeCloud C env keypose_cloud).keypose_cloud_count_ =
      (env.keypose_cloud_count_ + 2) % env.parameters_.kKeyposeCloudStackNum := by
  rw [UpdateKeyposeCloud_count C env h, Nat.mod_add_mod]

theorem pushAll_count_mod (sweeps : List PlannerCloudType) (env : PlanningEnv)
    (hne : ∀ s ∈ sweeps, s ≠ []) :
    (pushAll C env sweeps).keypose_cloud_count_ % env.parameters_.kKeyposeCloudStackNum =
      (env.keypose_cloud_count_ + 2 * sweeps.length) %
        env.parameters_.kKeyposeCloudStackNum := by
  induction sweeps generalizing env with
  | nil => rfl
  | cons first rest ih =>
    have hfirst : first ≠ [] := hne first (List.mem_cons_self _ _)
    rw [pushAll_cons, ← UpdateKeyposeCloud_parameters C env first,
      ih _ (fun s hs => hne s (List.mem_cons_of_mem _ hs)),
      UpdateKeyposeCloud_count_add_two C env hfirst, UpdateKeyposeCloud_parameters,
      Nat.mod_add_mod, List.length_cons]
    congr 1
    omega

theorem pushAll_count_lt (sweeps : List PlannerCloudType) (env : PlanningEnv)
    (hne : ∀ s ∈ sweeps, s ≠ [])
    (hlt : env.keypose_cloud_count_ < env.parameters_.kKeyposeCloudStackNum) :
    (pushAll C env sweeps).keypose_cloud_count_ < env.parameters_.kKeyposeCloudStackNum := by
  induction sweeps generalizing env with
  | nil => exact hlt
  | cons first rest ih =>
    have hfirst : first ≠ [] := hne first (List.mem_cons_self _ _)
    rw [pushAll_cons, ← UpdateKeyposeCloud_parameters C env first]
    apply ih _ (fun s hs => hne s (List.mem_cons_of_mem _ hs))
    rw [UpdateKeyposeCloud_count_add_two C env hfirst, UpdateKeyposeCloud_parameters]
    exact Nat.mod_lt _ (by omega)

/-- A property of slots that every pushed sweep has is kept by pushing. -/
theorem pushAll_stack_slots (Good : Nat → PlannerCloudType → Prop)
    (sweeps : List PlannerCloudType) (env : PlanningEnv)
    (hne : ∀ s ∈ sweeps, s ≠ [])
    (hsweeps : ∀ s ∈ sweeps, ∀ i, Good i (tagNew s))
    (henv : ∀ i slot, env.keypose_cloud_stack_[i]? = some slot → Good i slot) :
    ∀ i slot, (pushAll C env sweeps).keypose_cloud_stack_[i]? = some slot → Good i slot := by
  induction sweeps generalizing env with
  | nil => exact henv
  | cons first rest ih =>
    have hfirst : first ≠ [] := hne first (List.mem_cons_self _ _)
    rw [pushAll_cons]
    apply ih _ (fun s hs => hne s (List.mem_cons_of_mem _ hs))
      (fun s hs => hsweeps s (List.mem_cons_of_mem _ hs))
    intro i slot hslot
    rw [UpdateKeyposeCloud_stack C env hfirst, List.getElem?_set] at hslot
    split at hslot
    · split at hslot
      · cases hslot
        exact hsweeps first (List.mem_cons_self _ _) i
      · cases hslot
    · exact henv i slot hslot

/-- Two environments with the same parameters and write index whose raw stacks
agree outside slot `0` still do after the same sweeps are pushed on both. -/
theorem pushAll_agree_off_zero (sweeps : List PlannerCloudType) (env env' : PlanningEnv)
    (hne : ∀ s ∈ sweeps, s ≠ [])
    (hpar : env.parameters_ = env'.parameters_)
    (hcount : env.keypose_cloud_count_ = env'.keypose_cloud_count_)
    (hlen : env.keypose_cloud_stack_.length = env'.keypose_cloud_stack_.length)
    (hoff : ∀ i, i ≠ 0 → env.keypose_cloud_stack_[i]? = env'.keypose_cloud_stack_[i]?) :
    (pushAll C env sweeps).keypose_cloud_count_ = (pushAll C env' sweeps).keypose_cloud_count_ ∧
    (pushAll C env sweeps).keypose_cloud_stack_.length =
      (pushAll C env' sweeps).keypose_cloud_stack_.length ∧
    ∀ i, i ≠ 0 → (pushAll C env sweeps).keypose_cloud_stack_[i]? =
      (pushAll C env' sweeps).keypose_cloud_stack_[i]? := by
  induction sweeps generalizing env env' with
  | nil => exact ⟨hcount, hlen, hoff⟩
  | cons first rest ih =>
    have hfirst : first ≠ [] := hne first (List.mem_cons_self _ _)
    rw [pushAll_cons, pushAll_cons]
    apply ih _ _ (fun s hs => hne s (List.mem_cons_of_mem _ hs))
    · rw [UpdateKeyposeCloud_parameters, UpdateKeyposeCloud_parameters, hpar]
    · rw [UpdateKeyposeCloud_count C env hfirst, UpdateKeyposeCloud_count C env' hfirst,
        hpar, hcount]
    · rw [UpdateKeyposeCloud_stack C env hfirst, UpdateKeyposeCloud_stack C env' hfirst,
        List.length_set, List.length_set, hlen]
    · intro i hi
      rw [UpdateKeyposeCloud_stack C env hfirst, UpdateKeyposeCloud_stack C env' hfirst,
        List.getElem?_set, List.getElem?_set, hcount, hlen, hoff i hi]

theorem pushAll_stack_length (sweeps : List PlannerCloudType) (env : PlanningEnv) :
    (pushAll C env sweeps).keypose_cloud_stack_.length = env.keypose_cloud_stack_.length := by
  induction sweeps generalizing env with
  | nil => rfl
  | cons first rest ih =>
    rw [pushAll_cons, ih]
    by_cases hfirst : first = []
    · rw [hfirst, UpdateKeyposeCloud_nil]
    · rw [UpdateKeyposeCloud_stack C env hfirst, List.length_set]

end ring

/-- The raw stack after the first sweep and `depth - 1` further sweeps have
been pushed on a fresh environment: the write index is back at slot `0`. -/
theorem pushAll_count_before_wrap (C : Collaborators) (parameters : PlanningEnvParameters)
    (robot_position prev_robot_position : Vector3d) (sweeps : List PlannerCloudType)
    (hN : 1 ≤ parameters.kKeyposeCloudStackNum)
    (hlen : sweeps.length = parameters.kKeyposeCloudStackNum)
    (hne : ∀ s ∈ sweeps, s ≠ []) :
    (pushAll C (PlanningEnv.construct parameters robot_position prev_robot_position)
      sweeps).keypose_cloud_count_ = 0 := by
  have hlt := pushAll_count_lt C sweeps
    (PlanningEnv.construct parameters robot_position prev_robot_position) hne
    (by simpa [PlanningEnv.construct] using hN)
  have hmod := pushAll_count_mod C sweeps
    (PlanningEnv.construct parameters robot_position prev_robot_position) hne
  rw [Nat.mod_eq_of_lt hlt] at hmod
  rw [hmod, hlen]
  simp [PlanningEnv.construct]

/-- C1 (ring correctness): on a fresh environment of depth `N ≥ 1`, after a
first non-empty sweep and `N` further non-empty sweeps have been pushed, every
slot of `keypose_cloud_stack_` is empty or holds one of the `N` later sweeps
(re-tagged), every point of the union of the slots comes from a later sweep,
and the stack and the aggregate built from it are the same whatever the first
sweep was: nothing of the first sweep is left. -/
theorem ring_forgets_first_sweep (C : Collaborators) (parameters : PlanningEnvParameters)
    (robot_position prev_robot_position : Vector3d)
    (first first' : PlannerCloudType) (rest : List PlannerCloudType)
    (hN : 1 ≤ parameters.kKeyposeCloudStackNum)
    (hlen : rest.length = parameters.kKeyposeCloudStackNum)
    (hfirst : first ≠ []) (hfirst' : first' ≠ []) (hrest : ∀ s ∈ rest, s ≠ []) :
    (∀ slot ∈ (pushAll C (PlanningEnv.construct parameters robot_position prev_robot_position)
        (first :: rest)).keypose_cloud_stack_,
      slot = [] ∨ ∃ s ∈ rest, slot = tagNew s) ∧
    (∀ point ∈ stackUnion parameters.kKeyposeCloudStackNum
        (pushAll C (PlanningEnv.construct parameters robot_position prev_robot_position)
          (first :: rest)).keypose_cloud_stack_,
      ∃ s ∈ rest, point ∈ tagNew s) ∧
    (pushAll C (PlanningEnv.construct parameters robot_position prev_robot_position)
        (first :: rest)).keypose_cloud_stack_ =
      (pushAll C (PlanningEnv.construct parameters robot_position prev_robot_position)
        (first' :: rest)).keypose_cloud_stack_ ∧
    (pushAll C (PlanningEnv.construct parameters robot_position prev_robot_position)
        (first :: rest)).stacked_cloud_ =
      (pushAll C (PlanningEnv.construct parameters robot_position prev_robot_position)
        (first' :: rest)).stacked_cloud_ := by
  have hrne : rest ≠ [] := by
    intro h
    rw [h] at hlen
    simp at hlen
    omega
  -- split off the last sweep
  obtain ⟨mid, last, hsplit⟩ : ∃ mid last, rest = mid ++ [last] :=
    ⟨rest.dropLast, rest.getLast hrne, (List.dropLast_append_getLast hrne).symm⟩
  have hlast : last ≠ [] := hrest last (by rw [hsplit]; simp)
  have hmid : ∀ s ∈ mid, s ≠ [] := fun s hs => hrest s (by rw [hsplit]; simp [hs])
  have hmidlen : (first :: mid).length = parameters.kKeyposeCloudStackNum := by
    rw [← hlen, hsplit]; simp
  have hmidlen' : (first' :: mid).length = parameters.kKeyposeCloudStackNum := by
    rw [← hlen, hsplit]; simp
  -- the state before the last push, for both first sweeps
  have key : ∀ (f : PlannerCloudType), f ≠ [] →
      pushAll C (PlanningEnv.construct parameters robot_position prev_robot_position)
        (f :: rest) =
      UpdateKeyposeCloud C
        (pushAll C (PlanningEnv.construct parameters robot_position prev_robot_position)
          (f :: mid)) last := by
    intro f _
    rw [hsplit, ← List.cons_append, pushAll_append]
    rfl
  have hcount : ∀ (f : PlannerCloudType), f ≠ [] →
      (pushAll C (PlanningEnv.construct parameters robot_position prev_robot_position)
        (f :: mid)).keypose_cloud_count_ = 0 := by
    intro f hf
    apply pushAll_count_before_wrap C parameters _ _ _ hN
    · rw [← hlen, hsplit]; simp
    · intro s hs
      rcases List.mem_cons.1 hs with h | h
      · rw [h]; exact hf
      · exact hmid s h
  have hstacklen : ∀ (f : PlannerCloudType),
      (pushAll C (PlanningEnv.construct parameters robot_position prev_robot_position)
        (f :: mid)).keypose_cloud_stack_.length = parameters.kKeyposeCloudStackNum := by
    intro f
    rw [pushAll_stack_length]
    simp [PlanningEnv.construct]
  -- slots other than slot 0 before the last push
  have hslots : ∀ i slot,
      (pushAll C (PlanningEnv.construct parameters robot_position prev_robot_position)
        (first :: mid)).keypose_cloud_stack_[i]? = some slot →
      (i = 0 ∨ slot = [] ∨ ∃ s ∈ rest, slot = tagNew s) := by
    rw [pushAll_cons]
    apply pushAll_stack_slots C (fun i slot => i = 0 ∨ slot = [] ∨ ∃ s ∈ rest, slot = tagNew s)
      mid _ hmid
    · intro s hs i
      exact Or.inr (Or.inr ⟨s, by rw [hsplit]; simp [hs], rfl⟩)
    · intro i slot hslot
      rw [UpdateKeyposeCloud_stack C _ hfirst] at hslot
      by_cases hi : i = 0
      · exact Or.inl hi
      · right; left
        have h0 : (PlanningEnv.construct parameters robot_position
            prev_robot_position).keypose_cloud_count_ = 0 := rfl
        rw [h0, List.getElem?_set_ne (Ne.symm hi)] at hslot
        simp only [PlanningEnv.construct, List.getElem?_replicate] at hslot
        split at hslot
        · cases hslot; rfl
        · cases hslot
  have hA : ∀ slot ∈ (pushAll C
      (PlanningEnv.construct parameters robot_position prev_robot_position)
        (first :: rest)).keypose_cloud_stack_,
      slot = [] ∨ ∃ s ∈ rest, slot = tagNew s := by
    intro slot hslot
    rw [key first hfirst, UpdateKeyposeCloud_stack C _ hlast, hcount first hfirst] at hslot
    obtain ⟨i, hi⟩ := List.mem_iff_getElem?.1 hslot
    rw [List.getElem?_set] at hi
    split at hi
    · split at hi
      · cases hi
        exact Or.inr ⟨last, by rw [hsplit]; simp, rfl⟩
      · cases hi
    · rename_i h0
      rcases hslots i slot hi with h | h
      · exact absurd h.symm h0
      · exact h
  have hC : (pushAll C (PlanningEnv.construct parameters robot_position prev_robot_position)
        (first :: rest)).keypose_cloud_stack_ =
      (pushAll C (PlanningEnv.construct parameters robot_position prev_robot_position)
        (first' :: rest)).keypose_cloud_stack_ := by
    rw [key first hfirst, key first' hfirst', UpdateKeyposeCloud_stack C _ hlast,
      UpdateKeyposeCloud_stack C _ hlast, hcount first hfirst, hcount first' hfirst']
    have hagree := pushAll_agree_off_zero C mid
      (UpdateKeyposeCloud C
        (PlanningEnv.construct parameters robot_position prev_robot_position) first)
      (UpdateKeyposeCloud C
        (PlanningEnv.construct parameters robot_position prev_robot_position) first')
      hmid
      (by rw [UpdateKeyposeCloud_parameters, UpdateKeyposeCloud_parameters])
      (by rw [UpdateKeyposeCloud_count C _ hfirst, UpdateKeyposeCloud_count C _ hfirst'])
      (by rw [UpdateKeyposeCloud_stack C _ hfirst, UpdateKeyposeCloud_stack C _ hfirst',
            List.length_set, List.length_set])
      (by
        intro i hi
        have h0 : (PlanningEnv.construct parameters robot_position
            prev_robot_position).keypose_cloud_count_ = 0 := rfl
        rw [UpdateKeyposeCloud_stack C _ hfirst, UpdateKeyposeCloud_stack C _ hfirst', h0,
          List.getElem?_set_ne (Ne.symm hi), List.getElem?_set_ne (Ne.symm hi)])
    rw [← pushAll_cons, ← pushAll_cons] at hagree
    apply List.ext_getElem?
    intro i
    rw [List.getElem?_set, List.getElem?_set, hstacklen first, hstacklen first']
    split
    · rfl
    · rename_i h0
      exact hagree.2.2 i (Ne.symm h0)
  refine ⟨hA, ?_, hC, ?_⟩
  · intro point hpoint
    unfold stackUnion at hpoint
    obtain ⟨i, _, hi⟩ := List.mem_flatMap.1 hpoint
    rw [List.getD_eq_getElem?_getD] at hi
    cases hget : (pushAll C
      (PlanningEnv.construct parameters robot_position prev_robot_position)
        (first :: rest)).keypose_cloud_stack_[i]? with
    | none => rw [hget] at hi; simp at hi
    | some slot =>
      rw [hget] at hi
      simp only [Option.getD_some] at hi
      rcases hA slot (List.mem_iff_getElem?.2 ⟨i, hget⟩) with h | ⟨s, hs, h⟩
      · rw [h] at hi; simp at hi
      · exact ⟨s, hs, h ▸ hi⟩
  · rw [key first hfirst, key first' hfirst', UpdateKeyposeCloud_stacked_cloud C _ hlast,
      UpdateKeyposeCloud_stacked_cloud C _ hlast,
      ← UpdateKeyposeCloud_stack C _ hlast, ← UpdateKeyposeCloud_stack C _ hlast,
      ← key first hfirst, ← key first' hfirst', hC,
      pushAll_parameters, pushAll_parameters]

/-- Witness for C1: depth 2, three single-point sweeps; the stack is the same
when the first sweep is replaced by another one. -/
theorem ring_forgets_first_sweep_witness :
    (pushAll sampleCollaborators (sampleEnv 2)
      [[{ x := 0, y := 0, z := 0 }], [{ x := 10, y := 0, z := 0 }],
        [{ x := 20, y := 0, z := 0 }]]).keypose_cloud_stack_ =
    (pushAll sampleCollaborators (sampleEnv 2)
      [[{ x := 50, y := 50, z := 0 }], [{ x := 10, y := 0, z := 0 }],
        [{ x := 20, y := 0, z := 0 }]]).keypose_cloud_stack_ :=
  (ring_forgets_first_sweep sampleCollaborators (sampleParameters 2) ⟨0, 0, 0⟩ ⟨0, 0, 0⟩
    [{ x := 0, y := 0, z := 0 }] [{ x := 50, y := 50, z := 0 }]
    [[{ x := 10, y := 0, z := 0 }], [{ x := 20, y := 0, z := 0 }]]
    (by decide) (by decide) (by decide) (by decide) (by decide)).2.2.1

/-! ## The ring of vertical-surface clouds -/

/-- C2 at depth 2: after two pushes (every point taken as a vertical-surface
point) the vertical-surface stack holds the cloud of the second push only, in
slot `1`; slot `0` was never written, and the cloud of the first push, one of
the two most recent, is gone from the stack and from the obstacle aggregate. -/
theorem vertical_stack_depth_two_keeps_one_sweep :
    (pushAll sampleCollaborators (sampleEnv 2)
      [[{ x := 0, y := 0, z := 0 }], [{ x := 10, y := 0, z := 0 }]]
      ).vertical_surface_cloud_stack_ = [[], [{ x := 10, y := 0, z := 0 }]] ∧
    (pushAll sampleCollaborators (sampleEnv 2)
      [[{ x := 0, y := 0, z := 0 }], [{ x := 10, y := 0, z := 0 }]]
      ).stacked_vertical_surface_cloud_ = [{ x := 10, y := 0, z := 0 }] ∧
    sampleCollaborators.ExtractVerticalSurface [{ x := 0, y := 0, z := 0 }] =
      [{ x := 0, y := 0, z := 0 }] := by
  decide

/-! ## The collision query -/

theorem toSizeT_of_nonneg (v : Int) (h0 : 0 ≤ v) (h1 : v < 2 ^ 31) : (toSizeT v : Int) = v := by
  unfold toSizeT
  rw [Int.emod_eq_of_lt h0 (by omega), Int.toNat_of_nonneg h0]

/-- C3 (collision threshold boundary): when the raw stacked cloud is not empty
and the threshold `t` is a non-negative `int`, `InCollision(x, y, z)` is true
exactly when the number `c` of indices the radius search returns satisfies
`c > t`; it is false for `c = t` and true for `c = t + 1`. -/
theorem InCollision_iff_count_exceeds_threshold (C : Collaborators) (env : PlanningEnv)
    (x y z : Int) (hne : env.stacked_cloud_ ≠ [])
    (h0 : 0 ≤ env.parameters_.kKeyposeGraphCollisionCheckPointNumThr)
    (h1 : env.parameters_.kKeyposeGraphCollisionCheckPointNumThr < 2 ^ 31) :
    (InCollision C env x y z = true ↔
      env.parameters_.kKeyposeGraphCollisionCheckPointNumThr <
        ((C.radiusSearch env.stacked_vertical_surface_cloud_kdtree_
          { x := x, y := y, z := z }
          env.parameters_.kKeyposeGraphCollisionCheckRadius).length : Int)) ∧
    (((C.radiusSearch env.stacked_vertical_surface_cloud_kdtree_
          { x := x, y := y, z := z }
          env.parameters_.kKeyposeGraphCollisionCheckRadius).length : Int) =
        env.parameters_.kKeyposeGraphCollisionCheckPointNumThr →
      InCollision C env x y z = false) ∧
    (((C.radiusSearch env.stacked_vertical_surface_cloud_kdtree_
          { x := x, y := y, z := z }
          env.parameters_.kKeyposeGraphCollisionCheckRadius).length : Int) =
        env.parameters_.kKeyposeGraphCollisionCheckPointNumThr + 1 →
      InCollision C env x y z = true) := by
  have hiff : InCollision C env x y z = true ↔
      env.parameters_.kKeyposeGraphCollisionCheckPointNumThr <
        ((C.radiusSearch env.stacked_vertical_surface_cloud_kdtree_
          { x := x, y := y, z := z }
          env.parameters_.kKeyposeGraphCollisionCheckRadius).length : Int) := by
    have hconv := toSizeT_of_nonneg _ h0 h1
    unfold InCollision
    rw [if_neg hne]
    dsimp only
    split
    · simp only [true_iff]
      omega
    · simp only [Bool.false_eq_true, false_iff]
      omega
  refine ⟨hiff, ?_, ?_⟩
  · intro hc
    rw [← Bool.not_eq_true, hiff]
    omega
  · intro hc
    rw [hiff]
    omega

/-- Witness for C3: after the sweep made of the origin has been ingested at
depth 5 (threshold 1), the query at the origin finds one neighbour,
which equals the threshold: no collision. -/
theorem InCollision_iff_count_exceeds_threshold_witness :
    InCollision sampleCollaborators
      (UpdateKeyposeCloud sampleCollaborators (sampleEnv 5) [{ x := 0, y := 0, z := 0 }])
      0 0 0 = false :=
  (InCollision_iff_count_exceeds_threshold sampleCollaborators
    (UpdateKeyposeCloud sampleCollaborators (sampleEnv 5) [{ x := 0, y := 0, z := 0 }])
    0 0 0 (by decide) (by decide) (by decide)).2.1 (by decide)

/-! ## Coverage marking -/

section coverage

variable (C : Collaborators) (parameters : PlanningEnvParameters)
  (robot_viewpoint : LiDARModel) (vm : ViewPointManager)

theorem flagsRaised_refl (cloud : PlannerCloudType) : flagsRaised cloud cloud :=
  fun _ => Or.inl rfl

theorem flagsRaised_trans {a b c : PlannerCloudType} (hab : flagsRaised a b)
    (hbc : flagsRaised b c) : flagsRaised a c := by
  intro i
  rcases hbc i with h | ⟨p, hp, hc⟩
  · rw [h]; exact hab i
  · rcases hab i with h | ⟨q, hq, hb⟩
    · exact Or.inr ⟨p, by rw [← h]; exact hp, hc⟩
    · rw [hb] at hp
      cases hp
      exact Or.inr ⟨q, hq, hc⟩

/-- A covered flag of `255` survives any raising of flags. -/
theorem flagsRaised_keeps {before after : PlannerCloudType} (h : flagsRaised before after)
    (i : Nat) (point : PlannerCloudPointType) (hi : before[i]? = some point)
    (hg : point.g = 255) :
    ∃ point' : PlannerCloudPointType, after[i]? = some point' ∧ point'.g = 255 := by
  rcases h i with h | ⟨p, hp, ha⟩
  · exact ⟨point, by rw [h]; exact hi, hg⟩
  · exact ⟨_, ha, rfl⟩

theorem directMark_of_covered {point : PlannerCloudPointType} (hg : 0 < point.g) :
    directMark C parameters robot_viewpoint vm point = ({ point with g := 255 }, false) := by
  unfold directMark
  rw [if_pos hg]

theorem directPass_fst (i : Nat) (cloud : PlannerCloudType) :
    (directPass C parameters robot_viewpoint vm i cloud).1 =
      cloud.map (fun point => (directMark C parameters robot_viewpoint vm point).1) := by
  induction cloud generalizing i with
  | nil => rfl
  | cons point rest ih => simp [directPass, ih]

theorem setCovered_length (cloud : PlannerCloudType) (idx : Nat) :
    (setCovered cloud idx).length = cloud.length := by
  unfold setCovered
  split <;> simp

theorem setCovered_flagsRaised (cloud : PlannerCloudType) (idx : Nat) :
    flagsRaised cloud (setCovered cloud idx) := by
  intro i
  unfold setCovered
  split
  · rename_i point hpoint
    rw [List.getElem?_set]
    split
    · rename_i hi
      subst hi
      have hlt : idx < cloud.length := by
        rcases List.getElem?_eq_some.1 hpoint with ⟨h, _⟩
        exact h
      rw [if_pos hlt]
      exact Or.inr ⟨point, hpoint, rfl⟩
    · exact Or.inl rfl
  · exact Or.inl rfl

theorem markNearby_some (nearby : List Int) (cloud cloud' : PlannerCloudType)
    (h : markNearby cloud nearby = some cloud') :
    cloud'.length = cloud.length ∧ flagsRaised cloud cloud' := by
  induction nearby generalizing cloud with
  | nil =>
    simp only [markNearby, Option.some.injEq] at h
    subst h
    exact ⟨rfl, flagsRaised_refl _⟩
  | cons idx rest ih =>
    unfold markNearby at h
    split at h
    · obtain ⟨hlen, hr⟩ := ih _ h
      exact ⟨by rw [hlen, setCovered_length],
        flagsRaised_trans (setCovered_flagsRaised cloud idx.toNat) hr⟩
    · cases h

theorem markNearby_total (nearby : List Int) (cloud : PlannerCloudType)
    (h : ∀ idx ∈ nearby, 0 ≤ idx ∧ idx < cloud.length) :
    ∃ cloud', markNearby cloud nearby = some cloud' := by
  induction nearby generalizing cloud with
  | nil => exact ⟨cloud, rfl⟩
  | cons idx rest ih =>
    unfold markNearby
    rw [if_pos (h idx (List.mem_cons_self _ _))]
    apply ih
    intro j hj
    rw [setCovered_length]
    exact h j (List.mem_cons_of_mem _ hj)

theorem dilate_some (squeezed : SqueezedCloudType) (radius : Int) (seeds : List Nat)
    (cloud cloud' : PlannerCloudType)
    (h : dilate C squeezed radius cloud seeds = some cloud') :
    cloud'.length = cloud.length ∧ flagsRaised cloud cloud' := by
  induction seeds generalizing cloud with
  | nil =>
    simp only [dilate, Option.some.injEq] at h
    subst h
    exact ⟨rfl, flagsRaised_refl _⟩
  | cons ind rest ih =>
    unfold dilate at h
    split at h
    · exact ih _ h
    · split at h
      · cases h
      · rename_i cloud1 hmark
        obtain ⟨hlen1, hr1⟩ := markNearby_some _ _ _ hmark
        obtain ⟨hlen, hr⟩ := ih _ h
        exact ⟨by rw [hlen, hlen1], flagsRaised_trans hr1 hr⟩

theorem dilate_total (hrange : squeezedSearchInRange C) (squeezed : SqueezedCloudType) (radius : Int)
    (seeds : List Nat) (cloud : PlannerCloudType) (hlen : squeezed.length = cloud.length) :
    ∃ cloud', dilate C squeezed radius cloud seeds = some cloud' := by
  induction seeds generalizing cloud with
  | nil => exact ⟨cloud, rfl⟩
  | cons ind rest ih =>
    unfold dilate
    split
    · exact ih _ hlen
    · rename_i point _
      obtain ⟨cloud1, h1⟩ := markNearby_total (C.radiusSearchSqueezed squeezed point radius) cloud
        (fun idx hidx => by rw [← hlen]; exact hrange squeezed point radius idx hidx)
      rw [h1]
      exact ih cloud1 (by rw [(markNearby_some _ _ _ h1).1, hlen])

theorem squeeze_length (ratio : ℚ) (cloud : PlannerCloudType) :
    (squeeze ratio cloud).length = cloud.length := by
  simp [squeeze]

end coverage

/-- C4 (coverage monotonicity): whenever `UpdateCoveredArea` returns, the
planning cloud has kept its length and every point whose covered flag was
`> 0` before the call has covered flag `255` after it; it does return when the
radius search only yields indices of the indexed cloud; and `GetUncoveredArea`
leaves the planning cloud, hence every covered flag, as it is. -/
theorem covered_flag_never_reset (C : Collaborators) (env : PlanningEnv)
    (robot_viewpoint : LiDARModel) (vm : ViewPointManager) :
    (∀ env', UpdateCoveredArea C env robot_viewpoint vm = some env' →
      env'.planner_cloud_.length = env.planner_cloud_.length ∧
      ∀ (i : Nat) (point : PlannerCloudPointType),
        env.planner_cloud_[i]? = some point → 0 < point.g →
        ∃ point' : PlannerCloudPointType,
          env'.planner_cloud_[i]? = some point' ∧ point'.g = 255) ∧
    (squeezedSearchInRange C → ∃ env', UpdateCoveredArea C env robot_viewpoint vm = some env') ∧
    (GetUncoveredArea env vm).env.planner_cloud_ = env.planner_cloud_ := by
  refine ⟨?_, ?_, rfl⟩
  · intro env' h
    unfold UpdateCoveredArea at h
    split at h
    · cases h
      exact ⟨rfl, fun i point hi hg => ⟨point, hi, by simp_all⟩⟩
    · dsimp only at h
      split at h
      · cases h
      · rename_i cloud hdil
        cases h
        obtain ⟨hlen, hr⟩ := dilate_some C _ _ _ _ _ hdil
        rw [directPass_fst] at hlen hr
        refine ⟨by simpa using hlen, ?_⟩
        intro i point hi hg
        apply flagsRaised_keeps hr i (directMark C env.parameters_ robot_viewpoint vm point).1
        · rw [List.getElem?_map, hi]; rfl
        · rw [directMark_of_covered C env.parameters_ robot_viewpoint vm hg]
  · intro hrange
    unfold UpdateCoveredArea
    split
    · exact ⟨env, rfl⟩
    · dsimp only
      obtain ⟨cloud, hcloud⟩ := dilate_total C hrange
        (squeeze env.parameters_.kCoverCloudZSqueezeRatio
          (directPass C env.parameters_ robot_viewpoint vm 0 env.planner_cloud_).1)
        vm.GetCoverageDilationRadius
        (directPass C env.parameters_ robot_viewpoint vm 0 env.planner_cloud_).2
        (directPass C env.parameters_ robot_viewpoint vm 0 env.planner_cloud_).1
        (squeeze_length _ _)
      rw [hcloud]
      exact ⟨_, rfl⟩

theorem radiusSearchSqueezedModel_inRange : squeezedSearchInRange sampleCollaborators := by
  intro indexed query radius idx hidx
  simp only [sampleCollaborators, radiusSearchSqueezedModel, List.mem_map, List.mem_filter,
    List.mem_range] at hidx
  obtain ⟨i, ⟨hi, _⟩, rfl⟩ := hidx
  exact ⟨Int.ofNat_nonneg i, Int.ofNat_lt.2 hi⟩

/-- Witness for C4: on the sample planning cloud `UpdateCoveredArea` returns,
and every point that was covered before has covered flag `255` after. -/
theorem covered_flag_never_reset_witness :
    ∃ env', UpdateCoveredArea sampleCollaborators sampleCoverageEnv sampleLiDAR
        sampleViewPointManager = some env' ∧
      ∀ (i : Nat) (point : PlannerCloudPointType),
        sampleCoverageEnv.planner_cloud_[i]? = some point → 0 < point.g →
        ∃ point' : PlannerCloudPointType,
          env'.planner_cloud_[i]? = some point' ∧ point'.g = 255 := by
  obtain ⟨env', h⟩ := (covered_flag_never_reset sampleCollaborators sampleCoverageEnv
    sampleLiDAR sampleViewPointManager).2.1 radiusSearchSqueezedModel_inRange
  exact ⟨env', h, ((covered_flag_never_reset sampleCollaborators sampleCoverageEnv
    sampleLiDAR sampleViewPointManager).1 env' h).2⟩

/-- C5 on the sample planning cloud (squeeze ratio 2, dilation radius 10): the
direct pass marks the point at height 40 only (index 0); the point at height
80 (index 1) is uncovered on entry, is not marked by the direct pass, and its
compressed position is at squared distance 400 > 10² from the compressed
position of the only seed; yet it is covered when `UpdateCoveredArea` returns,
because the search is issued around the uncompressed seed position `(0,0,40)`,
which is where the compressed copy of that point lies. -/
theorem dilation_reaches_beyond_radius :
    (directPass sampleCollaborators sampleCoverageEnv.parameters_ sampleLiDAR
      sampleViewPointManager 0 sampleCoverageEnv.planner_cloud_).2 = [0] ∧
    (directPass sampleCollaborators sampleCoverageEnv.parameters_ sampleLiDAR
      sampleViewPointManager 0 sampleCoverageEnv.planner_cloud_).1 =
      [{ x := 0, y := 0, z := 40, g := 255 }, { x := 0, y := 0, z := 80, g := 0 },
       { x := 500, y := 0, z := 0, g := 255 }] ∧
    squeeze 2 [{ x := 0, y := 0, z := 40, g := 255 }, { x := 0, y := 0, z := 80, g := 0 }] =
      [{ x := 0, y := 0, z := 20, g := 255 }, { x := 0, y := 0, z := 40, g := 0 }] ∧
    sqDistSqueezed { x := 0, y := 0, z := 20, g := 255 } { x := 0, y := 0, z := 40, g := 0 } =
      400 ∧
    (UpdateCoveredArea sampleCollaborators sampleCoverageEnv sampleLiDAR
      sampleViewPointManager).map (fun env' => env'.planner_cloud_) =
      some [{ x := 0, y := 0, z := 40, g := 255 }, { x := 0, y := 0, z := 80, g := 255 },
        { x := 500, y := 0, z := 0, g := 255 }] := by
  have hne : sampleCoverageEnv.planner_cloud_ ≠ [] := by decide
  have hpass : directPass sampleCollaborators sampleCoverageEnv.parameters_ sampleLiDAR
      sampleViewPointManager 0 sampleCoverageEnv.planner_cloud_ =
      ([{ x := 0, y := 0, z := 40, g := 255 }, { x := 0, y := 0, z := 80, g := 0 },
        { x := 500, y := 0, z := 0, g := 255 }], [0]) := by decide
  have hratio : sampleCoverageEnv.parameters_.kCoverCloudZSqueezeRatio = 2 := rfl
  have hrad : sampleViewPointManager.GetCoverageDilationRadius = 10 := rfl
  have hrs : sampleCollaborators.radiusSearchSqueezed = radiusSearchSqueezedModel := rfl
  have hsearch : radiusSearchSqueezedModel
      (squeeze 2 [{ x := 0, y := 0, z := 40, g := 255 }, { x := 0, y := 0, z := 80, g := 0 },
        { x := 500, y := 0, z := 0, g := 255 }])
      { x := 0, y := 0, z := 40, g := 255 } 10 = [1] := by
    simp only [radiusSearchSqueezedModel, squeeze, squeezePoint, sqDistSqueezed, List.map_cons,
      List.map_nil, List.length_cons, List.length_nil]
    norm_num [List.range_succ, List.filter_cons]
  have hmark : markNearby
      [{ x := 0, y := 0, z := 40, g := 255 }, { x := 0, y := 0, z := 80, g := 0 },
        { x := 500, y := 0, z := 0, g := 255 }] [1] =
      some [{ x := 0, y := 0, z := 40, g := 255 }, { x := 0, y := 0, z := 80, g := 255 },
        { x := 500, y := 0, z := 0, g := 255 }] := by decide
  have hdil : dilate sampleCollaborators
      (squeeze 2 [{ x := 0, y := 0, z := 40, g := 255 }, { x := 0, y := 0, z := 80, g := 0 },
        { x := 500, y := 0, z := 0, g := 255 }]) 10
      [{ x := 0, y := 0, z := 40, g := 255 }, { x := 0, y := 0, z := 80, g := 0 },
        { x := 500, y := 0, z := 0, g := 255 }] [0] =
      some [{ x := 0, y := 0, z := 40, g := 255 }, { x := 0, y := 0, z := 80, g := 255 },
        { x := 500, y := 0, z := 0, g := 255 }] := by
    simp only [dilate, List.getElem?_cons_zero, hrs, hsearch, hmark]
  refine ⟨by rw [hpass], by rw [hpass], ?_, ?_, ?_⟩
  · simp only [squeeze, squeezePoint, List.map_cons, List.map_nil]
    norm_num
  · norm_num [sqDistSqueezed]
  · unfold UpdateCoveredArea
    rw [if_neg hne]
    dsimp only
    rw [hpass, hratio, hrad]
    dsimp only
    rw [hdil]
    rfl

/-! ## The voxel model of the downsizer -/

theorem insertVoxel_groups (Q : PlannerCloudPointType → Prop) (index : Int × Int × Int)
    (point : PlannerCloudPointType) (hpoint : Q point)
    (voxels : List ((Int × Int × Int) × PlannerCloudType))
    (h : ∀ v ∈ voxels, v.2 ≠ [] ∧ ∀ q ∈ v.2, Q q) :
    ∀ v ∈ insertVoxel index point voxels, v.2 ≠ [] ∧ ∀ q ∈ v.2, Q q := by
  induction voxels with
  | nil =>
    intro v hv
    simp only [insertVoxel, List.mem_singleton] at hv
    subst hv
    exact ⟨by simp, by simpa using hpoint⟩
  | cons head rest ih =>
    obtain ⟨k, group⟩ := head
    intro v hv
    unfold insertVoxel at hv
    split at hv
    · rcases List.mem_cons.1 hv with hv | hv
      · subst hv
        refine ⟨by simp, ?_⟩
        intro q hq
        rcases List.mem_append.1 hq with hq | hq
        · exact (h (k, group) (List.mem_cons_self _ _)).2 q hq
        · rw [List.mem_singleton.1 hq]; exact hpoint
      · exact h v (List.mem_cons_of_mem _ hv)
    · rcases List.mem_cons.1 hv with hv | hv
      · subst hv
        exact h (k, group) (List.mem_cons_self _ _)
      · exact ih (fun w hw => h w (List.mem_cons_of_mem _ hw)) v hv

theorem foldl_insertVoxel_groups (Q : PlannerCloudPointType → Prop) (leaf : Int)
    (cloud : PlannerCloudType) (hcloud : ∀ q ∈ cloud, Q q)
    (voxels : List ((Int × Int × Int) × PlannerCloudType))
    (h : ∀ v ∈ voxels, v.2 ≠ [] ∧ ∀ q ∈ v.2, Q q) :
    ∀ v ∈ cloud.foldl
        (fun voxels point => insertVoxel (voxelIndex leaf point) point voxels) voxels,
      v.2 ≠ [] ∧ ∀ q ∈ v.2, Q q := by
  induction cloud generalizing voxels with
  | nil => exact h
  | cons point rest ih =>
    rw [List.foldl_cons]
    exact ih (fun q hq => hcloud q (List.mem_cons_of_mem _ hq)) _
      (insertVoxel_groups Q _ point (hcloud point (List.mem_cons_self _ _)) voxels h)

/-- The voxel model has the averaging property assumed of the downsizer. -/
theorem voxelDownsize_averages_age : downsizeAveragesAge sampleCollaborators := by
  intro leaf cloud point hpoint
  simp only [sampleCollaborators, voxelDownsize, List.mem_map] at hpoint
  obtain ⟨v, hv, rfl⟩ := hpoint
  obtain ⟨hne, hsub⟩ := foldl_insertVoxel_groups (fun q => q ∈ cloud) leaf cloud
    (fun q hq => hq) [] (by simp) v hv
  exact ⟨v.2, hne, hsub, rfl⟩

/-! ## Novelty of the first sweep -/

/-- C6 (novelty saturation): on a freshly constructed environment, for a
first non-empty sweep and a downsizer whose output age is the mean of the ages
merged into each voxel, every point of the merged downsampled cloud has age
`0` and the diff cloud consists of all the points of that cloud. -/
theorem first_sweep_all_novel (C : Collaborators) (parameters : PlanningEnvParameters)
    (robot_position prev_robot_position : Vector3d) (keypose_cloud : PlannerCloudType)
    (hne : keypose_cloud ≠ []) (hmean : downsizeAveragesAge C) :
    (∀ point ∈ mergedCloud C
        (PlanningEnv.construct parameters robot_position prev_robot_position) keypose_cloud,
      point.r = 0) ∧
    (UpdateKeyposeCloud C (PlanningEnv.construct parameters robot_position prev_robot_position)
        keypose_cloud).diff_cloud_ =
      mergedCloud C (PlanningEnv.construct parameters robot_position prev_robot_position)
        keypose_cloud := by
  have hages : ∀ point ∈ mergedCloud C
      (PlanningEnv.construct parameters robot_position prev_robot_position) keypose_cloud,
      point.r = 0 := by
    intro point hpoint
    obtain ⟨group, hgne, hsub, hr⟩ := hmean _ _ point hpoint
    have hzero : ∀ a ∈ group.map (fun q => q.r), a = 0 := by
      intro a ha
      obtain ⟨q, hq, rfl⟩ := List.mem_map.1 ha
      have hq' := hsub q hq
      simp only [PlanningEnv.construct, tagOld, tagNew, List.map_nil, List.nil_append,
        List.mem_map] at hq'
      obtain ⟨q0, _, rfl⟩ := hq'
      rfl
    rw [hr, List.sum_eq_zero hzero, Nat.zero_div]
  refine ⟨hages, ?_⟩
  rw [UpdateKeyposeCloud_diff_cloud C _ hne, List.filter_eq_self]
  intro point hpoint
  rw [hages point hpoint]
  decide

/-- Witness for C6: the voxel model, depth 5, a first sweep of two points. -/
theorem first_sweep_all_novel_witness :
    (UpdateKeyposeCloud sampleCollaborators (sampleEnv 5)
        [{ x := 0, y := 0, z := 0, r := 200 }, { x := 10, y := 0, z := 0 }]).diff_cloud_ =
      mergedCloud sampleCollaborators (sampleEnv 5)
        [{ x := 0, y := 0, z := 0, r := 200 }, { x := 10, y := 0, z := 0 }] :=
  (first_sweep_all_novel sampleCollaborators (sampleParameters 5) ⟨0, 0, 0⟩ ⟨0, 0, 0⟩
    [{ x := 0, y := 0, z := 0, r := 200 }, { x := 10, y := 0, z := 0 }]
    (by decide) voxelDownsize_averages_age).2

/-! ## The end-to-end diff scenario -/

section scenario

/-- The origin tagged new. -/
theorem tagNew_origin (origin : PlannerCloudPointType)
    (ho : origin.x = 0 ∧ origin.y = 0 ∧ origin.z = 0) :
    tagNew [origin] = [{ x := 0, y := 0, z := 0 }] := by
  obtain ⟨x, y, z, r, g, b⟩ := origin
  obtain ⟨hx, hy, hz⟩ := ho
  simp only at hx hy hz
  subst hx hy hz
  rfl

theorem foldl_insertVoxel_origin (leaf : Int) (m : Nat) (group : PlannerCloudType) :
    (List.replicate m ({ x := 0, y := 0, z := 0 } : PlannerCloudPointType)).foldl
        (fun voxels point => insertVoxel (voxelIndex leaf point) point voxels)
        [((0, 0, 0), group)] =
      [((0, 0, 0), group ++ List.replicate m { x := 0, y := 0, z := 0 })] := by
  induction m generalizing group with
  | zero => simp
  | succ m ih =>
    rw [List.replicate_succ, List.foldl_cons]
    have hstep : insertVoxel (voxelIndex leaf { x := 0, y := 0, z := 0 })
        { x := 0, y := 0, z := 0 } [((0, 0, 0), group)] =
        [((0, 0, 0), group ++ [{ x := 0, y := 0, z := 0 }])] := by
      simp [insertVoxel, voxelIndex]
    rw [hstep, ih]
    simp

theorem centroid_replicate_origin (n : Nat) :
    centroid (List.replicate (n + 1) ({ x := 0, y := 0, z := 0 } : PlannerCloudPointType)) =
      { x := 0, y := 0, z := 0 } := by
  simp [centroid]

/-- Downsizing any number of copies of the untagged origin gives that point. -/
theorem voxelDownsize_origins (leaf : Int) (cloud : PlannerCloudType) (hne : cloud ≠ [])
    (hall : ∀ point ∈ cloud, point = { x := 0, y := 0, z := 0 }) :
    voxelDownsize leaf cloud = [{ x := 0, y := 0, z := 0 }] := by
  have hrep : cloud = List.replicate cloud.length { x := 0, y := 0, z := 0 } :=
    List.eq_replicate_iff.2 ⟨rfl, hall⟩
  obtain ⟨n, hn⟩ : ∃ n, cloud.length = n + 1 :=
    Nat.exists_eq_succ_of_ne_zero (fun h => hne (List.length_eq_zero.1 h))
  rw [hrep, hn]
  unfold voxelDownsize voxelGroups
  rw [List.replicate_succ, List.foldl_cons]
  have hstep : insertVoxel (voxelIndex leaf { x := 0, y := 0, z := 0 })
      { x := 0, y := 0, z := 0 } [] = [((0, 0, 0), [{ x := 0, y := 0, z := 0 }])] := by
    simp [insertVoxel, voxelIndex]
  rw [hstep, foldl_insertVoxel_origin]
  simp only [List.map_cons, List.map_nil, List.singleton_append, ← List.replicate_succ]
  rw [centroid_replicate_origin]

/-- One push of the origin sweep keeps the raw stack made of empty slots and
origin slots, and leaves the aggregate equal to the single origin point. -/
theorem push_origin_step (C : Collaborators) (hD : C.Downsize = voxelDownsize)
    (env : PlanningEnv) (origin : PlannerCloudPointType)
    (ho : origin.x = 0 ∧ origin.y = 0 ∧ origin.z = 0)
    (hcount : env.keypose_cloud_count_ < env.parameters_.kKeyposeCloudStackNum)
    (hlen : env.keypose_cloud_stack_.length = env.parameters_.kKeyposeCloudStackNum)
    (hslots : ∀ slot ∈ env.keypose_cloud_stack_,
      slot = [] ∨ slot = [{ x := 0, y := 0, z := 0 }]) :
    (UpdateKeyposeCloud C env [origin]).keypose_cloud_count_ <
        env.parameters_.kKeyposeCloudStackNum ∧
    (UpdateKeyposeCloud C env [origin]).keypose_cloud_stack_.length =
        env.parameters_.kKeyposeCloudStackNum ∧
    (∀ slot ∈ (UpdateKeyposeCloud C env [origin]).keypose_cloud_stack_,
      slot = [] ∨ slot = [{ x := 0, y := 0, z := 0 }]) ∧
    (UpdateKeyposeCloud C env [origin]).stacked_cloud_ = [{ x := 0, y := 0, z := 0 }] := by
  have hne : [origin] ≠ [] := by simp
  have hslots' : ∀ slot ∈ env.keypose_cloud_stack_.set env.keypose_cloud_count_
      [{ x := 0, y := 0, z := 0 }], slot = [] ∨ slot = [{ x := 0, y := 0, z := 0 }] := by
    intro slot hslot
    rcases List.mem_or_eq_of_mem_set hslot with h | h
    · exact hslots slot h
    · exact Or.inr h
  refine ⟨?_, ?_, ?_, ?_⟩
  · rw [UpdateKeyposeCloud_count_add_two C env hne]
    exact Nat.mod_lt _ (by omega)
  · rw [UpdateKeyposeCloud_stack C env hne, List.length_set, hlen]
  · rw [UpdateKeyposeCloud_stack C env hne, tagNew_origin origin ho]
    exact hslots'
  · rw [UpdateKeyposeCloud_stacked_cloud C env hne, hD, tagNew_origin origin ho]
    apply voxelDownsize_origins
    · intro hnil
      have hmem : ({ x := 0, y := 0, z := 0 } : PlannerCloudPointType) ∈
          stackUnion env.parameters_.kKeyposeCloudStackNum
            (env.keypose_cloud_stack_.set env.keypose_cloud_count_
              [{ x := 0, y := 0, z := 0 }]) := by
        unfold stackUnion
        rw [List.mem_flatMap]
        refine ⟨env.keypose_cloud_count_, List.mem_range.2 hcount, ?_⟩
        rw [List.getD_eq_getElem?_getD, List.getElem?_set_self (by rw [hlen]; exact hcount)]
        simp
      rw [hnil] at hmem
      simp at hmem
    · intro point hpoint
      unfold stackUnion at hpoint
      obtain ⟨i, _, hi⟩ := List.mem_flatMap.1 hpoint
      rw [List.getD_eq_getElem?_getD] at hi
      cases hget : (env.keypose_cloud_stack_.set env.keypose_cloud_count_
          [{ x := 0, y := 0, z := 0 }])[i]? with
      | none => rw [hget] at hi; simp at hi
      | some slot =>
        rw [hget] at hi
        simp only [Option.getD_some] at hi
        rcases hslots' slot (List.mem_iff_getElem?.2 ⟨i, hget⟩) with h | h
        · rw [h] at hi; simp at hi
        · rw [h] at hi; simpa using hi

/-- After one or more pushes of the origin sweep the aggregate is the single
origin point. -/
theorem pushAll_origin (C : Collaborators) (hD : C.Downsize = voxelDownsize)
    (origin : PlannerCloudPointType)
    (ho : origin.x = 0 ∧ origin.y = 0 ∧ origin.z = 0) (k : Nat) (env : PlanningEnv)
    (hcount : env.keypose_cloud_count_ < env.parameters_.kKeyposeCloudStackNum)
    (hlen : env.keypose_cloud_stack_.length = env.parameters_.kKeyposeCloudStackNum)
    (hslots : ∀ slot ∈ env.keypose_cloud_stack_,
      slot = [] ∨ slot = [{ x := 0, y := 0, z := 0 }]) :
    (pushAll C env (List.replicate (k + 1) [origin])).stacked_cloud_ =
      [{ x := 0, y := 0, z := 0 }] := by
  induction k generalizing env with
  | zero => exact (push_origin_step C hD env origin ho hcount hlen hslots).2.2.2
  | succ k ih =>
    rw [List.replicate_succ, pushAll_cons]
    obtain ⟨h1, h2, h3, _⟩ := push_origin_step C hD env origin ho hcount hlen hslots
    apply ih
    · rw [UpdateKeyposeCloud_parameters]; exact h1
    · rw [UpdateKeyposeCloud_parameters]; exact h2
    · exact h3

/-- When the aggregate is the single origin point, pushing the origin again
gives an empty diff cloud: the voxel merges one old and one new point, and its
age `127` is not below `40`. -/
theorem diff_cloud_origin_again (C : Collaborators) (hD : C.Downsize = voxelDownsize)
    (env : PlanningEnv) (origin : PlannerCloudPointType)
    (ho : origin.x = 0 ∧ origin.y = 0 ∧ origin.z = 0)
    (hstacked : env.stacked_cloud_ = [{ x := 0, y := 0, z := 0 }]) :
    (UpdateKeyposeCloud C env [origin]).diff_cloud_ = [] := by
  rw [UpdateKeyposeCloud_diff_cloud C env (by simp)]
  unfold mergedCloud
  rw [hD, hstacked, tagNew_origin origin ho]
  simp [tagOld, voxelDownsize, voxelGroups, insertVoxel, voxelIndex, centroid]

/-- When the aggregate is the single origin point, a sweep made of the origin
and of a point `q` of another voxel gives the diff cloud `[q]` (tagged new). -/
theorem diff_cloud_origin_and_new (C : Collaborators) (hD : C.Downsize = voxelDownsize)
    (env : PlanningEnv) (origin q : PlannerCloudPointType)
    (ho : origin.x = 0 ∧ origin.y = 0 ∧ origin.z = 0)
    (hq : voxelIndex env.parameters_.kStackedCloudDwzLeafSize q ≠
      voxelIndex env.parameters_.kStackedCloudDwzLeafSize origin)
    (hstacked : env.stacked_cloud_ = [{ x := 0, y := 0, z := 0 }]) :
    (UpdateKeyposeCloud C env [origin, q]).diff_cloud_ =
      [{ q with r := 0, g := 0, b := 0 }] := by
  rw [UpdateKeyposeCloud_diff_cloud C env (by simp)]
  unfold mergedCloud
  have htag : tagNew [origin, q] =
      [{ x := 0, y := 0, z := 0 }, { q with r := 0, g := 0, b := 0 }] := by
    have h := tagNew_origin origin ho
    simp only [tagNew, List.map_cons, List.map_nil, List.cons.injEq, and_true] at h ⊢
    exact h
  have hq' : ¬ ((0 : Int), (0 : Int), (0 : Int)) =
      (q.x / env.parameters_.kStackedCloudDwzLeafSize,
        q.y / env.parameters_.kStackedCloudDwzLeafSize,
        q.z / env.parameters_.kStackedCloudDwzLeafSize) := by
    intro h
    apply hq
    simp only [voxelIndex, ho.1, ho.2.1, ho.2.2, Int.zero_ediv]
    exact h.symm
  have hq'' : ¬ (0 : Int × Int × Int) =
      (q.x / env.parameters_.kStackedCloudDwzLeafSize,
        q.y / env.parameters_.kStackedCloudDwzLeafSize,
        q.z / env.parameters_.kStackedCloudDwzLeafSize) := hq'
  rw [hD, hstacked, htag]
  simp [tagOld, voxelDownsize, voxelGroups, insertVoxel, voxelIndex, centroid, hq'']

/-- When the aggregate is the single origin point, a sweep made only of a
point `q` of another voxel gives the diff cloud `[q]` (tagged new). -/
theorem diff_cloud_new_only (C : Collaborators) (hD : C.Downsize = voxelDownsize)
    (env : PlanningEnv) (origin q : PlannerCloudPointType)
    (ho : origin.x = 0 ∧ origin.y = 0 ∧ origin.z = 0)
    (hq : voxelIndex env.parameters_.kStackedCloudDwzLeafSize q ≠
      voxelIndex env.parameters_.kStackedCloudDwzLeafSize origin)
    (hstacked : env.stacked_cloud_ = [{ x := 0, y := 0, z := 0 }]) :
    (UpdateKeyposeCloud C env [q]).diff_cloud_ = [{ q with r := 0, g := 0, b := 0 }] := by
  rw [UpdateKeyposeCloud_diff_cloud C env (by simp)]
  unfold mergedCloud
  have hq' : ¬ ((0 : Int), (0 : Int), (0 : Int)) =
      (q.x / env.parameters_.kStackedCloudDwzLeafSize,
        q.y / env.parameters_.kStackedCloudDwzLeafSize,
        q.z / env.parameters_.kStackedCloudDwzLeafSize) := by
    intro h
    apply hq
    simp only [voxelIndex, ho.1, ho.2.1, ho.2.2, Int.zero_ediv]
    exact h.symm
  have hq'' : ¬ (0 : Int × Int × Int) =
      (q.x / env.parameters_.kStackedCloudDwzLeafSize,
        q.y / env.parameters_.kStackedCloudDwzLeafSize,
        q.z / env.parameters_.kStackedCloudDwzLeafSize) := hq'
  rw [hD, hstacked]
  simp [tagOld, tagNew, voxelDownsize, voxelGroups, insertVoxel, voxelIndex, centroid, hq'']

end scenario

/-- C8 (end-to-end diff scenario), with the voxel model of the downsizer:
at depth 5 and for a positive leaf size, after five identical sweeps made of
one point at the origin the diff cloud of the fifth push is empty; a sixth
sweep that brings a point `q` of another voxel, with or without the origin
point, then gives a diff cloud holding exactly `q` (tagged new). -/
theorem diff_scenario (C : Collaborators) (parameters : PlanningEnvParameters)
    (robot_position prev_robot_position : Vector3d) (origin q : PlannerCloudPointType)
    (hD : C.Downsize = voxelDownsize)
    (hN : parameters.kKeyposeCloudStackNum = 5)
    (hleaf : 0 < parameters.kStackedCloudDwzLeafSize)
    (ho : origin.x = 0 ∧ origin.y = 0 ∧ origin.z = 0)
    (hq : voxelIndex parameters.kStackedCloudDwzLeafSize q ≠
      voxelIndex parameters.kStackedCloudDwzLeafSize origin) :
    (pushAll C (PlanningEnv.construct parameters robot_position prev_robot_position)
      (List.replicate 5 [origin])).diff_cloud_ = [] ∧
    (pushAll C (PlanningEnv.construct parameters robot_position prev_robot_position)
      (List.replicate 5 [origin] ++ [[origin, q]])).diff_cloud_ =
      [{ q with r := 0, g := 0, b := 0 }] ∧
    (pushAll C (PlanningEnv.construct parameters robot_position prev_robot_position)
      (List.replicate 5 [origin] ++ [[q]])).diff_cloud_ =
      [{ q with r := 0, g := 0, b := 0 }] := by
  have _ := hleaf
  have hstacked : ∀ k, (pushAll C
      (PlanningEnv.construct parameters robot_position prev_robot_position)
      (List.replicate (k + 1) [origin])).stacked_cloud_ = [{ x := 0, y := 0, z := 0 }] := by
    intro k
    apply pushAll_origin C hD origin ho k
    · show 0 < parameters.kKeyposeCloudStackNum
      omega
    · simp [PlanningEnv.construct]
    · intro slot hslot
      simp only [PlanningEnv.construct, List.mem_replicate] at hslot
      exact Or.inl hslot.2
  have hpar : ∀ sweeps, (pushAll C
      (PlanningEnv.construct parameters robot_position prev_robot_position)
      sweeps).parameters_ = parameters := fun sweeps => pushAll_parameters C sweeps _
  refine ⟨?_, ?_, ?_⟩
  · have hsplit : List.replicate 5 [origin] = List.replicate 4 [origin] ++ [[origin]] := rfl
    rw [hsplit, pushAll_append]
    exact diff_cloud_origin_again C hD _ origin ho (hstacked 3)
  · rw [pushAll_append]
    exact diff_cloud_origin_and_new C hD _ origin q ho (by rw [hpar]; exact hq) (hstacked 4)
  · rw [pushAll_append]
    exact diff_cloud_new_only C hD _ origin q ho (by rw [hpar]; exact hq) (hstacked 4)

/-- Witness for C8: the voxel model with leaf size 2 and the new point at
`(10, 0, 0)`. -/
theorem diff_scenario_witness :
    (pushAll sampleCollaborators (sampleEnv 5)
      (List.replicate 5 [{ x := 0, y := 0, z := 0 }])).diff_cloud_ = [] ∧
    (pushAll sampleCollaborators (sampleEnv 5)
      (List.replicate 5 [{ x := 0, y := 0, z := 0 }] ++
        [[{ x := 0, y := 0, z := 0 }, { x := 10, y := 0, z := 0 }]])).diff_cloud_ =
      [{ x := 10, y := 0, z := 0 }] ∧
    (pushAll sampleCollaborators (sampleEnv 5)
      (List.replicate 5 [{ x := 0, y := 0, z := 0 }] ++
        [[{ x := 10, y := 0, z := 0 }]])).diff_cloud_ =
      [{ x := 10, y := 0, z := 0 }] :=
  diff_scenario sampleCollaborators (sampleParameters 5) ⟨0, 0, 0⟩ ⟨0, 0, 0⟩
    { x := 0, y := 0, z := 0 } { x := 10, y := 0, z := 0 }
    rfl rfl (by decide) (by decide) (by decide)

/-- Witness for C7: the diff cloud of a second sweep pushed at depth 5. -/
theorem diff_cloud_recomputed_each_cycle_witness :
    (UpdateKeyposeCloud sampleCollaborators
        { UpdateKeyposeCloud sampleCollaborators (sampleEnv 5) [{ x := 0, y := 0, z := 0 }]
          with diff_cloud_ := [] }
        [{ x := 10, y := 0, z := 0 }]).diff_cloud_ =
      (UpdateKeyposeCloud sampleCollaborators
        (UpdateKeyposeCloud sampleCollaborators (sampleEnv 5) [{ x := 0, y := 0, z := 0 }])
        [{ x := 10, y := 0, z := 0 }]).diff_cloud_ :=
  (diff_cloud_recomputed_each_cycle sampleCollaborators
    (UpdateKeyposeCloud sampleCollaborators (sampleEnv 5) [{ x := 0, y := 0, z := 0 }])
    [{ x := 10, y := 0, z := 0 }] [] (by decide)).2

/-! ## Uncovered enumeration -/

section uncovered

variable (vm : ViewPointManager)

theorem observePoint_foldl (visible : Int → Bool) (call : Int → ViewPointCall)
    (candidates : List Int) (calls : List ViewPointCall) (observed : Bool) :
    candidates.foldl
        (fun (acc : List ViewPointCall × Bool) viewpoint_ind =>
          if (!vm.ViewPointVisited viewpoint_ind) && visible viewpoint_ind then
            (acc.1 ++ [call viewpoint_ind], true)
          else acc)
        (calls, observed) =
      (calls ++ (candidates.filter
          (fun v => (!vm.ViewPointVisited v) && visible v)).map call,
       observed || candidates.any (fun v => (!vm.ViewPointVisited v) && visible v)) := by
  induction candidates generalizing calls observed with
  | nil => simp
  | cons v rest ih =>
    rw [List.foldl_cons]
    by_cases hv : ((!vm.ViewPointVisited v) && visible v) = true
    · rw [if_pos hv, ih]
      simp [List.filter_cons, hv]
    · rw [if_neg hv, ih]
      simp [List.filter_cons, hv]

/-- The inner loop of `GetUncoveredArea`: the registrations go to the unvisited
viewpoints that see the point, in candidate order, and `observed` tells
whether there is one. -/
theorem observePoint_eq (visible : Int → Bool) (call : Int → ViewPointCall)
    (calls : List ViewPointCall) :
    observePoint vm visible call calls =
      (calls ++ (vm.candidate_indices_.filter
          (fun v => (!vm.ViewPointVisited v) && visible v)).map call,
       seenByUnvisited vm visible) := by
  unfold observePoint seenByUnvisited
  rw [observePoint_foldl]
  simp

theorem filter_unvisited_of_not_seen (visible : Int → Bool)
    (h : seenByUnvisited vm visible = false) :
    vm.candidate_indices_.filter (fun v => (!vm.ViewPointVisited v) && visible v) = [] := by
  rw [List.filter_eq_nil_iff]
  intro v hv hq
  have : seenByUnvisited vm visible = true := List.any_eq_true.2 ⟨v, hv, hq⟩
  rw [h] at this
  cases this

/-- The loop over the planning cloud, in closed form. -/
theorem uncoveredLoop_eq (cloud : PlannerCloudType) (i k : Nat)
    (calls : List ViewPointCall) (out : XYZICloud) :
    uncoveredLoop vm i cloud (calls, out, (k : Int)) =
      (calls ++ registrations vm ViewPointCall.AddUncoveredPoint
          (fun (ip : Nat × PlannerCloudPointType) v => vm.VisibleByViewPoint ip.2 v) k
          ((cloud.enumFrom i).filter (fun ip => decide (ip.2.g = 0) &&
            seenByUnvisited vm (vm.VisibleByViewPoint ip.2))),
       out ++ ((cloud.enumFrom i).filter (fun ip => decide (ip.2.g = 0) &&
            seenByUnvisited vm (vm.VisibleByViewPoint ip.2))).map
          (fun ip => ({ x := ip.2.x, y := ip.2.y, z := ip.2.z, intensity := (ip.1 : Int) } :
            PointXYZI)),
       ((k + ((cloud.enumFrom i).filter (fun ip => decide (ip.2.g = 0) &&
            seenByUnvisited vm (vm.VisibleByViewPoint ip.2))).length : Nat) : Int)) := by
  induction cloud generalizing i k calls out with
  | nil => simp [uncoveredLoop, registrations]
  | cons point rest ih =>
    rw [uncoveredLoop, List.enumFrom_cons, List.filter_cons]
    by_cases hg : point.g > 0
    · have hg0 : decide (point.g = 0) = false := by simp; omega
      rw [if_pos hg, ih]
      simp [hg0]
    · have hg0 : decide (point.g = 0) = true := by simp; omega
      rw [if_neg hg]
      simp only [observePoint_eq, hg0, Bool.true_and]
      by_cases hseen : seenByUnvisited vm (vm.VisibleByViewPoint point) = true
      · rw [if_pos hseen, if_pos hseen]
        have hk : ((k : Int) + 1) = ((k + 1 : Nat) : Int) := by push_cast; rfl
        rw [hk, ih]
        simp only [registrations, List.map_cons, List.length_cons, List.append_assoc,
          List.singleton_append, Prod.mk.injEq, true_and]
        congr 1
        omega
      · rw [if_neg hseen, if_neg hseen, ih,
          filter_unvisited_of_not_seen vm _ (by simpa using hseen)]
        simp

/-- The loop over the filtered frontier cloud, in closed form. -/
theorem uncoveredFrontierLoop_eq (cloud : XYZICloud) (i k : Nat)
    (calls : List ViewPointCall) (out : XYZICloud) :
    uncoveredFrontierLoop vm i cloud (calls, out, (k : Int)) =
      (calls ++ registrations vm ViewPointCall.AddUncoveredFrontierPoint
          (fun (ip : Nat × PointXYZI) v => vm.VisibleByViewPointXYZI ip.2 v) k
          ((cloud.enumFrom i).filter
            (fun ip => seenByUnvisited vm (vm.VisibleByViewPointXYZI ip.2))),
       out ++ ((cloud.enumFrom i).filter
            (fun ip => seenByUnvisited vm (vm.VisibleByViewPointXYZI ip.2))).map
          (fun ip => ({ x := ip.2.x, y := ip.2.y, z := ip.2.z, intensity := (ip.1 : Int) } :
            PointXYZI)),
       ((k + ((cloud.enumFrom i).filter
            (fun ip => seenByUnvisited vm (vm.VisibleByViewPointXYZI ip.2))).length : Nat) :
          Int)) := by
  induction cloud generalizing i k calls out with
  | nil => simp [uncoveredFrontierLoop, registrations]
  | cons point rest ih =>
    rw [uncoveredFrontierLoop, List.enumFrom_cons, List.filter_cons]
    simp only [observePoint_eq]
    by_cases hseen : seenByUnvisited vm (vm.VisibleByViewPointXYZI point) = true
    · rw [if_pos hseen, if_pos hseen]
      have hk : ((k : Int) + 1) = ((k + 1 : Nat) : Int) := by push_cast; rfl
      rw [hk, ih]
      simp only [registrations, List.map_cons, List.length_cons, List.append_assoc,
        List.singleton_append, Prod.mk.injEq, true_and]
      congr 1
      omega
    · rw [if_neg hseen, if_neg hseen, ih,
        filter_unvisited_of_not_seen vm _ (by simpa using hseen)]
      simp

/-- Every call in a list of registrations is a registration. -/
theorem mem_registrations {α : Type} (call : Int → Int → ViewPointCall)
    (visible : α → Int → Bool) (points : List α) (k : Nat) (c : ViewPointCall)
    (h : c ∈ registrations vm call visible k points) :
    ∃ (w : Int) (n : Nat), c = call w (n : Int) := by
  induction points generalizing k with
  | nil => simp [registrations] at h
  | cons point rest ih =>
    simp only [registrations, List.mem_append, List.mem_map] at h
    rcases h with ⟨w, _, rfl⟩ | h
    · exact ⟨w, k, rfl⟩
    · exact ih (k + 1) h

theorem registeredWith_append (v : Int) (a b : List ViewPointCall) :
    registeredWith v (a ++ b) = registeredWith v a ++ registeredWith v b := by
  simp [registeredWith, List.filterMap_append]

theorem registeredWith_resets (v : Int) (candidates : List Int) :
    registeredWith v (candidates.map ViewPointCall.ResetViewPointCoveredPointList) = [] := by
  simp [registeredWith, List.filterMap_map]

theorem registeredWith_frontier {α : Type} (v : Int) (visible : α → Int → Bool)
    (points : List α) (k : Nat) :
    registeredWith v
      (registrations vm ViewPointCall.AddUncoveredFrontierPoint visible k points) = [] := by
  unfold registeredWith
  rw [List.filterMap_eq_nil_iff]
  intro c hc
  obtain ⟨w, n, rfl⟩ := mem_registrations vm _ _ _ _ c hc
  rfl

theorem registeredWith_map_add (v : Int) (k : Int) (viewpoints : List Int) :
    registeredWith v (viewpoints.map (fun w => ViewPointCall.AddUncoveredPoint w k)) =
      List.replicate (viewpoints.count v) k := by
  induction viewpoints with
  | nil => rfl
  | cons w rest ih =>
    have hstep : registeredWith v
        ((w :: rest).map (fun w => ViewPointCall.AddUncoveredPoint w k)) =
        (if w = v then [k] else []) ++
          registeredWith v (rest.map (fun w => ViewPointCall.AddUncoveredPoint w k)) := by
      simp only [registeredWith, List.map_cons, List.filterMap_cons]
      split_ifs <;> rfl
    rw [hstep, ih, List.count_cons]
    by_cases hw : w = v
    · subst hw
      simp [List.replicate_succ]
    · simp [hw]

end uncovered

/-- The outputs of `GetUncoveredArea` in closed form: the emitted points, the
counters and the bookkeeping calls made (resets, point registrations, frontier
registrations). -/
theorem GetUncoveredArea_eq (env : PlanningEnv) (vm : ViewPointManager) :
    (GetUncoveredArea env vm).env.uncovered_cloud_ =
      ((env.planner_cloud_.enumFrom 0).filter (fun ip => decide (ip.2.g = 0) &&
        seenByUnvisited vm (vm.VisibleByViewPoint ip.2))).map
        (fun ip => ({ x := ip.2.x, y := ip.2.y, z := ip.2.z, intensity := (ip.1 : Int) } :
          PointXYZI)) ∧
    (GetUncoveredArea env vm).uncovered_point_num =
      (((env.planner_cloud_.enumFrom 0).filter (fun ip => decide (ip.2.g = 0) &&
        seenByUnvisited vm (vm.VisibleByViewPoint ip.2))).length : Int) ∧
    (GetUncoveredArea env vm).env.uncovered_frontier_cloud_ =
      (if env.parameters_.kUseFrontier then
        ((env.filtered_frontier_cloud_.enumFrom 0).filter
          (fun ip => seenByUnvisited vm (vm.VisibleByViewPointXYZI ip.2))).map
          (fun ip => ({ x := ip.2.x, y := ip.2.y, z := ip.2.z, intensity := (ip.1 : Int) } :
            PointXYZI))
      else []) ∧
    (GetUncoveredArea env vm).uncovered_frontier_point_num =
      (if env.parameters_.kUseFrontier then
        (((env.filtered_frontier_cloud_.enumFrom 0).filter
          (fun ip => seenByUnvisited vm (vm.VisibleByViewPointXYZI ip.2))).length : Int)
      else 0) ∧
    (GetUncoveredArea env vm).viewpoint_manager.calls =
      vm.calls ++
        (vm.candidate_indices_.map ViewPointCall.ResetViewPointCoveredPointList ++
          (registrations vm ViewPointCall.AddUncoveredPoint
            (fun (ip : Nat × PlannerCloudPointType) v => vm.VisibleByViewPoint ip.2 v) 0
            ((env.planner_cloud_.enumFrom 0).filter (fun ip => decide (ip.2.g = 0) &&
              seenByUnvisited vm (vm.VisibleByViewPoint ip.2))) ++
          (if env.parameters_.kUseFrontier then
            registrations vm ViewPointCall.AddUncoveredFrontierPoint
              (fun (ip : Nat × PointXYZI) v => vm.VisibleByViewPointXYZI ip.2 v) 0
              ((env.filtered_frontier_cloud_.enumFrom 0).filter
                (fun ip => seenByUnvisited vm (vm.VisibleByViewPointXYZI ip.2)))
          else []))) := by
  have hpoints := uncoveredLoop_eq vm env.planner_cloud_ 0 0
    (vm.calls ++ vm.candidate_indices_.map ViewPointCall.ResetViewPointCoveredPointList) []
  have hfrontier := fun calls => uncoveredFrontierLoop_eq vm env.filtered_frontier_cloud_ 0 0
    calls []
  simp only [Nat.cast_zero, Nat.zero_add, List.nil_append] at hpoints hfrontier
  unfold GetUncoveredArea
  simp only [hpoints, hfrontier]
  by_cases hf : env.parameters_.kUseFrontier = true
  · simp [hf]
  · simp [hf]

theorem filter_enumFrom_length {α : Type} (f : α → Bool) (l : List α) (n : Nat) :
    ((l.enumFrom n).filter (fun ip => f ip.2)).length = (l.filter f).length := by
  have h : l.filter f = ((l.enumFrom n).filter (fun ip => f ip.2)).map Prod.snd := by
    conv_lhs => rw [← List.enumFrom_map_snd n l]
    rw [List.filter_map]
    rfl
  rw [h, List.length_map]

/-- C11: `GetUncoveredArea` emits exactly the planning-cloud points whose
covered flag is `0` and that some unvisited candidate viewpoint sees, in
ascending index order, each with its position copied and its planning-cloud
index as intensity; `uncovered_point_num` is the number of those points; a
point whose covered flag is `> 0` is never emitted. -/
theorem uncovered_cloud_lists_visible_uncovered_points (env : PlanningEnv)
    (vm : ViewPointManager) :
    (GetUncoveredArea env vm).env.uncovered_cloud_ =
      (env.planner_cloud_.enum.filter (fun ip => decide (ip.2.g = 0) &&
        seenByUnvisited vm (vm.VisibleByViewPoint ip.2))).map
        (fun ip => ({ x := ip.2.x, y := ip.2.y, z := ip.2.z, intensity := (ip.1 : Int) } :
          PointXYZI)) ∧
    (GetUncoveredArea env vm).uncovered_point_num =
      ((env.planner_cloud_.filter (fun point => decide (point.g = 0) &&
        seenByUnvisited vm (vm.VisibleByViewPoint point))).length : Int) ∧
    (GetUncoveredArea env vm).uncovered_point_num =
      ((GetUncoveredArea env vm).env.uncovered_cloud_.length : Int) ∧
    (∀ u ∈ (GetUncoveredArea env vm).env.uncovered_cloud_,
      ∃ (i : Nat) (point : PlannerCloudPointType),
        env.planner_cloud_[i]? = some point ∧ point.g = 0 ∧
        (∃ v ∈ vm.candidate_indices_,
          vm.ViewPointVisited v = false ∧ vm.VisibleByViewPoint point v = true) ∧
        u = { x := point.x, y := point.y, z := point.z, intensity := (i : Int) }) ∧
    (∀ (i : Nat) (point : PlannerCloudPointType),
      env.planner_cloud_[i]? = some point → point.g = 0 →
      (∃ v ∈ vm.candidate_indices_,
        vm.ViewPointVisited v = false ∧ vm.VisibleByViewPoint point v = true) →
      ({ x := point.x, y := point.y, z := point.z, intensity := (i : Int) } : PointXYZI) ∈
        (GetUncoveredArea env vm).env.uncovered_cloud_) ∧
    List.Pairwise (fun a b => a < b)
      ((GetUncoveredArea env vm).env.uncovered_cloud_.map (fun u => u.intensity)) := by
  obtain ⟨hcloud, hnum, _, _, _⟩ := GetUncoveredArea_eq env vm
  have hseen : ∀ point : PlannerCloudPointType,
      seenByUnvisited vm (vm.VisibleByViewPoint point) = true ↔
        ∃ v ∈ vm.candidate_indices_,
          vm.ViewPointVisited v = false ∧ vm.VisibleByViewPoint point v = true := by
    intro point
    simp [seenByUnvisited, List.any_eq_true]
  refine ⟨hcloud, ?_, ?_, ?_, ?_, ?_⟩
  · rw [hnum]
    exact congrArg Nat.cast (filter_enumFrom_length
      (fun point => decide (point.g = 0) && seenByUnvisited vm (vm.VisibleByViewPoint point))
      env.planner_cloud_ 0)
  · rw [hnum, hcloud, List.length_map]
  · intro u hu
    rw [hcloud, List.mem_map] at hu
    obtain ⟨⟨i, point⟩, hmem, rfl⟩ := hu
    rw [List.mem_filter] at hmem
    obtain ⟨hin, hcond⟩ := hmem
    simp only [Bool.and_eq_true, decide_eq_true_eq] at hcond
    exact ⟨i, point, List.mk_mem_enum_iff_getElem?.1 hin, hcond.1, (hseen point).1 hcond.2, rfl⟩
  · intro i point hi hg hv
    rw [hcloud, List.mem_map]
    refine ⟨(i, point), ?_, rfl⟩
    rw [List.mem_filter]
    refine ⟨List.mk_mem_enum_iff_getElem?.2 hi, ?_⟩
    simp only [Bool.and_eq_true, decide_eq_true_eq]
    exact ⟨hg, (hseen point).2 hv⟩
  · rw [hcloud, List.map_map, List.pairwise_map]
    have hbase : List.Pairwise (fun a b : Nat × PlannerCloudPointType => a.1 < b.1)
        (env.planner_cloud_.enumFrom 0) := by
      rw [← List.pairwise_map (f := Prod.fst) (R := fun a b => a < b),
        List.enumFrom_map_fst]
      exact List.pairwise_lt_range' 0 _
    refine (hbase.sublist (List.filter_sublist _)).imp ?_
    intro a b hab
    exact Int.ofNat_lt.2 hab

theorem count_filter_candidates (candidates : List Int) (v : Int) (f : Int → Bool) :
    (candidates.filter f).count v = if f v = true then candidates.count v else 0 := by
  by_cases h : f v = true
  · rw [if_pos h]
    exact List.count_filter h
  · rw [if_neg h]
    exact List.count_eq_zero_of_not_mem (fun hmem => h (List.mem_filter.1 hmem).2)

/-- The point registrations sorted by viewpoint: an unvisited viewpoint is
registered with the output positions of the points it sees, in ascending
order, each position once per occurrence of the viewpoint in the candidate
list; a visited viewpoint with nothing. -/
theorem registeredWith_registrations {α : Type} (vm : ViewPointManager) (v : Int)
    (visible : α → Int → Bool) (points : List α) (k : Nat) :
    registeredWith v (registrations vm ViewPointCall.AddUncoveredPoint visible k points) =
      if vm.ViewPointVisited v = false then
        ((points.enumFrom k).filter (fun jp => visible jp.2 v)).flatMap
          (fun jp => List.replicate (vm.candidate_indices_.count v) (jp.1 : Int))
      else [] := by
  induction points generalizing k with
  | nil => simp [registrations, registeredWith]
  | cons point rest ih =>
    rw [registrations, registeredWith_append, registeredWith_map_add, ih,
      count_filter_candidates, List.enumFrom_cons, List.filter_cons]
    by_cases hv : vm.ViewPointVisited v = false
    · rw [if_pos hv]
      by_cases hvis : visible point v = true
      · simp [hv, hvis]
      · simp [hv, hvis]
    · rw [if_neg hv]
      have hvisited : vm.ViewPointVisited v = true := by simpa using hv
      simp [hvisited]

theorem flatMap_replicate_one {α β : Type} (f : α → β) (l : List α) :
    l.flatMap (fun a => List.replicate 1 (f a)) = l.map f := by
  induction l with
  | nil => rfl
  | cons a rest ih =>
    rw [List.flatMap_cons, ih]
    rfl

theorem flatMap_replicate_zero {α β : Type} (f : α → β) (l : List α) :
    l.flatMap (fun a => List.replicate 0 (f a)) = [] := by
  induction l with
  | nil => rfl
  | cons a rest ih =>
    rw [List.flatMap_cons, ih]
    rfl

/-- C12 as stated fails when a candidate is listed twice: with the candidate
list `[2, 2]` and the sample planning cloud, the two points seen by viewpoint
2 take the output positions 0 and 1, and the indices registered with
viewpoint 2 are `[0, 0, 1, 1]`, not the list `[0, 1]` of positions. -/
theorem duplicate_candidate_registered_twice :
    registeredWith 2
        ((GetUncoveredArea sampleUncoveredEnv
          { sampleCandidates with candidate_indices_ := [2, 2] }).viewpoint_manager.calls.drop
          sampleCandidates.calls.length) = [0, 0, 1, 1] ∧
    ((GetUncoveredArea sampleUncoveredEnv
        { sampleCandidates with candidate_indices_ := [2, 2] }).env.uncovered_cloud_.enum.filter
      (fun ju => match sampleUncoveredEnv.planner_cloud_[ju.2.intensity.toNat]? with
        | some point => sampleCandidates.VisibleByViewPoint point 2
        | none => false)).map (fun ju => (ju.1 : Int)) = [0, 1] ∧
    registeredWith 2
        ((GetUncoveredArea sampleUncoveredEnv
          { sampleCandidates with candidate_indices_ := [2, 2] }).viewpoint_manager.calls.drop
          sampleCandidates.calls.length) ≠
      ((GetUncoveredArea sampleUncoveredEnv
          { sampleCandidates with candidate_indices_ := [2, 2] }).env.uncovered_cloud_.enum.filter
        (fun ju => match sampleUncoveredEnv.planner_cloud_[ju.2.intensity.toNat]? with
          | some point => sampleCandidates.VisibleByViewPoint point 2
          | none => false)).map (fun ju => (ju.1 : Int)) := by
  decide

/-- C12 as the code has it: the calls `GetUncoveredArea` makes extend the trace
of the viewpoint manager; the indices it registers with an unvisited viewpoint
`v` through `AddUncoveredPoint` are, in ascending order, the positions `j` of
the uncovered-point output whose point (the planning-cloud point designated by
the intensity of output point `j`) is visible from `v`, each position once per
occurrence of `v` in `candidate_indices_`, so exactly the list of these
positions when `v` is listed once; each registered index is
`< uncovered_point_num`; a visited viewpoint or a viewpoint that is not a
candidate is registered with nothing. -/
theorem registrations_repeat_per_listing (env : PlanningEnv) (vm : ViewPointManager)
    (v : Int) :
    (GetUncoveredArea env vm).viewpoint_manager.calls =
      vm.calls ++ (GetUncoveredArea env vm).viewpoint_manager.calls.drop vm.calls.length ∧
    (vm.ViewPointVisited v = false →
      registeredWith v ((GetUncoveredArea env vm).viewpoint_manager.calls.drop vm.calls.length) =
        ((GetUncoveredArea env vm).env.uncovered_cloud_.enum.filter
          (fun ju => match env.planner_cloud_[ju.2.intensity.toNat]? with
            | some point => vm.VisibleByViewPoint point v
            | none => false)).flatMap
          (fun ju => List.replicate (vm.candidate_indices_.count v) (ju.1 : Int))) ∧
    (vm.ViewPointVisited v = false → vm.candidate_indices_.count v = 1 →
      registeredWith v ((GetUncoveredArea env vm).viewpoint_manager.calls.drop vm.calls.length) =
        ((GetUncoveredArea env vm).env.uncovered_cloud_.enum.filter
          (fun ju => match env.planner_cloud_[ju.2.intensity.toNat]? with
            | some point => vm.VisibleByViewPoint point v
            | none => false)).map (fun ju => (ju.1 : Int))) ∧
    (vm.ViewPointVisited v = true ∨ v ∉ vm.candidate_indices_ →
      registeredWith v ((GetUncoveredArea env vm).viewpoint_manager.calls.drop vm.calls.length) =
        []) ∧
    (∀ j ∈ registeredWith v
        ((GetUncoveredArea env vm).viewpoint_manager.calls.drop vm.calls.length),
      0 ≤ j ∧ j < (GetUncoveredArea env vm).uncovered_point_num) := by
  obtain ⟨hcloud, hnum, _, _, hcalls⟩ := GetUncoveredArea_eq env vm
  have hdrop : (GetUncoveredArea env vm).viewpoint_manager.calls.drop vm.calls.length =
      vm.candidate_indices_.map ViewPointCall.ResetViewPointCoveredPointList ++
        (registrations vm ViewPointCall.AddUncoveredPoint
          (fun (ip : Nat × PlannerCloudPointType) v => vm.VisibleByViewPoint ip.2 v) 0
          ((env.planner_cloud_.enumFrom 0).filter (fun ip => decide (ip.2.g = 0) &&
            seenByUnvisited vm (vm.VisibleByViewPoint ip.2))) ++
        (if env.parameters_.kUseFrontier then
          registrations vm ViewPointCall.AddUncoveredFrontierPoint
            (fun (ip : Nat × PointXYZI) v => vm.VisibleByViewPointXYZI ip.2 v) 0
            ((env.filtered_frontier_cloud_.enumFrom 0).filter
              (fun ip => seenByUnvisited vm (vm.VisibleByViewPointXYZI ip.2)))
        else [])) := by
    rw [hcalls, List.drop_left]
  have hreg : registeredWith v
      ((GetUncoveredArea env vm).viewpoint_manager.calls.drop vm.calls.length) =
      if vm.ViewPointVisited v = false then
        ((((env.planner_cloud_.enumFrom 0).filter (fun ip => decide (ip.2.g = 0) &&
            seenByUnvisited vm (vm.VisibleByViewPoint ip.2))).enumFrom 0).filter
          (fun jp => vm.VisibleByViewPoint jp.2.2 v)).flatMap
          (fun jp => List.replicate (vm.candidate_indices_.count v) (jp.1 : Int))
      else [] := by
    rw [hdrop, registeredWith_append, registeredWith_append, registeredWith_resets,
      registeredWith_registrations vm]
    have hfr : registeredWith v
        (if env.parameters_.kUseFrontier then
          registrations vm ViewPointCall.AddUncoveredFrontierPoint
            (fun (ip : Nat × PointXYZI) v => vm.VisibleByViewPointXYZI ip.2 v) 0
            ((env.filtered_frontier_cloud_.enumFrom 0).filter
              (fun ip => seenByUnvisited vm (vm.VisibleByViewPointXYZI ip.2)))
        else []) = [] := by
      split
      · exact registeredWith_frontier vm v _ _ _
      · rfl
    rw [hfr, List.nil_append, List.append_nil]
  -- the positions seen by `v`, read off the output cloud
  have hpositions : ((GetUncoveredArea env vm).env.uncovered_cloud_.enum.filter
        (fun ju => match env.planner_cloud_[ju.2.intensity.toNat]? with
          | some point => vm.VisibleByViewPoint point v
          | none => false)).map (fun ju => (ju.1 : Int)) =
      ((((env.planner_cloud_.enumFrom 0).filter (fun ip => decide (ip.2.g = 0) &&
          seenByUnvisited vm (vm.VisibleByViewPoint ip.2))).enumFrom 0).filter
        (fun jp => vm.VisibleByViewPoint jp.2.2 v)).map (fun jp => (jp.1 : Int)) := by
    rw [hcloud, List.enum_eq_enumFrom, List.enumFrom_map, List.filter_map, List.map_map]
    congr 1
    apply List.filter_congr
    rintro ⟨j, i, point⟩ hmem
    have hin : (i, point) ∈ (env.planner_cloud_.enumFrom 0).filter
        (fun ip => decide (ip.2.g = 0) && seenByUnvisited vm (vm.VisibleByViewPoint ip.2)) := by
      have h := List.mem_enumFrom hmem
      rw [h.2.2]
      exact List.getElem_mem _
    have hget : env.planner_cloud_[i]? = some point :=
      List.mk_mem_enum_iff_getElem?.1 (List.mem_filter.1 hin).1
    simp [hget]
  have hflat : ∀ (n : Nat) {β : Type} (l : List (Nat × β)),
      l.flatMap (fun jp => List.replicate n (jp.1 : Int)) =
        (l.map (fun jp => (jp.1 : Int))).flatMap (fun j => List.replicate n j) := by
    intro n β l
    rw [List.flatMap_map]
  have hrepeat : vm.ViewPointVisited v = false →
      registeredWith v ((GetUncoveredArea env vm).viewpoint_manager.calls.drop vm.calls.length) =
        ((GetUncoveredArea env vm).env.uncovered_cloud_.enum.filter
          (fun ju => match env.planner_cloud_[ju.2.intensity.toNat]? with
            | some point => vm.VisibleByViewPoint point v
            | none => false)).flatMap
          (fun ju => List.replicate (vm.candidate_indices_.count v) (ju.1 : Int)) := by
    intro hunvisited
    rw [hreg, if_pos hunvisited, hflat, hflat, hpositions]
  refine ⟨?_, hrepeat, ?_, ?_, ?_⟩
  · rw [hdrop]
    exact hcalls
  · intro hunvisited hone
    rw [hrepeat hunvisited, hone]
    exact flatMap_replicate_one _ _
  · intro hv
    rw [hreg]
    rcases hv with hv | hv
    · rw [if_neg (by rw [hv]; decide)]
    · split
      · rw [List.count_eq_zero_of_not_mem hv]
        exact flatMap_replicate_zero _ _
      · rfl
  · intro j hj
    rw [hreg] at hj
    split at hj
    · rw [List.mem_flatMap] at hj
      obtain ⟨jp, hjp, hrep⟩ := hj
      rw [(List.mem_replicate.1 hrep).2]
      have hlt := List.fst_lt_add_of_mem_enumFrom (List.mem_filter.1 hjp).1
      rw [hnum]
      exact ⟨Int.ofNat_nonneg _, by exact_mod_cast (by omega : jp.1 < _)⟩
    · cases hj

/-- Witness for C12: on the sample planning cloud, viewpoint 2 (unvisited,
listed once) is registered with the output positions of the points it sees. -/
theorem registrations_repeat_per_listing_witness :
    registeredWith 2
        ((GetUncoveredArea sampleUncoveredEnv sampleCandidates).viewpoint_manager.calls.drop
          sampleCandidates.calls.length) =
      ((GetUncoveredArea sampleUncoveredEnv sampleCandidates).env.uncovered_cloud_.enum.filter
        (fun ju => match sampleUncoveredEnv.planner_cloud_[ju.2.intensity.toNat]? with
          | some point => sampleCandidates.VisibleByViewPoint point 2
          | none => false)).map (fun ju => (ju.1 : Int)) :=
  (registrations_repeat_per_listing sampleUncoveredEnv sampleCandidates 2).2.2.1
    (by decide) (by decide)

/-! ## Frontier mode -/

theorem UpdateFrontiers_disabled (C : Collaborators) (env : PlanningEnv)
    (h : env.parameters_.kUseFrontier = false) : UpdateFrontiers C env = env := by
  simp [UpdateFrontiers, h]

/-- C17: with frontier mode disabled `UpdateFrontiers` changes nothing, and
`GetUncoveredArea` returns `uncovered_frontier_point_num = 0`, leaves the
uncovered-frontier output empty and makes no `AddUncoveredFrontierPoint` call;
with frontier mode enabled the uncovered-frontier output lists, in order, the
filtered frontier points that some unvisited candidate viewpoint sees
(position copied, index as intensity), and the counter is their number. -/
theorem frontier_mode_gates_frontier_outputs (C : Collaborators) (env : PlanningEnv)
    (vm : ViewPointManager) :
    (env.parameters_.kUseFrontier = false →
      UpdateFrontiers C env = env ∧
      (GetUncoveredArea env vm).uncovered_frontier_point_num = 0 ∧
      (GetUncoveredArea env vm).env.uncovered_frontier_cloud_ = [] ∧
      ∀ (w j : Int), ViewPointCall.AddUncoveredFrontierPoint w j ∉
        (GetUncoveredArea env vm).viewpoint_manager.calls.drop vm.calls.length) ∧
    (env.parameters_.kUseFrontier = true →
      (GetUncoveredArea env vm).env.uncovered_frontier_cloud_ =
        (env.filtered_frontier_cloud_.enum.filter
          (fun ip => seenByUnvisited vm (vm.VisibleByViewPointXYZI ip.2))).map
          (fun ip => ({ x := ip.2.x, y := ip.2.y, z := ip.2.z, intensity := (ip.1 : Int) } :
            PointXYZI)) ∧
      (GetUncoveredArea env vm).uncovered_frontier_point_num =
        ((env.filtered_frontier_cloud_.filter
          (fun point => seenByUnvisited vm (vm.VisibleByViewPointXYZI point))).length : Int)) := by
  obtain ⟨_, _, hcloud, hnum, hcalls⟩ := GetUncoveredArea_eq env vm
  constructor
  · intro hoff
    rw [hoff] at hcloud hnum hcalls
    simp only [Bool.false_eq_true, if_false, List.append_nil] at hcloud hnum hcalls
    refine ⟨UpdateFrontiers_disabled C env hoff, hnum, hcloud, ?_⟩
    intro w j hmem
    rw [hcalls, List.drop_left, List.mem_append] at hmem
    rcases hmem with hmem | hmem
    · rw [List.mem_map] at hmem
      obtain ⟨_, _, h⟩ := hmem
      cases h
    · obtain ⟨_, _, h⟩ := mem_registrations vm _ _ _ _ _ hmem
      cases h
  · intro hon
    rw [hon] at hcloud hnum
    simp only [if_true] at hcloud hnum
    refine ⟨hcloud, ?_⟩
    rw [hnum]
    exact congrArg Nat.cast (filter_enumFrom_length
      (fun point => seenByUnvisited vm (vm.VisibleByViewPointXYZI point))
      env.filtered_frontier_cloud_ 0)

/-- Witness for C17: frontier mode is disabled in the sample environment. -/
theorem frontier_mode_gates_frontier_outputs_witness :
    UpdateFrontiers sampleCollaborators sampleUncoveredEnv = sampleUncoveredEnv ∧
    (GetUncoveredArea sampleUncoveredEnv sampleCandidates).uncovered_frontier_point_num = 0 :=
  ⟨((frontier_mode_gates_frontier_outputs sampleCollaborators sampleUncoveredEnv
      sampleCandidates).1 rfl).1,
   ((frontier_mode_gates_frontier_outputs sampleCollaborators sampleUncoveredEnv
      sampleCandidates).1 rfl).2.1⟩

/-! ## Empty inputs of the coverage marking and of the collision query -/

/-- C16: `UpdateCoveredArea` called while the planning cloud is empty returns
the environment as it is: no covered flag and no other member changes, and the
trace of calls received by the grid store is unchanged, so neither
`GetCloudPointIndex` nor `UpdateCoveredCloudPoints` is called. -/
theorem UpdateCoveredArea_empty_planner_cloud (C : Collaborators) (env : PlanningEnv)
    (robot_viewpoint : LiDARModel) (vm : ViewPointManager) (h : env.planner_cloud_ = []) :
    UpdateCoveredArea C env robot_viewpoint vm = some env ∧
    ∀ env', UpdateCoveredArea C env robot_viewpoint vm = some env' →
      env'.pointcloud_manager_ = env.pointcloud_manager_ ∧
      env'.planner_cloud_ = env.planner_cloud_ := by
  have hsame : UpdateCoveredArea C env robot_viewpoint vm = some env := by
    simp [UpdateCoveredArea, h]
  refine ⟨hsame, ?_⟩
  intro env' henv'
  rw [hsame] at henv'
  cases henv'
  exact ⟨rfl, rfl⟩

/-- Witness for C16: the planning cloud of a fresh environment is empty. -/
theorem UpdateCoveredArea_empty_planner_cloud_witness :
    UpdateCoveredArea sampleCollaborators (sampleEnv 5) sampleLiDAR sampleViewPointManager =
      some (sampleEnv 5) :=
  (UpdateCoveredArea_empty_planner_cloud sampleCollaborators (sampleEnv 5) sampleLiDAR
    sampleViewPointManager rfl).1

section marking

variable (C : Collaborators) (parameters : PlanningEnvParameters)
  (robot_viewpoint : LiDARModel) (vm : ViewPointManager)

theorem directPass_snd (i : Nat) (cloud : PlannerCloudType) :
    (directPass C parameters robot_viewpoint vm i cloud).2 =
      ((cloud.enumFrom i).filter
        (fun ip => (directMark C parameters robot_viewpoint vm ip.2).2)).map Prod.fst := by
  induction cloud generalizing i with
  | nil => rfl
  | cons point rest ih =>
    rw [directPass, List.enumFrom_cons, List.filter_cons]
    dsimp only
    rw [ih]
    split <;> rfl

theorem directMark_snd (point : PlannerCloudPointType) :
    (directMark C parameters robot_viewpoint vm point).2 = true ↔
      point.g = 0 ∧ (coveredBySensor C parameters robot_viewpoint vm point = true ∨
        coveredByVisitedViewPoint vm point = true) := by
  unfold directMark
  split
  · simp; omega
  · have hg : point.g = 0 := by omega
    split
    · simp_all
    · split <;> simp_all

theorem directMark_fst (point : PlannerCloudPointType) :
    (directMark C parameters robot_viewpoint vm point).1 =
      if 0 < point.g ∨ (directMark C parameters robot_viewpoint vm point).2 = true then
        { point with g := 255 }
      else point := by
  unfold directMark
  split
  · rename_i hg
    rw [if_pos (Or.inl hg)]
  · rename_i hg
    split
    · simp
    · split
      · simp
      · simp [hg]

theorem mem_directPass_snd (cloud : PlannerCloudType) (i : Nat) :
    i ∈ (directPass C parameters robot_viewpoint vm 0 cloud).2 ↔
      ∃ point : PlannerCloudPointType, cloud[i]? = some point ∧
        (directMark C parameters robot_viewpoint vm point).2 = true := by
  rw [directPass_snd, List.mem_map]
  constructor
  · rintro ⟨⟨j, point⟩, hmem, rfl⟩
    rw [List.mem_filter] at hmem
    exact ⟨point, List.mk_mem_enum_iff_getElem?.1 hmem.1, hmem.2⟩
  · rintro ⟨point, hi, hmark⟩
    exact ⟨(i, point), List.mem_filter.2 ⟨List.mk_mem_enum_iff_getElem?.2 hi, hmark⟩, rfl⟩

end marking

/-- C19 (direct marking rule): the seed list `covered_point_indices` built by
the marking loop of `UpdateCoveredArea` is strictly ascending, and an index
`i` is in it exactly when its point has covered flag `0` on entry and either
is within `sensorRange * 0.3` of the robot height, in the simple field of view
and visible for the sensor model, or is seen by a candidate viewpoint that is
visited; a point whose flag is `> 0` on entry is never a seed. -/
theorem seeds_follow_direct_marking_rule (C : Collaborators) (env : PlanningEnv)
    (robot_viewpoint : LiDARModel) (vm : ViewPointManager) :
    List.Pairwise (fun a b => a < b)
      (directPass C env.parameters_ robot_viewpoint vm 0 env.planner_cloud_).2 ∧
    (∀ i : Nat,
      i ∈ (directPass C env.parameters_ robot_viewpoint vm 0 env.planner_cloud_).2 ↔
        ∃ point : PlannerCloudPointType, env.planner_cloud_[i]? = some point ∧ point.g = 0 ∧
          ((10 * |point.z - robot_viewpoint.getPosition.z| < 3 * vm.GetSensorRange ∧
            C.InFOVSimple ⟨point.x, point.y, point.z⟩ robot_viewpoint.getPosition (3, 10)
              vm.GetSensorRange (5 * env.parameters_.kPlannerCloudDwzLeafSize)
              (3 * env.parameters_.kPlannerCloudDwzLeafSize) = true ∧
            robot_viewpoint.CheckVisibility point vm.GetCoverageOcclusionThr = true) ∨
           ∃ v ∈ vm.candidate_indices_,
            vm.ViewPointVisited v = true ∧ vm.VisibleByViewPoint point v = true)) ∧
    (∀ (i : Nat) (point : PlannerCloudPointType), env.planner_cloud_[i]? = some point →
      0 < point.g →
      i ∉ (directPass C env.parameters_ robot_viewpoint vm 0 env.planner_cloud_).2) := by
  have hiff : ∀ i : Nat,
      i ∈ (directPass C env.parameters_ robot_viewpoint vm 0 env.planner_cloud_).2 ↔
        ∃ point : PlannerCloudPointType, env.planner_cloud_[i]? = some point ∧ point.g = 0 ∧
          ((10 * |point.z - robot_viewpoint.getPosition.z| < 3 * vm.GetSensorRange ∧
            C.InFOVSimple ⟨point.x, point.y, point.z⟩ robot_viewpoint.getPosition (3, 10)
              vm.GetSensorRange (5 * env.parameters_.kPlannerCloudDwzLeafSize)
              (3 * env.parameters_.kPlannerCloudDwzLeafSize) = true ∧
            robot_viewpoint.CheckVisibility point vm.GetCoverageOcclusionThr = true) ∨
           ∃ v ∈ vm.candidate_indices_,
            vm.ViewPointVisited v = true ∧ vm.VisibleByViewPoint point v = true) := by
    intro i
    rw [mem_directPass_snd]
    refine exists_congr (fun point => and_congr_right (fun _ => ?_))
    rw [directMark_snd]
    refine and_congr_right (fun _ => or_congr ?_ ?_)
    · simp [coveredBySensor, and_assoc]
    · simp [coveredByVisitedViewPoint, List.any_eq_true]
  refine ⟨?_, hiff, ?_⟩
  · rw [directPass_snd, List.pairwise_map]
    have hbase : List.Pairwise (fun a b : Nat × PlannerCloudPointType => a.1 < b.1)
        (env.planner_cloud_.enumFrom 0) := by
      rw [← List.pairwise_map (f := Prod.fst) (R := fun a b => a < b),
        List.enumFrom_map_fst]
      exact List.pairwise_lt_range' 0 _
    exact hbase.sublist (List.filter_sublist _)
  · intro i point hi hg hmem
    obtain ⟨q, hq, hq0, _⟩ := (hiff i).1 hmem
    rw [hi] at hq
    cases hq
    omega

section dilation

theorem setCovered_getElem? (cloud : PlannerCloudType) (idx i : Nat) :
    (setCovered cloud idx)[i]? =
      if i = idx then (cloud[i]?).map (fun point => { point with g := 255 }) else cloud[i]? := by
  unfold setCovered
  split
  · rename_i point hpoint
    rw [List.getElem?_set]
    by_cases hi : idx = i
    · subst hi
      have hlt : idx < cloud.length := (List.getElem?_eq_some.1 hpoint).1
      simp [hlt, hpoint]
    · rw [if_neg hi, if_neg (Ne.symm hi)]
  · rename_i hnone
    by_cases hi : i = idx
    · subst hi
      simp [hnone]
    · rw [if_neg hi]

theorem map_raise_idem (o : Option PlannerCloudPointType) :
    (o.map (fun point => { point with g := 255 })).map
        (fun point : PlannerCloudPointType => { point with g := 255 }) =
      o.map (fun point => { point with g := 255 }) := by
  cases o <;> rfl

/-- The inner loop of the dilation sets exactly the flags of the returned indices. -/
theorem markNearby_exact (nearby : List Int) (cloud cloud' : PlannerCloudType)
    (h : markNearby cloud nearby = some cloud') (i : Nat) :
    cloud'[i]? =
      if (i : Int) ∈ nearby then (cloud[i]?).map (fun point => { point with g := 255 })
      else cloud[i]? := by
  induction nearby generalizing cloud with
  | nil =>
    simp only [markNearby, Option.some.injEq] at h
    subst h
    simp
  | cons idx rest ih =>
    unfold markNearby at h
    split at h
    · rename_i hidx
      rw [ih _ h, setCovered_getElem?]
      have hcast : (i : Int) = idx ↔ i = idx.toNat := by omega
      by_cases hrest : (i : Int) ∈ rest
      · rw [if_pos hrest, if_pos (List.mem_cons_of_mem _ hrest)]
        split
        · exact map_raise_idem _
        · rfl
      · rw [if_neg hrest]
        by_cases hi : i = idx.toNat
        · rw [if_pos hi, if_pos (by rw [List.mem_cons]; exact Or.inl (hcast.2 hi))]
        · rw [if_neg hi, if_neg]
          rw [List.mem_cons]
          rintro (h1 | h1)
          · exact hi (hcast.1 h1)
          · exact hrest h1
    · cases h

/-- The dilation sets exactly the flags of the indices returned by the radius
searches around its seeds, provided the seeds are covered when it starts. -/
theorem dilate_exact (C : Collaborators) (squeezed : SqueezedCloudType) (radius : Int)
    (seeds : List Nat) (cloud cloud' : PlannerCloudType)
    (hseeds : ∀ s ∈ seeds, ∀ q : PlannerCloudPointType, cloud[s]? = some q → q.g = 255)
    (h : dilate C squeezed radius cloud seeds = some cloud') (i : Nat) :
    ((∃ s ∈ seeds, ∃ q : PlannerCloudPointType, cloud[s]? = some q ∧
        (i : Int) ∈ C.radiusSearchSqueezed squeezed q radius) →
      cloud'[i]? = (cloud[i]?).map (fun point => { point with g := 255 })) ∧
    ((¬ ∃ s ∈ seeds, ∃ q : PlannerCloudPointType, cloud[s]? = some q ∧
        (i : Int) ∈ C.radiusSearchSqueezed squeezed q radius) →
      cloud'[i]? = cloud[i]?) := by
  induction seeds generalizing cloud with
  | nil =>
    simp only [dilate, Option.some.injEq] at h
    subst h
    simp
  | cons ind rest ih =>
    unfold dilate at h
    split at h
    · rename_i hnone
      obtain ⟨ih1, ih2⟩ := ih cloud (fun s hs => hseeds s (List.mem_cons_of_mem _ hs)) h
      constructor
      · rintro ⟨s, hs, q, hq, hmem⟩
        rcases List.mem_cons.1 hs with rfl | hs
        · rw [hnone] at hq; cases hq
        · exact ih1 ⟨s, hs, q, hq, hmem⟩
      · intro hno
        exact ih2 (fun ⟨s, hs, q, hq, hmem⟩ => hno ⟨s, List.mem_cons_of_mem _ hs, q, hq, hmem⟩)
    · rename_i point hpoint
      split at h
      · cases h
      · rename_i cloud1 hmark
        have hcloud1 := markNearby_exact _ _ _ hmark
        -- the seeds still to visit are untouched by this step
        have hsame : ∀ s ∈ rest, cloud1[s]? = cloud[s]? := by
          intro s hs
          rw [hcloud1 s]
          split
          · cases hq : cloud[s]? with
            | none => rfl
            | some q =>
              have hg := hseeds s (List.mem_cons_of_mem _ hs) q hq
              obtain ⟨x, y, z, r, g, b⟩ := q
              simp only at hg
              subst hg
              rfl
          · rfl
        obtain ⟨ih1, ih2⟩ := ih cloud1
          (fun s hs q hq => hseeds s (List.mem_cons_of_mem _ hs) q (by rw [← hsame s hs]; exact hq))
          h
        constructor
        · rintro ⟨s, hs, q, hq, hmem⟩
          by_cases hrest : ∃ s ∈ rest, ∃ q : PlannerCloudPointType, cloud1[s]? = some q ∧
              (i : Int) ∈ C.radiusSearchSqueezed squeezed q radius
          · rw [ih1 hrest, hcloud1 i]
            split
            · exact map_raise_idem _
            · rfl
          · rw [ih2 hrest, hcloud1 i]
            rcases List.mem_cons.1 hs with rfl | hs
            · rw [hpoint] at hq
              cases hq
              rw [if_pos hmem]
            · exact absurd ⟨s, hs, q, by rw [hsame s hs]; exact hq, hmem⟩ hrest
        · intro hno
          have hrest : ¬ ∃ s ∈ rest, ∃ q : PlannerCloudPointType, cloud1[s]? = some q ∧
              (i : Int) ∈ C.radiusSearchSqueezed squeezed q radius := by
            rintro ⟨s, hs, q, hq, hmem⟩
            exact hno ⟨s, List.mem_cons_of_mem _ hs, q, by rw [← hsame s hs]; exact hq, hmem⟩
          rw [ih2 hrest, hcloud1 i, if_neg]
          intro hmem
          exact hno ⟨ind, List.mem_cons_self _ _, point, hpoint, hmem⟩

end dilation

theorem raise_directMark_fst (C : Collaborators) (parameters : PlanningEnvParameters)
    (robot_viewpoint : LiDARModel) (vm : ViewPointManager) (point : PlannerCloudPointType) :
    ({ (directMark C parameters robot_viewpoint vm point).1 with g := 255 } :
      PlannerCloudPointType) = { point with g := 255 } := by
  rw [directMark_fst]
  split <;> rfl

/-- The covered flags when `UpdateCoveredArea` returns: a point is raised to
`255` if it was covered on entry, is a seed, or is returned by the radius
search around a seed; otherwise it is unchanged, with flag `0`. -/
theorem UpdateCoveredArea_exact (C : Collaborators) (env : PlanningEnv)
    (robot_viewpoint : LiDARModel) (vm : ViewPointManager) (env' : PlanningEnv)
    (h : UpdateCoveredArea C env robot_viewpoint vm = some env')
    (i : Nat) (point : PlannerCloudPointType) (hi : env.planner_cloud_[i]? = some point) :
    ((0 < point.g ∨
        i ∈ (directPass C env.parameters_ robot_viewpoint vm 0 env.planner_cloud_).2 ∨
        (∃ s ∈ (directPass C env.parameters_ robot_viewpoint vm 0 env.planner_cloud_).2,
          ∃ q : PlannerCloudPointType, env.planner_cloud_[s]? = some q ∧
            (i : Int) ∈ C.radiusSearchSqueezed env'.squeezed_planner_cloud_kdtree_
              { q with g := 255 } vm.GetCoverageDilationRadius)) →
      env'.planner_cloud_[i]? = some { point with g := 255 }) ∧
    (¬ (0 < point.g ∨
        i ∈ (directPass C env.parameters_ robot_viewpoint vm 0 env.planner_cloud_).2 ∨
        (∃ s ∈ (directPass C env.parameters_ robot_viewpoint vm 0 env.planner_cloud_).2,
          ∃ q : PlannerCloudPointType, env.planner_cloud_[s]? = some q ∧
            (i : Int) ∈ C.radiusSearchSqueezed env'.squeezed_planner_cloud_kdtree_
              { q with g := 255 } vm.GetCoverageDilationRadius)) →
      env'.planner_cloud_[i]? = some point ∧ point.g = 0) := by
  unfold UpdateCoveredArea at h
  split at h
  · rename_i hnil
    rw [hnil] at hi
    simp at hi
  · dsimp only at h
    split at h
    · cases h
    · rename_i cloud hdil
      cases h
      dsimp only
      have hfst := directPass_fst C env.parameters_ robot_viewpoint vm 0 env.planner_cloud_
      -- a seed is covered after the direct pass, and is the planning point with flag 255
      have hseedpt : ∀ s ∈ (directPass C env.parameters_ robot_viewpoint vm 0
          env.planner_cloud_).2, ∀ q : PlannerCloudPointType,
          (directPass C env.parameters_ robot_viewpoint vm 0 env.planner_cloud_).1[s]? =
            some q →
          ∃ q0 : PlannerCloudPointType, env.planner_cloud_[s]? = some q0 ∧
            q = { q0 with g := 255 } := by
        intro s hs q hq
        obtain ⟨q0, hq0, hmark⟩ := (mem_directPass_snd C env.parameters_ robot_viewpoint vm
          env.planner_cloud_ s).1 hs
        rw [hfst, List.getElem?_map, hq0] at hq
        simp only [Option.map_some', Option.some.injEq] at hq
        refine ⟨q0, hq0, ?_⟩
        rw [← hq, directMark_fst, if_pos (Or.inr hmark)]
      have hexact := dilate_exact C _ _ _ _ _
        (fun s hs q hq => by
          obtain ⟨q0, _, rfl⟩ := hseedpt s hs q hq
          rfl) hdil i
      have hdirect : (directPass C env.parameters_ robot_viewpoint vm 0
          env.planner_cloud_).1[i]? =
          some (directMark C env.parameters_ robot_viewpoint vm point).1 := by
        rw [hfst, List.getElem?_map, hi]; rfl
      have hmemD : i ∈ (directPass C env.parameters_ robot_viewpoint vm 0
          env.planner_cloud_).2 ↔
          (directMark C env.parameters_ robot_viewpoint vm point).2 = true := by
        rw [mem_directPass_snd]
        constructor
        · rintro ⟨p, hp, hmark⟩
          rw [hi] at hp
          cases hp
          exact hmark
        · intro hmark
          exact ⟨point, hi, hmark⟩
      -- the neighbour condition, in both forms
      have hN : (∃ s ∈ (directPass C env.parameters_ robot_viewpoint vm 0
            env.planner_cloud_).2, ∃ q : PlannerCloudPointType,
            (directPass C env.parameters_ robot_viewpoint vm 0 env.planner_cloud_).1[s]? =
              some q ∧
            (i : Int) ∈ C.radiusSearchSqueezed
              (squeeze env.parameters_.kCoverCloudZSqueezeRatio
                (directPass C env.parameters_ robot_viewpoint vm 0 env.planner_cloud_).1)
              q vm.GetCoverageDilationRadius) ↔
          (∃ s ∈ (directPass C env.parameters_ robot_viewpoint vm 0 env.planner_cloud_).2,
            ∃ q : PlannerCloudPointType, env.planner_cloud_[s]? = some q ∧
              (i : Int) ∈ C.radiusSearchSqueezed
                (squeeze env.parameters_.kCoverCloudZSqueezeRatio
                  (directPass C env.parameters_ robot_viewpoint vm 0 env.planner_cloud_).1)
                { q with g := 255 } vm.GetCoverageDilationRadius) := by
        constructor
        · rintro ⟨s, hs, q, hq, hmem⟩
          obtain ⟨q0, hq0, rfl⟩ := hseedpt s hs q hq
          exact ⟨s, hs, q0, hq0, hmem⟩
        · rintro ⟨s, hs, q0, hq0, hmem⟩
          refine ⟨s, hs, { q0 with g := 255 }, ?_, hmem⟩
          obtain ⟨p, hp, hmark⟩ := (mem_directPass_snd C env.parameters_ robot_viewpoint vm
            env.planner_cloud_ s).1 hs
          rw [hq0] at hp
          cases hp
          rw [hfst, List.getElem?_map, hq0]
          simp only [Option.map_some', Option.some.injEq]
          rw [directMark_fst, if_pos (Or.inr hmark)]
      constructor
      · intro hcond
        by_cases hnb : ∃ s ∈ (directPass C env.parameters_ robot_viewpoint vm 0
            env.planner_cloud_).2, ∃ q : PlannerCloudPointType, env.planner_cloud_[s]? = some q ∧
              (i : Int) ∈ C.radiusSearchSqueezed
                (squeeze env.parameters_.kCoverCloudZSqueezeRatio
                  (directPass C env.parameters_ robot_viewpoint vm 0 env.planner_cloud_).1)
                { q with g := 255 } vm.GetCoverageDilationRadius
        · rw [hexact.1 (hN.2 hnb), hdirect]
          simp only [Option.map_some', Option.some.injEq]
          exact raise_directMark_fst C env.parameters_ robot_viewpoint vm point
        · rw [hexact.2 (fun h => hnb (hN.1 h)), hdirect, directMark_fst]
          rcases hcond with hg | hD | hnb'
          · rw [if_pos (Or.inl hg)]
          · rw [if_pos (Or.inr (hmemD.1 hD))]
          · exact absurd hnb' hnb
      · intro hcond
        have hnb : ¬ ∃ s ∈ (directPass C env.parameters_ robot_viewpoint vm 0
            env.planner_cloud_).2, ∃ q : PlannerCloudPointType, env.planner_cloud_[s]? = some q ∧
              (i : Int) ∈ C.radiusSearchSqueezed
                (squeeze env.parameters_.kCoverCloudZSqueezeRatio
                  (directPass C env.parameters_ robot_viewpoint vm 0 env.planner_cloud_).1)
                { q with g := 255 } vm.GetCoverageDilationRadius :=
          fun h => hcond (Or.inr (Or.inr h))
        rw [hexact.2 (fun h => hnb (hN.1 h)), hdirect, directMark_fst, if_neg]
        · exact ⟨rfl, by
            have : ¬ 0 < point.g := fun h => hcond (Or.inl h)
            omega⟩
        · rintro (hg | hmark)
          · exact hcond (Or.inl hg)
          · exact hcond (Or.inr (Or.inl (hmemD.2 hmark)))

/-- The marking returns when the radius search only yields indices of the
indexed cloud. -/
theorem UpdateCoveredArea_total (C : Collaborators) (env : PlanningEnv)
    (robot_viewpoint : LiDARModel) (vm : ViewPointManager) (hrange : squeezedSearchInRange C) :
    ∃ env', UpdateCoveredArea C env robot_viewpoint vm = some env' := by
  unfold UpdateCoveredArea
  split
  · exact ⟨env, rfl⟩
  · dsimp only
    obtain ⟨cloud, hcloud⟩ := dilate_total C hrange
      (squeeze env.parameters_.kCoverCloudZSqueezeRatio
        (directPass C env.parameters_ robot_viewpoint vm 0 env.planner_cloud_).1)
      vm.GetCoverageDilationRadius
      (directPass C env.parameters_ robot_viewpoint vm 0 env.planner_cloud_).2
      (directPass C env.parameters_ robot_viewpoint vm 0 env.planner_cloud_).1
      (squeeze_length _ _)
    rw [hcloud]
    exact ⟨_, rfl⟩

/-- C18 (no dilation of dilation): whenever `UpdateCoveredArea` returns, a
point of the planning cloud has covered flag `255` if it was covered on entry
(`P`), or is a seed of the direct pass (`D`), or is returned by the radius
search around a seed (`N(D)`, searched in the tree of the compressed cloud),
and otherwise it is unchanged with flag `0`; nothing else is covered. The
function returns when the radius search only yields indices of the indexed
cloud. -/
theorem covered_set_is_seeds_and_their_neighbours (C : Collaborators) (env : PlanningEnv)
    (robot_viewpoint : LiDARModel) (vm : ViewPointManager) :
    (∀ env', UpdateCoveredArea C env robot_viewpoint vm = some env' →
      ∀ (i : Nat) (point : PlannerCloudPointType), env.planner_cloud_[i]? = some point →
        ((0 < point.g ∨
            i ∈ (directPass C env.parameters_ robot_viewpoint vm 0 env.planner_cloud_).2 ∨
            (∃ s ∈ (directPass C env.parameters_ robot_viewpoint vm 0 env.planner_cloud_).2,
              ∃ q : PlannerCloudPointType, env.planner_cloud_[s]? = some q ∧
                (i : Int) ∈ C.radiusSearchSqueezed env'.squeezed_planner_cloud_kdtree_
                  { q with g := 255 } vm.GetCoverageDilationRadius)) →
          env'.planner_cloud_[i]? = some { point with g := 255 }) ∧
        (¬ (0 < point.g ∨
            i ∈ (directPass C env.parameters_ robot_viewpoint vm 0 env.planner_cloud_).2 ∨
            (∃ s ∈ (directPass C env.parameters_ robot_viewpoint vm 0 env.planner_cloud_).2,
              ∃ q : PlannerCloudPointType, env.planner_cloud_[s]? = some q ∧
                (i : Int) ∈ C.radiusSearchSqueezed env'.squeezed_planner_cloud_kdtree_
                  { q with g := 255 } vm.GetCoverageDilationRadius)) →
          env'.planner_cloud_[i]? = some point ∧ point.g = 0)) ∧
    (squeezedSearchInRange C → ∃ env', UpdateCoveredArea C env robot_viewpoint vm = some env') :=
  ⟨fun env' h i point hi => UpdateCoveredArea_exact C env robot_viewpoint vm env' h i point hi,
    UpdateCoveredArea_total C env robot_viewpoint vm⟩

/-- Witness for C18: on the sample planning cloud the radius search stays in
range, so `UpdateCoveredArea` returns. -/
theorem covered_set_is_seeds_and_their_neighbours_witness :
    ∃ env', UpdateCoveredArea sampleCollaborators sampleCoverageEnv sampleLiDAR
      sampleViewPointManager = some env' :=
  (covered_set_is_seeds_and_their_neighbours sampleCollaborators sampleCoverageEnv
    sampleLiDAR sampleViewPointManager).2 radiusSearchSqueezedModel_inRange

/-! ## Frontier clusters -/

section clusters

theorem setIntensity_getElem? (cloud : XYZICloud) (idx value : Int) (i : Nat) :
    (setIntensity cloud idx value)[i]? =
      if idx = (i : Int) then (cloud[i]?).map (fun point => { point with intensity := value })
      else cloud[i]? := by
  unfold setIntensity
  split
  · rename_i h0
    have hcast : idx = (i : Int) ↔ idx.toNat = i := by omega
    split
    · rename_i point hpoint
      rw [List.getElem?_set]
      by_cases hi : idx.toNat = i
      · subst hi
        have hlt : idx.toNat < cloud.length := (List.getElem?_eq_some.1 hpoint).1
        rw [if_pos rfl, if_pos hlt, if_pos (hcast.2 rfl), hpoint]
        rfl
      · rw [if_neg hi, if_neg (fun h => hi (hcast.1 h))]
    · rename_i hnone
      by_cases hi : idx.toNat = i
      · subst hi
        rw [if_pos (hcast.2 rfl), hnone]
        rfl
      · rw [if_neg (fun h => hi (hcast.1 h))]
  · rename_i h0
    rw [if_neg]
    omega

theorem map_setIntensity_idem (o : Option PointXYZI) (value : Int) :
    (o.map (fun point => { point with intensity := value })).map
        (fun point : PointXYZI => { point with intensity := value }) =
      o.map (fun point => { point with intensity := value }) := by
  cases o <;> rfl

/-- Labelling one cluster writes its id into exactly the points it designates. -/
theorem foldl_setIntensity_getElem? (indices : List Int) (cloud : XYZICloud) (value : Int)
    (i : Nat) :
    (indices.foldl (fun c point_ind => setIntensity c point_ind value) cloud)[i]? =
      if (i : Int) ∈ indices then
        (cloud[i]?).map (fun point => { point with intensity := value })
      else cloud[i]? := by
  induction indices generalizing cloud with
  | nil => simp
  | cons idx rest ih =>
    rw [List.foldl_cons, ih, setIntensity_getElem?]
    by_cases hrest : (i : Int) ∈ rest
    · rw [if_pos hrest, if_pos (List.mem_cons_of_mem _ hrest)]
      split
      · exact map_setIntensity_idem _ _
      · rfl
    · rw [if_neg hrest]
      by_cases hi : idx = (i : Int)
      · rw [if_pos hi, if_pos (by rw [List.mem_cons]; exact Or.inl hi.symm)]
      · rw [if_neg hi, if_neg]
        rw [List.mem_cons]
        rintro (h | h)
        · exact hi h.symm
        · exact hrest h

theorem extractIndices_append (cloud : XYZICloud) (a b : List Int) :
    extractIndices cloud (a ++ b) = extractIndices cloud a ++ extractIndices cloud b := by
  simp [extractIndices, List.filterMap_append]

theorem labelledClusters_congr (a b : XYZICloud) (clusters : List (List Int)) (k : Nat)
    (h : ∀ c ∈ clusters, ∀ idx ∈ c, 0 ≤ idx → a[idx.toNat]? = b[idx.toNat]?) :
    labelledClusters a k clusters = labelledClusters b k clusters := by
  induction clusters generalizing k with
  | nil => rfl
  | cons c rest ih =>
    rw [labelledClusters, labelledClusters,
      ih (k + 1) (fun c' hc' => h c' (List.mem_cons_of_mem _ hc'))]
    congr 1
    apply List.filterMap_congr
    intro idx hidx
    by_cases h0 : 0 ≤ idx
    · rw [if_pos h0, if_pos h0, h c (List.mem_cons_self _ _) idx hidx h0]
    · rw [if_neg h0, if_neg h0]

/-- The labelling loop of `UpdateFrontiers`, for pairwise disjoint clusters:
the inliers are the indices of the clusters that are not too small, points
outside every cluster are untouched, and extracting the inliers gives the
surviving clusters labelled with consecutive ids. -/
theorem labelClusters_spec (minSize : Int) (clusters : List (List Int)) (cloud : XYZICloud)
    (inliers : List Int) (k : Nat)
    (hdisj : clusters.Pairwise (fun a b => ∀ idx ∈ a, idx ∉ b)) :
    (labelClusters minSize clusters (cloud, inliers, (k : Int))).2.1 =
      inliers ++ (clusters.filter (fun c => decide (toSizeT minSize ≤ c.length))).flatten ∧
    (∀ i : Nat, (∀ c ∈ clusters, (i : Int) ∉ c) →
      (labelClusters minSize clusters (cloud, inliers, (k : Int))).1[i]? = cloud[i]?) ∧
    extractIndices (labelClusters minSize clusters (cloud, inliers, (k : Int))).1
        (clusters.filter (fun c => decide (toSizeT minSize ≤ c.length))).flatten =
      labelledClusters cloud k
        (clusters.filter (fun c => decide (toSizeT minSize ≤ c.length))) := by
  induction clusters generalizing cloud inliers k with
  | nil => simp [labelClusters, extractIndices, labelledClusters]
  | cons c rest ih =>
    obtain ⟨hc, hrest⟩ := List.pairwise_cons.1 hdisj
    rw [labelClusters, List.filter_cons]
    by_cases hsmall : c.length < toSizeT minSize
    · have hdec : decide (toSizeT minSize ≤ c.length) = false := by simp; omega
      rw [if_pos hsmall, hdec]
      simp only [Bool.false_eq_true, if_false]
      obtain ⟨ih1, ih2, ih3⟩ := ih cloud inliers k hrest
      exact ⟨ih1, fun i hi => ih2 i (fun c' hc' => hi c' (List.mem_cons_of_mem _ hc')), ih3⟩
    · have hdec : decide (toSizeT minSize ≤ c.length) = true := by simp; omega
      rw [if_neg hsmall, hdec]
      simp only [if_true]
      have hk : ((k : Int) + 1) = ((k + 1 : Nat) : Int) := by push_cast; rfl
      rw [hk]
      obtain ⟨ih1, ih2, ih3⟩ := ih
        (c.foldl (fun cl point_ind => setIntensity cl point_ind (k : Int)) cloud)
        (inliers ++ c) (k + 1) hrest
      refine ⟨?_, ?_, ?_⟩
      · rw [ih1, List.flatten_cons, List.append_assoc]
      · intro i hi
        rw [ih2 i (fun c' hc' => hi c' (List.mem_cons_of_mem _ hc')),
          foldl_setIntensity_getElem?, if_neg (hi c (List.mem_cons_self _ _))]
      · rw [List.flatten_cons, extractIndices_append, ih3, labelledClusters]
        congr 1
        · unfold extractIndices
          apply List.filterMap_congr
          intro idx hidx
          by_cases h0 : 0 ≤ idx
          · rw [if_pos h0, if_pos h0]
            have hcast : ((idx.toNat : Nat) : Int) = idx := Int.toNat_of_nonneg h0
            rw [ih2 idx.toNat (fun c' hc' => by rw [hcast]; exact hc c' hc' idx hidx),
              foldl_setIntensity_getElem?, if_pos (by rw [hcast]; exact hidx)]
          · rw [if_neg h0, if_neg h0]
        · apply labelledClusters_congr
          intro c' hc' idx hidx h0
          have hcast : ((idx.toNat : Nat) : Int) = idx := Int.toNat_of_nonneg h0
          rw [foldl_setIntensity_getElem?, if_neg]
          rw [hcast]
          intro hmem
          exact hc c' (List.mem_filter.1 hc').1 idx hmem hidx

theorem filterMap_length_of_isSome {α β : Type} (f : α → Option β) (l : List α)
    (h : ∀ a ∈ l, (f a).isSome = true) : (l.filterMap f).length = l.length := by
  induction l with
  | nil => rfl
  | cons a rest ih =>
    have ha := h a (List.mem_cons_self _ _)
    cases hfa : f a with
    | none => rw [hfa] at ha; cases ha
    | some b =>
      rw [List.filterMap_cons, hfa]
      simp [ih (fun a' ha' => h a' (List.mem_cons_of_mem _ ha'))]

/-- When the indices designate points of the cloud, every labelled cluster
contributes all its points. -/
theorem labelledClusters_length (cloud : XYZICloud) (clusters : List (List Int)) (k : Nat)
    (hrange : ∀ c ∈ clusters, ∀ idx ∈ c, 0 ≤ idx ∧ idx < cloud.length) :
    (labelledClusters cloud k clusters).length = (clusters.map List.length).sum := by
  induction clusters generalizing k with
  | nil => rfl
  | cons c rest ih =>
    rw [labelledClusters, List.length_append,
      ih (k + 1) (fun c' hc' => hrange c' (List.mem_cons_of_mem _ hc')),
      List.map_cons, List.sum_cons]
    congr 1
    apply filterMap_length_of_isSome
    intro idx hidx
    obtain ⟨h0, hlt⟩ := hrange c (List.mem_cons_self _ _) idx hidx
    rw [if_pos h0]
    have hlt' : idx.toNat < cloud.length := by omega
    simp [hlt']

end clusters

/-! ## Frontier extraction -/

/-- The filtered frontier cloud after `UpdateFrontiers` when clustering runs. -/
theorem UpdateFrontiers_filtered (C : Collaborators) (env : PlanningEnv)
    (huse : env.parameters_.kUseFrontier = true) (hne : frontierToCluster C env ≠ []) :
    (UpdateFrontiers C env).filtered_frontier_cloud_ =
      extractIndices
        (labelClusters env.parameters_.kFrontierClusterMinSize
          (C.extractClusters env.parameters_.kFrontierClusterTolerance (frontierToCluster C env))
          (frontierToCluster C env, [], 0)).1
        (labelClusters env.parameters_.kFrontierClusterMinSize
          (C.extractClusters env.parameters_.kFrontierClusterTolerance (frontierToCluster C env))
          (frontierToCluster C env, [], 0)).2.1 := by
  have hne' := hne
  unfold frontierToCluster at hne'
  unfold UpdateFrontiers
  rw [if_pos huse]
  dsimp only
  rw [if_pos hne']
  rfl

/-- C13 (frontier size filter and labelling): when frontier mode is enabled,
the cloud to cluster is not empty, the minimum size is an `int` `≥ 1` and the
clusters returned by the clusterer are pairwise disjoint, the filtered
frontier cloud after `UpdateFrontiers` consists of the points of the clusters
of size `≥ MinSize`, cluster after cluster, each point carrying as intensity
the 0-based rank of its cluster among the surviving clusters; smaller clusters
contribute nothing, and when the indices designate points of the cloud every
surviving cluster contributes all its points. -/
theorem frontier_clusters_filtered_and_labelled (C : Collaborators) (env : PlanningEnv)
    (huse : env.parameters_.kUseFrontier = true) (hne : frontierToCluster C env ≠ [])
    (hmin : 1 ≤ env.parameters_.kFrontierClusterMinSize)
    (hmax : env.parameters_.kFrontierClusterMinSize < 2 ^ 31)
    (hdisj : (C.extractClusters env.parameters_.kFrontierClusterTolerance
      (frontierToCluster C env)).Pairwise (fun a b => ∀ idx ∈ a, idx ∉ b)) :
    (UpdateFrontiers C env).filtered_frontier_cloud_ =
      labelledClusters (frontierToCluster C env) 0
        ((C.extractClusters env.parameters_.kFrontierClusterTolerance
          (frontierToCluster C env)).filter
          (fun c => decide (env.parameters_.kFrontierClusterMinSize ≤ (c.length : Int)))) ∧
    ((∀ c ∈ C.extractClusters env.parameters_.kFrontierClusterTolerance
        (frontierToCluster C env),
        ∀ idx ∈ c, 0 ≤ idx ∧ idx < (frontierToCluster C env).length) →
      (UpdateFrontiers C env).filtered_frontier_cloud_.length =
        (((C.extractClusters env.parameters_.kFrontierClusterTolerance
          (frontierToCluster C env)).filter
          (fun c => decide (env.parameters_.kFrontierClusterMinSize ≤ (c.length : Int)))).map
          List.length).sum) := by
  have hfilter : (C.extractClusters env.parameters_.kFrontierClusterTolerance
      (frontierToCluster C env)).filter
        (fun c => decide (toSizeT env.parameters_.kFrontierClusterMinSize ≤ c.length)) =
      (C.extractClusters env.parameters_.kFrontierClusterTolerance
        (frontierToCluster C env)).filter
        (fun c => decide (env.parameters_.kFrontierClusterMinSize ≤ (c.length : Int))) := by
    apply List.filter_congr
    intro c _
    have hconv := toSizeT_of_nonneg env.parameters_.kFrontierClusterMinSize (by omega) hmax
    congr 1
    apply propext
    omega
  have hspec := labelClusters_spec env.parameters_.kFrontierClusterMinSize
    (C.extractClusters env.parameters_.kFrontierClusterTolerance (frontierToCluster C env))
    (frontierToCluster C env) [] 0 hdisj
  simp only [Nat.cast_zero, List.nil_append] at hspec
  obtain ⟨h1, _, h3⟩ := hspec
  have hmain : (UpdateFrontiers C env).filtered_frontier_cloud_ =
      labelledClusters (frontierToCluster C env) 0
        ((C.extractClusters env.parameters_.kFrontierClusterTolerance
          (frontierToCluster C env)).filter
          (fun c => decide (env.parameters_.kFrontierClusterMinSize ≤ (c.length : Int)))) := by
    rw [UpdateFrontiers_filtered C env huse hne, h1, h3, hfilter]
  refine ⟨hmain, ?_⟩
  intro hrange
  rw [hmain]
  apply labelledClusters_length
  intro c hc
  exact hrange c (List.mem_filter.1 hc).1

/-- Witness for C13: three frontier points, clusters `{0, 1}` and `{2}`,
minimum size 2: the first cluster survives with id 0, the second is dropped. -/
theorem frontier_clusters_filtered_and_labelled_witness :
    (UpdateFrontiers sampleFrontierCollaborators sampleFrontierEnv).filtered_frontier_cloud_ =
      [{ x := 10, y := 0, z := 0, intensity := 0 }, { x := 12, y := 0, z := 0, intensity := 0 }] :=
  (frontier_clusters_filtered_and_labelled sampleFrontierCollaborators sampleFrontierEnv
    rfl (by decide) (by decide) (by decide) (by decide)).1.trans (by decide)

/-- C14 on two cycles: in the first cycle the frontier query returns three
points and the filtered frontier cloud gets the two points of the surviving
cluster; the robot then moves to `x = 1000`, where the frontier query returns
the empty set; after the second `UpdateFrontiers` the frontier cloud is empty
but the filtered frontier cloud still holds the two points of the first cycle,
clustered again. -/
theorem stale_frontier_survives_empty_query :
    sampleFrontierCollaborators.GetFrontier
      (UpdateFrontiers sampleFrontierCollaborators sampleFrontierEnv).frontier_cloud_
      ⟨1000, 0, 0⟩ sampleFrontierEnv.parameters_.kExtractFrontierRange = [] ∧
    (UpdateFrontiers sampleFrontierCollaborators
      { UpdateFrontiers sampleFrontierCollaborators sampleFrontierEnv with
        robot_position_ := ⟨1000, 0, 0⟩ }).frontier_cloud_ = [] ∧
    (UpdateFrontiers sampleFrontierCollaborators
      { UpdateFrontiers sampleFrontierCollaborators sampleFrontierEnv with
        robot_position_ := ⟨1000, 0, 0⟩ }).filtered_frontier_cloud_ =
      [{ x := 10, y := 0, z := 0, intensity := 0 }, { x := 12, y := 0, z := 0, intensity := 0 }] := by
  decide

/-! ## The arithmetic of the novelty threshold -/

section threshold

theorem sum_r_tagOld (olds : PlannerCloudType) :
    ((tagOld olds).map (fun p => p.r)).sum = 255 * olds.length := by
  induction olds with
  | nil => rfl
  | cons p rest ih =>
    simp only [tagOld, List.map_cons, List.sum_cons, List.length_cons] at ih ⊢
    rw [ih]
    omega

theorem sum_r_tagNew (news : PlannerCloudType) :
    ((tagNew news).map (fun p => p.r)).sum = 0 := by
  induction news with
  | nil => rfl
  | cons p rest ih =>
    simp only [tagNew, List.map_cons, List.sum_cons] at ih ⊢
    rw [ih]

/-- The age the voxel model gives to a voxel that merges old-tagged and
new-tagged points. -/
theorem centroid_age (olds news : PlannerCloudType) :
    (centroid (tagOld olds ++ tagNew news)).r =
      255 * olds.length / (olds.length + news.length) := by
  have hold : (tagOld olds).length = olds.length := by simp [tagOld]
  have hnew : (tagNew news).length = news.length := by simp [tagNew]
  simp only [centroid, List.map_append, List.sum_append, sum_r_tagOld, sum_r_tagNew,
    List.length_append, hold, hnew, Nat.add_zero]

theorem foldl_insertVoxel_same (leaf : Int) (key : Int × Int × Int) (cloud : PlannerCloudType)
    (hkey : ∀ p ∈ cloud, voxelIndex leaf p = key) (group : PlannerCloudType) :
    cloud.foldl (fun voxels point => insertVoxel (voxelIndex leaf point) point voxels)
        [(key, group)] = [(key, group ++ cloud)] := by
  induction cloud generalizing group with
  | nil => simp
  | cons p rest ih =>
    rw [List.foldl_cons, hkey p (List.mem_cons_self _ _)]
    have hstep : insertVoxel key p [(key, group)] = [(key, group ++ [p])] := by
      simp [insertVoxel]
    rw [hstep, ih (fun q hq => hkey q (List.mem_cons_of_mem _ hq))]
    simp

/-- The voxel model on a non-empty cloud that fits in one voxel. -/
theorem voxelDownsize_single_voxel (leaf : Int) (key : Int × Int × Int)
    (cloud : PlannerCloudType) (hne : cloud ≠ [])
    (hkey : ∀ p ∈ cloud, voxelIndex leaf p = key) :
    voxelDownsize leaf cloud = [centroid cloud] := by
  cases cloud with
  | nil => exact absurd rfl hne
  | cons p rest =>
    unfold voxelDownsize voxelGroups
    rw [List.foldl_cons]
    have hstep : insertVoxel (voxelIndex leaf p) p [] = [(key, [p])] := by
      rw [hkey p (List.mem_cons_self _ _)]
      rfl
    rw [hstep, foldl_insertVoxel_same leaf key rest
      (fun q hq => hkey q (List.mem_cons_of_mem _ hq))]
    rfl

theorem voxelIndex_tagOld (leaf : Int) (key : Int × Int × Int) (cloud : PlannerCloudType)
    (h : ∀ p ∈ cloud, voxelIndex leaf p = key) : ∀ p ∈ tagOld cloud, voxelIndex leaf p = key := by
  intro p hp
  simp only [tagOld, List.mem_map] at hp
  obtain ⟨q, hq, rfl⟩ := hp
  exact h q hq

theorem voxelIndex_tagNew (leaf : Int) (key : Int × Int × Int) (cloud : PlannerCloudType)
    (h : ∀ p ∈ cloud, voxelIndex leaf p = key) : ∀ p ∈ tagNew cloud, voxelIndex leaf p = key := by
  intro p hp
  simp only [tagNew, List.mem_map] at hp
  obtain ⟨q, hq, rfl⟩ := hp
  exact h q hq

end threshold

/-- C20 (novelty threshold arithmetic): a voxel that merges `o` old-tagged
points (age 255) and `n` new-tagged points (age 0), `o + n ≥ 1`, gets the age
`255 * o / (o + n)` from the voxel model, and its age is below the threshold
`40`, for the mean rounded down as well as for the exact mean, exactly when
`255 * o < 40 * (o + n)`; a balanced voxel (`o = n ≥ 1`) is not novel; a voxel
with one old point is novel exactly when `n ≥ 6`. In `UpdateKeyposeCloud` with
the voxel model, when the previous aggregate and the sweep fit in one voxel,
the diff cloud holds the merged point exactly under that condition. -/
theorem novelty_threshold_arithmetic (olds news : PlannerCloudType)
    (hpos : 1 ≤ olds.length + news.length) :
    (centroid (tagOld olds ++ tagNew news)).r =
      255 * olds.length / (olds.length + news.length) ∧
    ((centroid (tagOld olds ++ tagNew news)).r < 40 ↔
      255 * olds.length < 40 * (olds.length + news.length)) ∧
    (((255 * olds.length : Nat) : ℚ) / ((olds.length + news.length : Nat) : ℚ) < 40 ↔
      255 * olds.length < 40 * (olds.length + news.length)) ∧
    (olds.length = news.length → ¬ (centroid (tagOld olds ++ tagNew news)).r < 40) ∧
    (olds.length = 1 → ((centroid (tagOld olds ++ tagNew news)).r < 40 ↔ 6 ≤ news.length)) ∧
    (∀ (C : Collaborators) (env : PlanningEnv) (key : Int × Int × Int),
      C.Downsize = voxelDownsize → env.stacked_cloud_ = olds → news ≠ [] →
      (∀ p ∈ olds ++ news, voxelIndex env.parameters_.kStackedCloudDwzLeafSize p = key) →
      (UpdateKeyposeCloud C env news).diff_cloud_ =
        if 255 * olds.length < 40 * (olds.length + news.length) then
          [centroid (tagOld olds ++ tagNew news)]
        else []) := by
  have hage := centroid_age olds news
  have hiff : (centroid (tagOld olds ++ tagNew news)).r < 40 ↔
      255 * olds.length < 40 * (olds.length + news.length) := by
    rw [hage, Nat.div_lt_iff_lt_mul (by omega)]
  refine ⟨hage, hiff, ?_, ?_, ?_, ?_⟩
  · have hden : (0 : ℚ) < ((olds.length + news.length : Nat) : ℚ) := by
      exact_mod_cast (by omega : 0 < olds.length + news.length)
    rw [div_lt_iff₀ hden]
    constructor
    · intro h
      exact_mod_cast h
    · intro h
      exact_mod_cast h
  · intro hbal
    rw [hiff]
    omega
  · intro hone
    rw [hiff]
    omega
  · intro C env key hD hstacked hnews hkey
    rw [UpdateKeyposeCloud_diff_cloud C env hnews]
    unfold mergedCloud
    rw [hD, hstacked, voxelDownsize_single_voxel _ key]
    · by_cases hnovel : 255 * olds.length < 40 * (olds.length + news.length)
      · rw [if_pos hnovel]
        simp [hiff.2 hnovel]
      · rw [if_neg hnovel]
        simp only [List.filter_eq_nil_iff, List.mem_singleton, decide_eq_true_eq]
        intro p hp
        rw [hp, hiff]
        exact hnovel
    · simp [tagNew, hnews]
    · intro p hp
      rcases List.mem_append.1 hp with h | h
      · exact voxelIndex_tagOld _ key olds
          (fun q hq => hkey q (List.mem_append_left _ hq)) p h
      · exact voxelIndex_tagNew _ key news
          (fun q hq => hkey q (List.mem_append_right _ hq)) p h

/-- Witness for C20: one old point and six new points at the origin. -/
theorem novelty_threshold_arithmetic_witness :
    (centroid (tagOld [{ x := 0, y := 0, z := 0 }] ++
      tagNew (List.replicate 6 { x := 0, y := 0, z := 0 }))).r < 40 ↔
      255 * [({ x := 0, y := 0, z := 0 } : PlannerCloudPointType)].length <
        40 * ([({ x := 0, y := 0, z := 0 } : PlannerCloudPointType)].length +
          (List.replicate 6 ({ x := 0, y := 0, z := 0 } : PlannerCloudPointType)).length) :=
  (novelty_threshold_arithmetic [{ x := 0, y := 0, z := 0 }]
    (List.replicate 6 { x := 0, y := 0, z := 0 }) (by decide)).2.1

/-! ## The aggregates after a push -/

theorem UpdateKeyposeCloud_stacked_vertical (C : Collaborators) (env : PlanningEnv)
    {keypose_cloud : PlannerCloudType} (h : keypose_cloud ≠ []) :
    (UpdateKeyposeCloud C env keypose_cloud).stacked_vertical_surface_cloud_ =
      C.Downsize env.parameters_.kStackedCloudDwzLeafSize
        (stackUnion env.parameters_.kKeyposeCloudStackNum
          (env.vertical_surface_cloud_stack_.set
            ((env.keypose_cloud_count_ + 1) % env.parameters_.kKeyposeCloudStackNum)
            (C.ExtractVerticalSurface keypose_cloud))) := by
  unfold UpdateKeyposeCloud
  rw [if_neg h, (UpdateFrontiers_ring C _).2.2.2.2.2.1]; rfl

/-- The loop over the slots concatenates the whole stack, in slot order. -/
theorem stackUnion_eq_flatten (stackNum : Nat) (stack : List PlannerCloudType)
    (hlen : stack.length = stackNum) : stackUnion stackNum stack = stack.flatten := by
  unfold stackUnion
  rw [List.flatMap_def]
  congr 1
  apply List.ext_getElem?
  intro i
  rw [List.getElem?_map]
  by_cases hi : i < stackNum
  · rw [List.getElem?_range hi, Option.map_some', List.getD_eq_getElem?_getD,
      List.getElem?_eq_getElem (by rw [hlen]; exact hi)]
    rfl
  · rw [List.getElem?_eq_none (by simpa using hi), List.getElem?_eq_none (by omega)]
    rfl

/-- C22: after a call with a non-empty sweep, the stacked raw aggregate is
`Downsize` of the concatenation of the slots of `keypose_cloud_stack_` in slot
order, and the stacked vertical-surface aggregate is `Downsize` of the
concatenation of the slots of `vertical_surface_cloud_stack_`, both taken from
the slots as they are after the call; neither depends on the previous
aggregates, on the previous diff cloud or on the content of the slots that the
call overwrites. -/
theorem aggregates_rebuilt_from_slots (C : Collaborators) (env : PlanningEnv)
    (keypose_cloud : PlannerCloudType) (h : keypose_cloud ≠ []) :
    (UpdateKeyposeCloud C env keypose_cloud).stacked_cloud_ =
      C.Downsize env.parameters_.kStackedCloudDwzLeafSize
        (stackUnion env.parameters_.kKeyposeCloudStackNum
          (UpdateKeyposeCloud C env keypose_cloud).keypose_cloud_stack_) ∧
    (UpdateKeyposeCloud C env keypose_cloud).stacked_vertical_surface_cloud_ =
      C.Downsize env.parameters_.kStackedCloudDwzLeafSize
        (stackUnion env.parameters_.kKeyposeCloudStackNum
          (UpdateKeyposeCloud C env keypose_cloud).vertical_surface_cloud_stack_) ∧
    (env.keypose_cloud_stack_.length = env.parameters_.kKeyposeCloudStackNum →
      stackUnion env.parameters_.kKeyposeCloudStackNum
          (UpdateKeyposeCloud C env keypose_cloud).keypose_cloud_stack_ =
        (UpdateKeyposeCloud C env keypose_cloud).keypose_cloud_stack_.flatten) ∧
    (env.vertical_surface_cloud_stack_.length = env.parameters_.kKeyposeCloudStackNum →
      stackUnion env.parameters_.kKeyposeCloudStackNum
          (UpdateKeyposeCloud C env keypose_cloud).vertical_surface_cloud_stack_ =
        (UpdateKeyposeCloud C env keypose_cloud).vertical_surface_cloud_stack_.flatten) ∧
    (∀ (aggregate vertical_aggregate diff overwritten vertical_overwritten : PlannerCloudType),
      (UpdateKeyposeCloud C
          { env with
            stacked_cloud_ := aggregate
            stacked_vertical_surface_cloud_ := vertical_aggregate
            diff_cloud_ := diff
            keypose_cloud_stack_ :=
              env.keypose_cloud_stack_.set env.keypose_cloud_count_ overwritten
            vertical_surface_cloud_stack_ :=
              env.vertical_surface_cloud_stack_.set
                ((env.keypose_cloud_count_ + 1) % env.parameters_.kKeyposeCloudStackNum)
                vertical_overwritten }
          keypose_cloud).stacked_cloud_ =
        (UpdateKeyposeCloud C env keypose_cloud).stacked_cloud_ ∧
      (UpdateKeyposeCloud C
          { env with
            stacked_cloud_ := aggregate
            stacked_vertical_surface_cloud_ := vertical_aggregate
            diff_cloud_ := diff
            keypose_cloud_stack_ :=
              env.keypose_cloud_stack_.set env.keypose_cloud_count_ overwritten
            vertical_surface_cloud_stack_ :=
              env.vertical_surface_cloud_stack_.set
                ((env.keypose_cloud_count_ + 1) % env.parameters_.kKeyposeCloudStackNum)
                vertical_overwritten }
          keypose_cloud).stacked_vertical_surface_cloud_ =
        (UpdateKeyposeCloud C env keypose_cloud).stacked_vertical_surface_cloud_) := by
  refine ⟨?_, ?_, ?_, ?_, ?_⟩
  · rw [UpdateKeyposeCloud_stacked_cloud C env h, UpdateKeyposeCloud_stack C env h]
  · rw [UpdateKeyposeCloud_stacked_vertical C env h, UpdateKeyposeCloud_vertical_stack C env h]
  · intro hlen
    apply stackUnion_eq_flatten
    rw [UpdateKeyposeCloud_stack C env h, List.length_set, hlen]
  · intro hlen
    apply stackUnion_eq_flatten
    rw [UpdateKeyposeCloud_vertical_stack C env h, List.length_set, hlen]
  · intro aggregate vertical_aggregate diff overwritten vertical_overwritten
    constructor
    · rw [UpdateKeyposeCloud_stacked_cloud C _ h, UpdateKeyposeCloud_stacked_cloud C env h]
      dsimp only
      rw [List.set_set]
    · rw [UpdateKeyposeCloud_stacked_vertical C _ h, UpdateKeyposeCloud_stacked_vertical C env h]
      dsimp only
      rw [List.set_set]

/-- Witness for C22: a second sweep pushed at depth 5. -/
theorem aggregates_rebuilt_from_slots_witness :
    (UpdateKeyposeCloud sampleCollaborators
        (UpdateKeyposeCloud sampleCollaborators (sampleEnv 5) [{ x := 0, y := 0, z := 0 }])
        [{ x := 10, y := 0, z := 0 }]).stacked_cloud_ =
      sampleCollaborators.Downsize
        (UpdateKeyposeCloud sampleCollaborators (sampleEnv 5)
          [{ x := 0, y := 0, z := 0 }]).parameters_.kStackedCloudDwzLeafSize
        (stackUnion
          (UpdateKeyposeCloud sampleCollaborators (sampleEnv 5)
            [{ x := 0, y := 0, z := 0 }]).parameters_.kKeyposeCloudStackNum
          (UpdateKeyposeCloud sampleCollaborators
            (UpdateKeyposeCloud sampleCollaborators (sampleEnv 5) [{ x := 0, y := 0, z := 0 }])
            [{ x := 10, y := 0, z := 0 }]).keypose_cloud_stack_) :=
  (aggregates_rebuilt_from_slots sampleCollaborators
    (UpdateKeyposeCloud sampleCollaborators (sampleEnv 5) [{ x := 0, y := 0, z := 0 }])
    [{ x := 10, y := 0, z := 0 }] (by decide)).1

/-! ## The age of the origin voxel at the fifth push -/

/-- C21 as stated fails: with the voxel model, depth 5 and leaf size 2, the
cloud merged during the fifth push of the origin sweep is made of two points,
the aggregate (one point, tagged 255) and the sweep (one point, tagged 0), and
the age of the origin voxel is 127, not 204. -/
theorem fifth_push_age_is_not_204 :
    tagOld (pushAll sampleCollaborators (sampleEnv 5)
        (List.replicate 4 [{ x := 0, y := 0, z := 0 }])).stacked_cloud_ ++
      tagNew [{ x := 0, y := 0, z := 0 }] =
      [{ x := 0, y := 0, z := 0, r := 255 }, { x := 0, y := 0, z := 0, r := 0 }] ∧
    (mergedCloud sampleCollaborators
      (pushAll sampleCollaborators (sampleEnv 5)
        (List.replicate 4 [{ x := 0, y := 0, z := 0 }]))
      [{ x := 0, y := 0, z := 0 }]).map (fun point => point.r) = [127] ∧
    (mergedCloud sampleCollaborators
      (pushAll sampleCollaborators (sampleEnv 5)
        (List.replicate 4 [{ x := 0, y := 0, z := 0 }]))
      [{ x := 0, y := 0, z := 0 }]).map (fun point => point.r) ≠ [204] := by
  decide

/-- C21 as the code has it: in the end-to-end scenario (voxel model, depth 5,
five identical sweeps of one point at the origin) the cloud
merged during the fifth push holds one old-tagged point, the aggregate
downsized to a single point, and one new-tagged point; the age of the origin
voxel is their mean `255 / 2 = 127`, which is `≥ 40`. -/
theorem fifth_push_age_is_127 (C : Collaborators) (parameters : PlanningEnvParameters)
    (robot_position prev_robot_position : Vector3d) (origin : PlannerCloudPointType)
    (hD : C.Downsize = voxelDownsize)
    (hN : parameters.kKeyposeCloudStackNum = 5)
    (ho : origin.x = 0 ∧ origin.y = 0 ∧ origin.z = 0) :
    tagOld (pushAll C (PlanningEnv.construct parameters robot_position prev_robot_position)
        (List.replicate 4 [origin])).stacked_cloud_ ++ tagNew [origin] =
      [{ x := 0, y := 0, z := 0, r := 255 }, { x := 0, y := 0, z := 0, r := 0 }] ∧
    mergedCloud C
        (pushAll C (PlanningEnv.construct parameters robot_position prev_robot_position)
          (List.replicate 4 [origin])) [origin] =
      [{ x := 0, y := 0, z := 0, r := 127 }] ∧
    (∀ point ∈ mergedCloud C
        (pushAll C (PlanningEnv.construct parameters robot_position prev_robot_position)
          (List.replicate 4 [origin])) [origin], 40 ≤ point.r) := by
  have hstacked : (pushAll C
      (PlanningEnv.construct parameters robot_position prev_robot_position)
      (List.replicate (3 + 1) [origin])).stacked_cloud_ = [{ x := 0, y := 0, z := 0 }] := by
    apply pushAll_origin C hD origin ho 3
    · show 0 < parameters.kKeyposeCloudStackNum
      omega
    · simp [PlanningEnv.construct]
    · intro slot hslot
      simp only [PlanningEnv.construct, List.mem_replicate] at hslot
      exact Or.inl hslot.2
  have hmerged : mergedCloud C
      (pushAll C (PlanningEnv.construct parameters robot_position prev_robot_position)
        (List.replicate 4 [origin])) [origin] = [{ x := 0, y := 0, z := 0, r := 127 }] := by
    unfold mergedCloud
    rw [hD, hstacked, tagNew_origin origin ho]
    simp [tagOld, voxelDownsize, voxelGroups, insertVoxel, voxelIndex, centroid]
  refine ⟨?_, hmerged, ?_⟩
  · rw [hstacked, tagNew_origin origin ho]
    rfl
  · intro point hpoint
    rw [hmerged, List.mem_singleton] at hpoint
    rw [hpoint]
    decide

/-- Witness for C21: the voxel model with leaf size 2. -/
theorem fifth_push_age_is_127_witness :
    mergedCloud sampleCollaborators
        (pushAll sampleCollaborators (sampleEnv 5)
          (List.replicate 4 [{ x := 0, y := 0, z := 0 }])) [{ x := 0, y := 0, z := 0 }] =
      [{ x := 0, y := 0, z := 0, r := 127 }] :=
  (fifth_push_age_is_127 sampleCollaborators (sampleParameters 5) ⟨0, 0, 0⟩ ⟨0, 0, 0⟩
    { x := 0, y := 0, z := 0 } rfl rfl (by decide)).2.1

/-! ## The guard of the collision query -/

theorem stackUnion_set_ne_nil (stackNum : Nat) (stack : List PlannerCloudType) (count : Nat)
    (cloud : PlannerCloudType) (hcount : count < stackNum) (hlen : stack.length = stackNum)
    (hne : cloud ≠ []) : stackUnion stackNum (stack.set count cloud) ≠ [] := by
  intro hnil
  unfold stackUnion at hnil
  rw [List.flatMap_eq_nil_iff] at hnil
  have h := hnil count (List.mem_range.2 hcount)
  rw [List.getD_eq_getElem?_getD, List.getElem?_set_self (by rw [hlen]; exact hcount)] at h
  exact hne h

/-- While the raw aggregate is empty nothing has been written: the property is
kept by every call of `UpdateKeyposeCloud`, with an empty or a non-empty sweep. -/
theorem pushAll_guard_invariant (C : Collaborators)
    (hD : ∀ (leaf : Int) (cloud : PlannerCloudType), cloud ≠ [] → C.Downsize leaf cloud ≠ [])
    (sweeps : List PlannerCloudType) (env : PlanningEnv)
    (hcount : env.keypose_cloud_count_ < env.parameters_.kKeyposeCloudStackNum)
    (hlen : env.keypose_cloud_stack_.length = env.parameters_.kKeyposeCloudStackNum)
    (hinv : env.stacked_cloud_ = [] →
      (∀ slot ∈ env.vertical_surface_cloud_stack_, slot = []) ∧
      env.stacked_vertical_surface_cloud_ = [] ∧
      env.stacked_vertical_surface_cloud_kdtree_ = []) :
    (pushAll C env sweeps).stacked_cloud_ = [] →
      (∀ slot ∈ (pushAll C env sweeps).vertical_surface_cloud_stack_, slot = []) ∧
      (pushAll C env sweeps).stacked_vertical_surface_cloud_ = [] ∧
      (pushAll C env sweeps).stacked_vertical_surface_cloud_kdtree_ = [] := by
  induction sweeps generalizing env with
  | nil => exact hinv
  | cons first rest ih =>
    rw [pushAll_cons]
    by_cases hfirst : first = []
    · rw [hfirst, UpdateKeyposeCloud_nil]
      exact ih env hcount hlen hinv
    · apply ih
      · rw [UpdateKeyposeCloud_count_add_two C env hfirst, UpdateKeyposeCloud_parameters]
        exact Nat.mod_lt _ (by omega)
      · rw [UpdateKeyposeCloud_stack C env hfirst, List.length_set, hlen,
          UpdateKeyposeCloud_parameters]
      · intro hempty
        rw [UpdateKeyposeCloud_stacked_cloud C env hfirst] at hempty
        exact absurd hempty (hD _ _ (stackUnion_set_ne_nil _ _ _ _ hcount hlen
          (by simpa [tagNew] using hfirst)))

theorem foldl_insertVoxel_ne_nil (leaf : Int) (cloud : PlannerCloudType)
    (voxels : List ((Int × Int × Int) × PlannerCloudType)) (h : voxels ≠ []) :
    cloud.foldl (fun voxels point => insertVoxel (voxelIndex leaf point) point voxels)
      voxels ≠ [] := by
  induction cloud generalizing voxels with
  | nil => exact h
  | cons p rest ih =>
    rw [List.foldl_cons]
    apply ih
    cases voxels with
    | nil => simp [insertVoxel]
    | cons v vs =>
      obtain ⟨k, group⟩ := v
      unfold insertVoxel
      split <;> simp

/-- The voxel model gives a non-empty cloud for a non-empty input. -/
theorem voxelDownsize_ne_nil (leaf : Int) (cloud : PlannerCloudType) (h : cloud ≠ []) :
    voxelDownsize leaf cloud ≠ [] := by
  cases cloud with
  | nil => exact absurd rfl h
  | cons p rest =>
    unfold voxelDownsize voxelGroups
    rw [List.foldl_cons]
    intro hnil
    rw [List.map_eq_nil_iff] at hnil
    exact foldl_insertVoxel_ne_nil leaf rest _ (by simp [insertVoxel]) hnil

/-- C27: in every state reached from construction (depth `≥ 1`) by a sequence
of `UpdateKeyposeCloud` calls, with empty or non-empty sweeps, and for a
downsizer that returns a non-empty cloud for a non-empty input: if the raw
stacked cloud is empty, then every slot of the vertical-surface stack, the
stacked vertical-surface cloud and the cloud held by the kd-tree are empty,
so the radius search (which only yields indices of the indexed cloud) finds
no neighbour and the `false` returned through the guard is the answer the
neighbour count gives. -/
theorem guard_never_masks_collision (C : Collaborators) (parameters : PlanningEnvParameters)
    (robot_position prev_robot_position : Vector3d) (sweeps : List PlannerCloudType)
    (hN : 1 ≤ parameters.kKeyposeCloudStackNum)
    (hD : ∀ (leaf : Int) (cloud : PlannerCloudType), cloud ≠ [] → C.Downsize leaf cloud ≠ [])
    (hempty : (pushAll C (PlanningEnv.construct parameters robot_position prev_robot_position)
      sweeps).stacked_cloud_ = []) :
    (∀ slot ∈ (pushAll C (PlanningEnv.construct parameters robot_position prev_robot_position)
        sweeps).vertical_surface_cloud_stack_, slot = []) ∧
    (pushAll C (PlanningEnv.construct parameters robot_position prev_robot_position)
      sweeps).stacked_vertical_surface_cloud_ = [] ∧
    (pushAll C (PlanningEnv.construct parameters robot_position prev_robot_position)
      sweeps).stacked_vertical_surface_cloud_kdtree_ = [] ∧
    (searchInRange C → ∀ x y z : Int,
      C.radiusSearch
          (pushAll C (PlanningEnv.construct parameters robot_position prev_robot_position)
            sweeps).stacked_vertical_surface_cloud_kdtree_
          { x := x, y := y, z := z }
          parameters.kKeyposeGraphCollisionCheckRadius = [] ∧
      InCollision C
        (pushAll C (PlanningEnv.construct parameters robot_position prev_robot_position) sweeps)
        x y z = false) := by
  obtain ⟨h1, h2, h3⟩ := pushAll_guard_invariant C hD sweeps
    (PlanningEnv.construct parameters robot_position prev_robot_position)
    (by simpa [PlanningEnv.construct] using hN)
    (by simp [PlanningEnv.construct])
    (by
      intro _
      refine ⟨?_, rfl, rfl⟩
      intro slot hslot
      simp only [PlanningEnv.construct, List.mem_replicate] at hslot
      exact hslot.2)
    hempty
  refine ⟨h1, h2, h3, ?_⟩
  intro hrange x y z
  constructor
  · rw [List.eq_nil_iff_forall_not_mem]
    intro idx hidx
    have h := hrange _ _ _ idx hidx
    rw [h3] at h
    simp only [List.length_nil, Nat.cast_zero] at h
    omega
  · unfold InCollision
    rw [if_pos hempty]

/-- Witness for C27: only empty sweeps have been pushed. -/
theorem guard_never_masks_collision_witness :
    (pushAll sampleCollaborators (sampleEnv 5) [[], []]).stacked_vertical_surface_cloud_ = [] :=
  (guard_never_masks_collision sampleCollaborators (sampleParameters 5) ⟨0, 0, 0⟩ ⟨0, 0, 0⟩
    [[], []] (by decide) voxelDownsize_ne_nil (by decide)).2.1

/-! ## The double advance of the write index -/

/-- The write index after non-empty pushes on a fresh environment. -/
theorem pushAll_fresh_count (C : Collaborators) (parameters : PlanningEnvParameters)
    (robot_position prev_robot_position : Vector3d) (sweeps : List PlannerCloudType)
    (hN : 1 ≤ parameters.kKeyposeCloudStackNum) (hne : ∀ s ∈ sweeps, s ≠ []) :
    (pushAll C (PlanningEnv.construct parameters robot_position prev_robot_position)
      sweeps).keypose_cloud_count_ = 2 * sweeps.length % parameters.kKeyposeCloudStackNum := by
  have hlt := pushAll_count_lt C sweeps
    (PlanningEnv.construct parameters robot_position prev_robot_position) hne
    (by simpa [PlanningEnv.construct] using hN)
  have hmod := pushAll_count_mod C sweeps
    (PlanningEnv.construct parameters robot_position prev_robot_position) hne
  rw [Nat.mod_eq_of_lt hlt] at hmod
  rw [hmod]
  simp [PlanningEnv.construct]

theorem pushAll_snoc (C : Collaborators) (env : PlanningEnv) (sweeps : List PlannerCloudType)
    (last : PlannerCloudType) :
    pushAll C env (sweeps ++ [last]) = UpdateKeyposeCloud C (pushAll C env sweeps) last := by
  rw [pushAll_append]
  rfl

/-- Where the content of a slot comes from, for a stack `proj` of depth `2 * m`
whose slot `(index + off) % (2 * m)` receives `content sweep` at each push: a
slot is empty or holds the content of one of the last `m` sweeps. -/
theorem pushAll_slot_provenance (C : Collaborators)
    (proj : PlanningEnv → List PlannerCloudType) (off : Nat)
    (content : PlannerCloudType → PlannerCloudType)
    (hstep : ∀ (env : PlanningEnv) (s : PlannerCloudType), s ≠ [] →
      env.keypose_cloud_count_ < env.parameters_.kKeyposeCloudStackNum →
      proj (UpdateKeyposeCloud C env s) =
        (proj env).set ((env.keypose_cloud_count_ + off) % env.parameters_.kKeyposeCloudStackNum)
          (content s))
    (parameters : PlanningEnvParameters) (robot_position prev_robot_position : Vector3d)
    (m : Nat) (hm : 1 ≤ m) (hN : parameters.kKeyposeCloudStackNum = 2 * m)
    (hfresh : proj (PlanningEnv.construct parameters robot_position prev_robot_position) =
      List.replicate parameters.kKeyposeCloudStackNum [])
    (sweeps : List PlannerCloudType) (hne : ∀ s ∈ sweeps, s ≠ []) :
    ∀ (i : Nat) (slot : PlannerCloudType),
      (proj (pushAll C (PlanningEnv.construct parameters robot_position prev_robot_position)
        sweeps))[i]? = some slot →
      slot = [] ∨ ∃ (j : Nat) (r : PlannerCloudType),
        j < sweeps.length ∧ sweeps.length ≤ j + m ∧ sweeps[j]? = some r ∧
        i = (2 * j + off) % (2 * m) ∧ slot = content r := by
  induction sweeps using List.reverseRecOn with
  | nil =>
    intro i slot hslot
    left
    change (proj (PlanningEnv.construct parameters robot_position prev_robot_position))[i]? =
      some slot at hslot
    rw [hfresh, List.getElem?_replicate] at hslot
    split at hslot
    · cases hslot; rfl
    · cases hslot
  | append_singleton older last ih =>
    have holder : ∀ s ∈ older, s ≠ [] := fun s hs => hne s (by simp [hs])
    have hlast : last ≠ [] := hne last (by simp)
    intro i slot hslot
    have hconstruct : (PlanningEnv.construct parameters robot_position
        prev_robot_position).parameters_ = parameters := rfl
    have hlt := pushAll_count_lt C older
      (PlanningEnv.construct parameters robot_position prev_robot_position) holder
      (by simp [PlanningEnv.construct]; omega)
    rw [← pushAll_parameters C older] at hlt
    rw [pushAll_snoc, hstep _ _ hlast hlt,
      pushAll_fresh_count C parameters _ _ older (by omega) holder, pushAll_parameters,
      hconstruct, Nat.mod_add_mod, List.getElem?_set, hN] at hslot
    split at hslot
    · rename_i hi
      split at hslot
      · cases hslot
        right
        refine ⟨older.length, last, by simp, by simp; omega, by simp, hi.symm, rfl⟩
      · cases hslot
    · rename_i hi
      rcases ih holder i slot hslot with h | ⟨j, r, hj, hjm, hr, hij, hcontent⟩
      · exact Or.inl h
      · right
        refine ⟨j, r, by simp; omega, ?_, ?_, hij, hcontent⟩
        · rw [List.length_append, List.length_singleton]
          by_contra hcontra
          have hjeq : older.length = j + m := by omega
          apply hi
          rw [hij, hjeq]
          have : 2 * (j + m) + off = 2 * j + off + 2 * m := by ring
          rw [this, Nat.add_mod_right]
        · rw [List.getElem?_append_left hj]
          exact hr

theorem mem_stackUnion (stackNum : Nat) (stack : List PlannerCloudType)
    (point : PlannerCloudPointType) (h : point ∈ stackUnion stackNum stack) :
    ∃ (i : Nat) (slot : PlannerCloudType), stack[i]? = some slot ∧ point ∈ slot := by
  unfold stackUnion at h
  obtain ⟨i, _, hi⟩ := List.mem_flatMap.1 h
  rw [List.getD_eq_getElem?_getD] at hi
  cases hget : stack[i]? with
  | none => rw [hget] at hi; simp at hi
  | some slot =>
    rw [hget] at hi
    exact ⟨i, slot, hget, hi⟩

/-- C24: on a fresh environment of depth `N ≥ 1`, after `k - 1` non-empty
pushes (`sweeps`), the `k`-th non-empty push (`sweep`) writes the re-tagged
sweep into slot `2 (k - 1) mod N` of `keypose_cloud_stack_` and its
vertical-surface cloud into slot `(2 (k - 1) + 1) mod N` of
`vertical_surface_cloud_stack_`, and leaves the write index at `2 k mod N`.
For even `N` the raw slot written is even and the vertical-surface slot written
is odd; every raw slot is empty or is an even slot holding one of the `N / 2`
most recent sweeps, every vertical-surface slot is empty or is an odd slot
holding the vertical-surface cloud of one of the `N / 2` most recent sweeps,
and every point that enters either aggregate comes from one of those sweeps. -/
theorem write_index_advances_twice (C : Collaborators) (parameters : PlanningEnvParameters)
    (robot_position prev_robot_position : Vector3d) (sweeps : List PlannerCloudType)
    (sweep : PlannerCloudType) (hN : 1 ≤ parameters.kKeyposeCloudStackNum)
    (hne : ∀ s ∈ sweeps, s ≠ []) (hsweep : sweep ≠ []) :
    (pushAll C (PlanningEnv.construct parameters robot_position prev_robot_position)
        (sweeps ++ [sweep])).keypose_cloud_stack_ =
      (pushAll C (PlanningEnv.construct parameters robot_position prev_robot_position)
        sweeps).keypose_cloud_stack_.set
        (2 * sweeps.length % parameters.kKeyposeCloudStackNum) (tagNew sweep) ∧
    (pushAll C (PlanningEnv.construct parameters robot_position prev_robot_position)
        (sweeps ++ [sweep])).vertical_surface_cloud_stack_ =
      (pushAll C (PlanningEnv.construct parameters robot_position prev_robot_position)
        sweeps).vertical_surface_cloud_stack_.set
        ((2 * sweeps.length + 1) % parameters.kKeyposeCloudStackNum)
        (C.ExtractVerticalSurface sweep) ∧
    (pushAll C (PlanningEnv.construct parameters robot_position prev_robot_position)
        (sweeps ++ [sweep])).keypose_cloud_count_ =
      2 * (sweeps.length + 1) % parameters.kKeyposeCloudStackNum ∧
    (parameters.kKeyposeCloudStackNum % 2 = 0 →
      (2 * sweeps.length % parameters.kKeyposeCloudStackNum) % 2 = 0 ∧
      ((2 * sweeps.length + 1) % parameters.kKeyposeCloudStackNum) % 2 = 1 ∧
      (∀ (i : Nat) (slot : PlannerCloudType),
        (pushAll C (PlanningEnv.construct parameters robot_position prev_robot_position)
          (sweeps ++ [sweep])).keypose_cloud_stack_[i]? = some slot →
        slot = [] ∨ (i % 2 = 0 ∧ ∃ (j : Nat) (r : PlannerCloudType),
          sweeps.length + 1 ≤ j + parameters.kKeyposeCloudStackNum / 2 ∧
          (sweeps ++ [sweep])[j]? = some r ∧ slot = tagNew r)) ∧
      (∀ (i : Nat) (slot : PlannerCloudType),
        (pushAll C (PlanningEnv.construct parameters robot_position prev_robot_position)
          (sweeps ++ [sweep])).vertical_surface_cloud_stack_[i]? = some slot →
        slot = [] ∨ (i % 2 = 1 ∧ ∃ (j : Nat) (r : PlannerCloudType),
          sweeps.length + 1 ≤ j + parameters.kKeyposeCloudStackNum / 2 ∧
          (sweeps ++ [sweep])[j]? = some r ∧ slot = C.ExtractVerticalSurface r)) ∧
      (∃ union : PlannerCloudType,
        (pushAll C (PlanningEnv.construct parameters robot_position prev_robot_position)
          (sweeps ++ [sweep])).stacked_cloud_ =
          C.Downsize parameters.kStackedCloudDwzLeafSize union ∧
        ∀ point ∈ union, ∃ (j : Nat) (r : PlannerCloudType),
          sweeps.length + 1 ≤ j + parameters.kKeyposeCloudStackNum / 2 ∧
          (sweeps ++ [sweep])[j]? = some r ∧ point ∈ tagNew r) ∧
      (∃ union : PlannerCloudType,
        (pushAll C (PlanningEnv.construct parameters robot_position prev_robot_position)
          (sweeps ++ [sweep])).stacked_vertical_surface_cloud_ =
          C.Downsize parameters.kStackedCloudDwzLeafSize union ∧
        ∀ point ∈ union, ∃ (j : Nat) (r : PlannerCloudType),
          sweeps.length + 1 ≤ j + parameters.kKeyposeCloudStackNum / 2 ∧
          (sweeps ++ [sweep])[j]? = some r ∧ point ∈ C.ExtractVerticalSurface r)) := by
  have hcount := pushAll_fresh_count C parameters robot_position prev_robot_position sweeps
    hN hne
  have hpar : (pushAll C (PlanningEnv.construct parameters robot_position prev_robot_position)
      sweeps).parameters_ = parameters := by
    rw [pushAll_parameters]; rfl
  have hall : ∀ s ∈ sweeps ++ [sweep], s ≠ [] := by
    intro s hs
    rcases List.mem_append.1 hs with h | h
    · exact hne s h
    · rw [List.mem_singleton.1 h]; exact hsweep
  have hlt : 2 * sweeps.length % parameters.kKeyposeCloudStackNum <
      parameters.kKeyposeCloudStackNum := Nat.mod_lt _ (by omega)
  refine ⟨?_, ?_, ?_, ?_⟩
  · rw [pushAll_snoc, UpdateKeyposeCloud_stack C _ hsweep, hcount]
  · rw [pushAll_snoc, UpdateKeyposeCloud_vertical_stack C _ hsweep, hcount, hpar,
      Nat.mod_add_mod]
  · rw [pushAll_fresh_count C parameters robot_position prev_robot_position _ hN hall,
      List.length_append, List.length_singleton]
  · intro heven
    obtain ⟨m, hm⟩ : ∃ m, parameters.kKeyposeCloudStackNum = 2 * m :=
      ⟨parameters.kKeyposeCloudStackNum / 2, by omega⟩
    have hm1 : 1 ≤ m := by omega
    have hhalf : parameters.kKeyposeCloudStackNum / 2 = m := by omega
    have hraw := pushAll_slot_provenance C (fun env => env.keypose_cloud_stack_) 0 tagNew
      (by
        intro env s hs hc
        dsimp only
        rw [UpdateKeyposeCloud_stack C env hs, Nat.add_zero, Nat.mod_eq_of_lt hc])
      parameters robot_position prev_robot_position m hm1 hm rfl (sweeps ++ [sweep]) hall
    have hvert := pushAll_slot_provenance C (fun env => env.vertical_surface_cloud_stack_) 1
      C.ExtractVerticalSurface
      (by
        intro env s hs _
        dsimp only
        rw [UpdateKeyposeCloud_vertical_stack C env hs])
      parameters robot_position prev_robot_position m hm1 hm rfl (sweeps ++ [sweep]) hall
    dsimp only at hraw hvert
    have hdvd : 2 ∣ 2 * m := Dvd.intro m rfl
    have hrawslots : ∀ (i : Nat) (slot : PlannerCloudType),
        (pushAll C (PlanningEnv.construct parameters robot_position prev_robot_position)
          (sweeps ++ [sweep])).keypose_cloud_stack_[i]? = some slot →
        slot = [] ∨ (i % 2 = 0 ∧ ∃ (j : Nat) (r : PlannerCloudType),
          sweeps.length + 1 ≤ j + parameters.kKeyposeCloudStackNum / 2 ∧
          (sweeps ++ [sweep])[j]? = some r ∧ slot = tagNew r) := by
      intro i slot hslot
      rcases hraw i slot hslot with h | ⟨j, r, _, hjm, hr, hij, hc⟩
      · exact Or.inl h
      · right
        refine ⟨?_, j, r, ?_, hr, hc⟩
        · rw [hij, Nat.mod_mod_of_dvd _ hdvd]
          omega
        · rw [hhalf]
          simpa using hjm
    have hvertslots : ∀ (i : Nat) (slot : PlannerCloudType),
        (pushAll C (PlanningEnv.construct parameters robot_position prev_robot_position)
          (sweeps ++ [sweep])).vertical_surface_cloud_stack_[i]? = some slot →
        slot = [] ∨ (i % 2 = 1 ∧ ∃ (j : Nat) (r : PlannerCloudType),
          sweeps.length + 1 ≤ j + parameters.kKeyposeCloudStackNum / 2 ∧
          (sweeps ++ [sweep])[j]? = some r ∧ slot = C.ExtractVerticalSurface r) := by
      intro i slot hslot
      rcases hvert i slot hslot with h | ⟨j, r, _, hjm, hr, hij, hc⟩
      · exact Or.inl h
      · right
        refine ⟨?_, j, r, ?_, hr, hc⟩
        · rw [hij, Nat.mod_mod_of_dvd _ hdvd]
          omega
        · rw [hhalf]
          simpa using hjm
    refine ⟨?_, ?_, hrawslots, hvertslots, ?_, ?_⟩
    · rw [hm, Nat.mod_mod_of_dvd _ hdvd]
      omega
    · rw [hm, Nat.mod_mod_of_dvd _ hdvd]
      omega
    · refine ⟨stackUnion parameters.kKeyposeCloudStackNum
        (pushAll C (PlanningEnv.construct parameters robot_position prev_robot_position)
          (sweeps ++ [sweep])).keypose_cloud_stack_, ?_, ?_⟩
      · rw [pushAll_snoc, UpdateKeyposeCloud_stacked_cloud C _ hsweep,
          UpdateKeyposeCloud_stack C _ hsweep, hpar]
      · intro point hpoint
        obtain ⟨i, slot, hslot, hmem⟩ := mem_stackUnion _ _ _ hpoint
        rcases hrawslots i slot hslot with h | ⟨_, j, r, hj, hr, hc⟩
        · rw [h] at hmem
          cases hmem
        · exact ⟨j, r, hj, hr, hc ▸ hmem⟩
    · refine ⟨stackUnion parameters.kKeyposeCloudStackNum
        (pushAll C (PlanningEnv.construct parameters robot_position prev_robot_position)
          (sweeps ++ [sweep])).vertical_surface_cloud_stack_, ?_, ?_⟩
      · rw [pushAll_snoc, UpdateKeyposeCloud_stacked_vertical C _ hsweep,
          UpdateKeyposeCloud_vertical_stack C _ hsweep, hpar]
      · intro point hpoint
        obtain ⟨i, slot, hslot, hmem⟩ := mem_stackUnion _ _ _ hpoint
        rcases hvertslots i slot hslot with h | ⟨_, j, r, hj, hr, hc⟩
        · rw [h] at hmem
          cases hmem
        · exact ⟨j, r, hj, hr, hc ▸ hmem⟩

/-- Witness for C24: depth 4, the third push; the write index is at
`2 * 3 mod 4 = 2`. -/
theorem write_index_advances_twice_witness :
    (pushAll sampleCollaborators (sampleEnv 4)
      ([[{ x := 0, y := 0, z := 0 }], [{ x := 10, y := 0, z := 0 }]] ++
        [[{ x := 20, y := 0, z := 0 }]])).keypose_cloud_count_ = 2 :=
  (write_index_advances_twice sampleCollaborators (sampleParameters 4) ⟨0, 0, 0⟩ ⟨0, 0, 0⟩
    [[{ x := 0, y := 0, z := 0 }], [{ x := 10, y := 0, z := 0 }]]
    [{ x := 20, y := 0, z := 0 }] (by decide) (by decide) (by decide)).2.2.1

/-! ## Propagation of the covered flags to the grid store -/

/-- What `UpdateCoveredArea` leaves in the environment on a non-empty planning
cloud, in terms of its three passes. -/
theorem UpdateCoveredArea_fields (C : Collaborators) (env : PlanningEnv)
    (robot_viewpoint : LiDARModel) (vm : ViewPointManager) (env' : PlanningEnv)
    (hne : env.planner_cloud_ ≠ [])
    (h : UpdateCoveredArea C env robot_viewpoint vm = some env') :
    dilate C
        (squeeze env.parameters_.kCoverCloudZSqueezeRatio
          (directPass C env.parameters_ robot_viewpoint vm 0 env.planner_cloud_).1)
        vm.GetCoverageDilationRadius
        (directPass C env.parameters_ robot_viewpoint vm 0 env.planner_cloud_).1
        (directPass C env.parameters_ robot_viewpoint vm 0 env.planner_cloud_).2 =
      some env'.planner_cloud_ ∧
    env'.squeezed_planner_cloud_kdtree_ =
      squeeze env.parameters_.kCoverCloudZSqueezeRatio
        (directPass C env.parameters_ robot_viewpoint vm 0 env.planner_cloud_).1 ∧
    env'.pointcloud_manager_ = propagate C 0 env'.planner_cloud_ env.pointcloud_manager_ ∧
    env'.parameters_ = env.parameters_ := by
  unfold UpdateCoveredArea at h
  rw [if_neg hne] at h
  dsimp only at h
  split at h
  · cases h
  · rename_i cloud hdil
    cases h
    exact ⟨hdil, rfl, rfl, rfl⟩

/-- The propagation loop reports the covered indices, in ascending order. -/
theorem propagate_eq (C : Collaborators) (i : Nat) (cloud : PlannerCloudType)
    (manager : List GridCall) :
    propagate C i cloud manager =
      reportCovered C
        (((cloud.enumFrom i).filter (fun ip => decide (ip.2.g > 0))).map Prod.fst) manager := by
  induction cloud generalizing i manager with
  | nil => rfl
  | cons point rest ih =>
    rw [propagate, List.enumFrom_cons, List.filter_cons]
    by_cases hg : point.g > 0
    · rw [if_pos hg, if_pos (by simpa using hg), List.map_cons, reportCovered, ih]
    · rw [if_neg hg, if_neg (by simpa using hg), ih]

/-- With a grid store whose index answers do not depend on the calls received,
the trace grows by one query and one mark-covered call per reported index. -/
theorem reportCovered_pure (C : Collaborators)
    (hpure : ∀ (t t' : List GridCall) (i : Nat),
      C.GetCloudPointIndex t i = C.GetCloudPointIndex t' i)
    (base : List GridCall) (indices : List Nat) (manager : List GridCall) :
    reportCovered C indices manager =
      manager ++ indices.flatMap (fun i =>
        [GridCall.GetCloudPointIndex i,
          GridCall.UpdateCoveredCloudPointsAt (C.GetCloudPointIndex base i).1
            (C.GetCloudPointIndex base i).2]) := by
  induction indices generalizing manager with
  | nil => simp [reportCovered]
  | cons i rest ih =>
    rw [reportCovered, ih, List.flatMap_cons, hpure manager base i, List.append_assoc]

theorem mem_coveredIndices (cloud : PlannerCloudType) (i : Nat) :
    i ∈ coveredIndices cloud ↔
      ∃ point : PlannerCloudPointType, cloud[i]? = some point ∧ 0 < point.g := by
  unfold coveredIndices
  rw [List.mem_map]
  constructor
  · rintro ⟨⟨j, point⟩, hmem, rfl⟩
    rw [List.mem_filter] at hmem
    exact ⟨point, List.mk_mem_enum_iff_getElem?.1 hmem.1, by simpa using hmem.2⟩
  · rintro ⟨point, hi, hg⟩
    exact ⟨(i, point),
      List.mem_filter.2 ⟨List.mk_mem_enum_iff_getElem?.2 hi, by simpa using hg⟩, rfl⟩

theorem coveredIndices_ascending (cloud : PlannerCloudType) :
    List.Pairwise (fun a b => a < b) (coveredIndices cloud) := by
  unfold coveredIndices
  rw [List.pairwise_map]
  have hbase : List.Pairwise (fun a b : Nat × PlannerCloudPointType => a.1 < b.1)
      (cloud.enumFrom 0) := by
    rw [← List.pairwise_map (f := Prod.fst) (R := fun a b => a < b), List.enumFrom_map_fst]
    exact List.pairwise_lt_range' 0 _
  exact hbase.sublist (List.filter_sublist _)

/-- C23 (propagation): whenever `UpdateCoveredArea` returns on a non-empty
planning cloud, the trace of the grid store is the trace on entry followed by
the report of the covered indices of the planning cloud as the marking and the
dilation left it: for each index `i` whose covered flag is `> 0`, in strictly
ascending order (so once per index), the query `GetCloudPointIndex i` and then
the mark-covered call `UpdateCoveredCloudPoints` with the pair that the query
returned; an index whose flag is `0` is not reported. When the answers of the
grid store do not depend on the calls it has received, the calls added are one
such pair of calls per covered index. The function returns when the radius
search only yields indices of the indexed cloud. -/
theorem covered_points_reported_to_grid_store (C : Collaborators) (env : PlanningEnv)
    (robot_viewpoint : LiDARModel) (vm : ViewPointManager)
    (hne : env.planner_cloud_ ≠ []) :
    (∀ env', UpdateCoveredArea C env robot_viewpoint vm = some env' →
      env'.pointcloud_manager_ =
        reportCovered C (coveredIndices env'.planner_cloud_) env.pointcloud_manager_ ∧
      List.Pairwise (fun a b => a < b) (coveredIndices env'.planner_cloud_) ∧
      (∀ i : Nat, i ∈ coveredIndices env'.planner_cloud_ ↔
        ∃ point : PlannerCloudPointType,
          env'.planner_cloud_[i]? = some point ∧ 0 < point.g) ∧
      (∀ (i : Nat) (point : PlannerCloudPointType),
        env'.planner_cloud_[i]? = some point → point.g = 0 →
        i ∉ coveredIndices env'.planner_cloud_) ∧
      ((∀ (t t' : List GridCall) (i : Nat),
          C.GetCloudPointIndex t i = C.GetCloudPointIndex t' i) →
        env'.pointcloud_manager_ =
          env.pointcloud_manager_ ++
            (coveredIndices env'.planner_cloud_).flatMap (fun i =>
              [GridCall.GetCloudPointIndex i,
                GridCall.UpdateCoveredCloudPointsAt
                  (C.GetCloudPointIndex env.pointcloud_manager_ i).1
                  (C.GetCloudPointIndex env.pointcloud_manager_ i).2]))) ∧
    (squeezedSearchInRange C → ∃ env', UpdateCoveredArea C env robot_viewpoint vm = some env') := by
  refine ⟨?_, UpdateCoveredArea_total C env robot_viewpoint vm⟩
  intro env' h
  obtain ⟨_, _, hman, _⟩ := UpdateCoveredArea_fields C env robot_viewpoint vm env' hne h
  have hreport : env'.pointcloud_manager_ =
      reportCovered C (coveredIndices env'.planner_cloud_) env.pointcloud_manager_ := by
    rw [hman, propagate_eq]
    rfl
  refine ⟨hreport, coveredIndices_ascending _, mem_coveredIndices _, ?_, ?_⟩
  · intro i point hi hg hmem
    obtain ⟨q, hq, hq0⟩ := (mem_coveredIndices _ i).1 hmem
    rw [hi] at hq
    cases hq
    omega
  · intro hpure
    rw [← reportCovered_pure C hpure]
    exact hreport

/-- Witness for C23: on the sample planning cloud the three points are
covered when the marking returns, and are reported in the order 0, 1, 2. -/
theorem covered_points_reported_to_grid_store_witness :
    ∃ env', UpdateCoveredArea sampleCollaborators sampleCoverageEnv sampleLiDAR
        sampleViewPointManager = some env' ∧
      env'.pointcloud_manager_ =
        reportCovered sampleCollaborators (coveredIndices env'.planner_cloud_)
          sampleCoverageEnv.pointcloud_manager_ := by
  obtain ⟨env', h⟩ := (covered_points_reported_to_grid_store sampleCollaborators
    sampleCoverageEnv sampleLiDAR sampleViewPointManager (by decide)).2
    radiusSearchSqueezedModel_inRange
  exact ⟨env', h, ((covered_points_reported_to_grid_store sampleCollaborators
    sampleCoverageEnv sampleLiDAR sampleViewPointManager (by decide)).1 env' h).1⟩

/-! ## Idempotence of the coverage marking -/

/-- The marking loop changes nothing and finds no seed on a cloud whose points
are all left as they are by one iteration. -/
theorem directPass_fixed (C : Collaborators) (parameters : PlanningEnvParameters)
    (robot_viewpoint : LiDARModel) (vm : ViewPointManager) (i : Nat)
    (cloud : PlannerCloudType)
    (h : ∀ point ∈ cloud,
      directMark C parameters robot_viewpoint vm point = (point, false)) :
    directPass C parameters robot_viewpoint vm i cloud = (cloud, []) := by
  induction cloud generalizing i with
  | nil => rfl
  | cons point rest ih =>
    simp only [directPass, h point (List.mem_cons_self _ _),
      ih (i + 1) (fun q hq => h q (List.mem_cons_of_mem _ hq))]
    rfl

/-- After one run of the marking, one more iteration of the marking loop leaves
every point as it is and marks no seed. -/
theorem directMark_after_run (C : Collaborators) (env : PlanningEnv)
    (robot_viewpoint : LiDARModel) (vm : ViewPointManager) (env1 : PlanningEnv)
    (h : UpdateCoveredArea C env robot_viewpoint vm = some env1) :
    ∀ point ∈ env1.planner_cloud_,
      directMark C env.parameters_ robot_viewpoint vm point = (point, false) := by
  intro point hpoint
  by_cases hne : env.planner_cloud_ = []
  · unfold UpdateCoveredArea at h
    rw [if_pos hne] at h
    cases h
    rw [hne] at hpoint
    cases hpoint
  · obtain ⟨hdil, _, _, _⟩ := UpdateCoveredArea_fields C env robot_viewpoint vm env1 hne h
    obtain ⟨hlen, _⟩ := dilate_some C _ _ _ _ _ hdil
    rw [directPass_fst, List.length_map] at hlen
    obtain ⟨i, hi⟩ := List.mem_iff_getElem?.1 hpoint
    have hlt : i < env.planner_cloud_.length := by
      rw [← hlen]
      exact (List.getElem?_eq_some.1 hi).1
    have hentry : env.planner_cloud_[i]? = some env.planner_cloud_[i] :=
      List.getElem?_eq_getElem hlt
    obtain ⟨hyes, hno⟩ := UpdateCoveredArea_exact C env robot_viewpoint vm env1 h i _ hentry
    by_cases hcond : (0 < env.planner_cloud_[i].g ∨
        i ∈ (directPass C env.parameters_ robot_viewpoint vm 0 env.planner_cloud_).2 ∨
        (∃ s ∈ (directPass C env.parameters_ robot_viewpoint vm 0 env.planner_cloud_).2,
          ∃ q : PlannerCloudPointType, env.planner_cloud_[s]? = some q ∧
            (i : Int) ∈ C.radiusSearchSqueezed env1.squeezed_planner_cloud_kdtree_
              { q with g := 255 } vm.GetCoverageDilationRadius))
    · have hp := hyes hcond
      rw [hi] at hp
      cases hp
      exact directMark_of_covered C env.parameters_ robot_viewpoint vm (Nat.succ_pos 254)
    · obtain ⟨hp, hg⟩ := hno hcond
      rw [hi] at hp
      cases hp
      have hseed : ¬ (directMark C env.parameters_ robot_viewpoint vm
          env.planner_cloud_[i]).2 = true := by
        intro hmark
        exact hcond (Or.inr (Or.inl
          ((mem_directPass_snd C env.parameters_ robot_viewpoint vm env.planner_cloud_ i).2
            ⟨_, hentry, hmark⟩)))
      apply Prod.ext
      · rw [directMark_fst, if_neg]
        rintro (h0 | h1)
        · omega
        · exact hseed h1
      · simpa using hseed

/-- C26 (idempotence of the coverage marking): when `UpdateCoveredArea` has
returned and is run again on its result with the same sensor model, the same
viewpoint manager and the same collaborators (which answer every query as in
the first run), the marking loop of the second run finds no seed
(`covered_point_indices` is empty) and leaves the planning cloud unchanged, the
second run returns, and the planning cloud it leaves, hence every covered
flag, is the one the first run left. -/
theorem coverage_marking_idempotent (C : Collaborators) (env : PlanningEnv)
    (robot_viewpoint : LiDARModel) (vm : ViewPointManager) (env1 : PlanningEnv)
    (h : UpdateCoveredArea C env robot_viewpoint vm = some env1) :
    directPass C env1.parameters_ robot_viewpoint vm 0 env1.planner_cloud_ =
      (env1.planner_cloud_, []) ∧
    ∃ env2, UpdateCoveredArea C env1 robot_viewpoint vm = some env2 ∧
      env2.planner_cloud_ = env1.planner_cloud_ := by
  have hpar : env1.parameters_ = env.parameters_ := by
    by_cases hne : env.planner_cloud_ = []
    · unfold UpdateCoveredArea at h
      rw [if_pos hne] at h
      cases h
      rfl
    · exact (UpdateCoveredArea_fields C env robot_viewpoint vm env1 hne h).2.2.2
  have hfixed := directPass_fixed C env1.parameters_ robot_viewpoint vm 0 env1.planner_cloud_
    (by rw [hpar]; exact directMark_after_run C env robot_viewpoint vm env1 h)
  refine ⟨hfixed, ?_⟩
  unfold UpdateCoveredArea
  split
  · exact ⟨env1, rfl, rfl⟩
  · dsimp only
    rw [hfixed]
    exact ⟨_, rfl, rfl⟩

/-- Witness for C26: the sample planning cloud, marked twice. -/
theorem coverage_marking_idempotent_witness :
    ∃ env1, UpdateCoveredArea sampleCollaborators sampleCoverageEnv sampleLiDAR
        sampleViewPointManager = some env1 ∧
      ∃ env2, UpdateCoveredArea sampleCollaborators env1 sampleLiDAR
          sampleViewPointManager = some env2 ∧
        env2.planner_cloud_ = env1.planner_cloud_ := by
  obtain ⟨env1, h⟩ := UpdateCoveredArea_total sampleCollaborators sampleCoverageEnv
    sampleLiDAR sampleViewPointManager radiusSearchSqueezedModel_inRange
  exact ⟨env1, h, (coverage_marking_idempotent sampleCollaborators sampleCoverageEnv
    sampleLiDAR sampleViewPointManager env1 h).2⟩

/-! ## The query point of the dilation -/

theorem mem_radiusSearchSqueezedModel (indexed : SqueezedCloudType)
    (query : PlannerCloudPointType) (radius : Int) (i : Nat) :
    (i : Int) ∈ radiusSearchSqueezedModel indexed query radius ↔
      ∃ point : SqueezedPointType, indexed[i]? = some point ∧
        sqDistSqueezed point (squeezePoint 1 query) ≤ (radius : ℚ) ^ 2 := by
  unfold radiusSearchSqueezedModel
  simp only [List.mem_map, List.mem_filter, List.mem_range]
  constructor
  · rintro ⟨j, ⟨hj, hdec⟩, hji⟩
    have hij : j = i := Int.ofNat_inj.1 hji
    subst hij
    rw [List.getElem?_eq_getElem hj] at hdec
    exact ⟨indexed[j], List.getElem?_eq_getElem hj, by simpa using hdec⟩
  · rintro ⟨point, hpoint, hdist⟩
    refine ⟨i, ⟨(List.getElem?_eq_some.1 hpoint).1, ?_⟩, rfl⟩
    rw [hpoint]
    simpa using hdist

/-- The marking loop does not move a point. -/
theorem directMark_position (C : Collaborators) (parameters : PlanningEnvParameters)
    (robot_viewpoint : LiDARModel) (vm : ViewPointManager) (point : PlannerCloudPointType) :
    (directMark C parameters robot_viewpoint vm point).1.x = point.x ∧
    (directMark C parameters robot_viewpoint vm point).1.y = point.y ∧
    (directMark C parameters robot_viewpoint vm point).1.z = point.z := by
  rw [directMark_fst]
  split <;> exact ⟨rfl, rfl, rfl⟩

theorem abs_gap (d t radius : Int) (hd : d ≠ 0) (hr : 0 ≤ radius) (ht : radius < t) :
    radius < |d * t| := by
  rw [abs_mul]
  have hd1 : 1 ≤ |d| := Int.one_le_abs hd
  have ht1 : t ≤ |t| := le_abs_self t
  nlinarith

theorem sq_gap (d t radius : Int) (hd : d ≠ 0) (hr : 0 ≤ radius) (ht : radius < t) :
    radius ^ 2 < (d * t) ^ 2 := by
  have h := abs_gap d t radius hd hr ht
  rw [← sq_abs (d * t)]
  nlinarith

/-- The numerator and the denominator of a ratio other than `0` and `1`. -/
theorem ratio_parts (ratio : ℚ) (h0 : ratio ≠ 0) (h1 : ratio ≠ 1) :
    ratio.num ≠ 0 ∧ (ratio.den : Int) ≠ 0 ∧ ratio.num - (ratio.den : Int) ≠ 0 ∧
    ratio = (ratio.num : ℚ) / ((ratio.den : Int) : ℚ) := by
  refine ⟨Rat.num_ne_zero.2 h0, by exact_mod_cast ratio.den_nz, ?_, ?_⟩
  · intro h
    apply h1
    have hnum : ratio.num = (ratio.den : Int) := by omega
    have hq := Rat.num_div_den ratio
    rw [hnum] at hq
    rw [← hq]
    exact div_self (by exact_mod_cast ratio.den_nz)
  · rw [Int.cast_natCast]
    exact (Rat.num_div_den ratio).symm

/-- The heights of the two points of the example after compression. -/
theorem squeezeEnv_heights (ratio : ℚ) (radius : Int) (h0 : ratio ≠ 0) (h1 : ratio ≠ 1) :
    ((squeezeSeed ratio radius).z : ℚ) / ratio =
      ((((ratio.den : Int) * (ratio.den : Int) * (radius + 1) : Int)) : ℚ) ∧
    ((squeezeAbove ratio radius).z : ℚ) / ratio = ((squeezeSeed ratio radius).z : ℚ) := by
  obtain ⟨ha, hb, _, hq⟩ := ratio_parts ratio h0 h1
  have haq : (ratio.num : ℚ) ≠ 0 := by exact_mod_cast ha
  have hbq : ((ratio.den : Int) : ℚ) ≠ 0 := by exact_mod_cast hb
  have key : ∀ a b c t r : ℚ, a ≠ 0 → b ≠ 0 → r = a / b → a * c * t / r = b * c * t := by
    intro a b c t r ha' hb' hr'
    rw [hr']
    field_simp
    ring
  constructor
  · simp only [squeezeSeed]
    push_cast
    exact key _ _ _ _ _ haq hbq hq
  · simp only [squeezeSeed, squeezeAbove]
    push_cast
    rw [key _ _ _ _ _ haq hbq hq]
    push_cast
    ring

theorem squeezeEnv_directPass (ratio : ℚ) (radius : Int) (h0 : ratio ≠ 0) (h1 : ratio ≠ 1)
    (hr : 0 ≤ radius) :
    directPass sampleCollaborators (squeezeEnv ratio radius).parameters_
        (squeezeLiDAR ratio radius) (squeezeViewPointManager radius) 0
        (squeezeEnv ratio radius).planner_cloud_ =
      ([{ squeezeSeed ratio radius with g := 255 }, squeezeAbove ratio radius], [0]) := by
  obtain ⟨ha, hb, hab, _⟩ := ratio_parts ratio h0 h1
  have habove : ¬ 10 * |ratio.num * ratio.num * (radius + 1) -
      ratio.num * (ratio.den : Int) * (radius + 1)| < 3 := by
    have heq : ratio.num * ratio.num * (radius + 1) -
        ratio.num * (ratio.den : Int) * (radius + 1) =
        ratio.num * (ratio.num - (ratio.den : Int)) * (radius + 1) := by ring
    rw [heq]
    have := abs_gap (ratio.num * (ratio.num - (ratio.den : Int))) (radius + 1) radius
      (mul_ne_zero ha hab) hr (by omega)
    omega
  simp [directPass, directMark, squeezeEnv, squeezeSeed, squeezeAbove, squeezeLiDAR,
    squeezeViewPointManager, sampleViewPointManager, coveredBySensor,
    coveredByVisitedViewPoint, sampleCollaborators, habove]

/-- C25: the dilation searches the tree of the z-compressed cloud around the
seed as it stands in the planning cloud, not around its compressed copy. The
compressed height is the exact quotient `z / ratio`. With the radius search
that returns the indexed points within the radius and a squeeze ratio other
than `0`, whenever `UpdateCoveredArea` returns, a point that was uncovered on
entry and is not a seed is covered afterwards exactly when, for some seed
(with entry point `q`), the squared distance between `(q.x, q.y, q.z)` and
`(point.x, point.y, point.z / ratio)` is at most the squared radius. For every
rational squeeze ratio other than `0` and `1` and every radius `≥ 0` there is
a planning cloud (a seed and a point straight above it at `ratio` times its
height) in which the seed is farther than the radius from its own compressed
copy, its compressed copy (index `0` of the tree) is not among the neighbours
returned for it, and the point above (index `1`) is among them and is covered
by the dilation although it is farther than the radius from the seed both in
the original and in the compressed coordinates. -/
theorem dilation_searches_around_uncompressed_seed :
    (∀ (C : Collaborators) (env : PlanningEnv) (robot_viewpoint : LiDARModel)
        (vm : ViewPointManager) (env' : PlanningEnv),
      C.radiusSearchSqueezed = radiusSearchSqueezedModel →
      env.parameters_.kCoverCloudZSqueezeRatio ≠ 0 →
      UpdateCoveredArea C env robot_viewpoint vm = some env' →
      ∀ (i : Nat) (point : PlannerCloudPointType),
        env.planner_cloud_[i]? = some point → point.g = 0 →
        i ∉ (directPass C env.parameters_ robot_viewpoint vm 0 env.planner_cloud_).2 →
        ((∃ point' : PlannerCloudPointType,
            env'.planner_cloud_[i]? = some point' ∧ 0 < point'.g) ↔
          ∃ s ∈ (directPass C env.parameters_ robot_viewpoint vm 0 env.planner_cloud_).2,
            ∃ q : PlannerCloudPointType, env.planner_cloud_[s]? = some q ∧
              (((point.x - q.x : Int) : ℚ) ^ 2 + ((point.y - q.y : Int) : ℚ) ^ 2 +
                  ((point.z : ℚ) / env.parameters_.kCoverCloudZSqueezeRatio - (q.z : ℚ)) ^ 2 ≤
                (vm.GetCoverageDilationRadius : ℚ) ^ 2))) ∧
    (∀ (ratio : ℚ) (radius : Int), ratio ≠ 0 → ratio ≠ 1 → 0 ≤ radius →
      (directPass sampleCollaborators (squeezeEnv ratio radius).parameters_
        (squeezeLiDAR ratio radius) (squeezeViewPointManager radius) 0
        (squeezeEnv ratio radius).planner_cloud_).2 = [0] ∧
      (radius : ℚ) <
        |((squeezeSeed ratio radius).z : ℚ) - ((squeezeSeed ratio radius).z : ℚ) / ratio| ∧
      (squeezeAbove ratio radius).x = (squeezeSeed ratio radius).x ∧
      (squeezeAbove ratio radius).y = (squeezeSeed ratio radius).y ∧
      ((squeezeAbove ratio radius).z : ℚ) = ratio * ((squeezeSeed ratio radius).z : ℚ) ∧
      radius ^ 2 < sqDist (squeezeAbove ratio radius) (squeezeSeed ratio radius) ∧
      (radius : ℚ) ^ 2 <
        sqDistSqueezed (squeezePoint ratio (squeezeAbove ratio radius))
          (squeezePoint ratio (squeezeSeed ratio radius)) ∧
      ∃ env', UpdateCoveredArea sampleCollaborators (squeezeEnv ratio radius)
          (squeezeLiDAR ratio radius) (squeezeViewPointManager radius) = some env' ∧
        env'.squeezed_planner_cloud_kdtree_[0]? =
          some (squeezePoint ratio { squeezeSeed ratio radius with g := 255 }) ∧
        (0 : Int) ∉ sampleCollaborators.radiusSearchSqueezed env'.squeezed_planner_cloud_kdtree_
          { squeezeSeed ratio radius with g := 255 } radius ∧
        (1 : Int) ∈ sampleCollaborators.radiusSearchSqueezed env'.squeezed_planner_cloud_kdtree_
          { squeezeSeed ratio radius with g := 255 } radius ∧
        env'.planner_cloud_ =
          [{ squeezeSeed ratio radius with g := 255 },
           { squeezeAbove ratio radius with g := 255 }]) := by
  constructor
  · intro C env robot_viewpoint vm env' hC _ h i point hi hg hseed
    have hne : env.planner_cloud_ ≠ [] := by
      intro hnil
      rw [hnil] at hi
      simp at hi
    obtain ⟨_, hkd, _, _⟩ := UpdateCoveredArea_fields C env robot_viewpoint vm env' hne h
    obtain ⟨hyes, hno⟩ := UpdateCoveredArea_exact C env robot_viewpoint vm env' h i point hi
    obtain ⟨hx, hy, hz⟩ := directMark_position C env.parameters_ robot_viewpoint vm point
    have hpred : ∀ q : PlannerCloudPointType,
        (i : Int) ∈ C.radiusSearchSqueezed env'.squeezed_planner_cloud_kdtree_
          { q with g := 255 } vm.GetCoverageDilationRadius ↔
        (((point.x - q.x : Int) : ℚ) ^ 2 + ((point.y - q.y : Int) : ℚ) ^ 2 +
            ((point.z : ℚ) / env.parameters_.kCoverCloudZSqueezeRatio - (q.z : ℚ)) ^ 2 ≤
          (vm.GetCoverageDilationRadius : ℚ) ^ 2) := by
      intro q
      rw [hC, hkd, mem_radiusSearchSqueezedModel, directPass_fst]
      simp only [squeeze, List.map_map, List.getElem?_map, hi, Option.map_some',
        Function.comp_apply, Option.some.injEq, exists_eq_left', sqDistSqueezed, squeezePoint,
        hx, hy, hz, div_one]
    have hiff : (∃ s ∈ (directPass C env.parameters_ robot_viewpoint vm 0
          env.planner_cloud_).2, ∃ q : PlannerCloudPointType, env.planner_cloud_[s]? = some q ∧
            (i : Int) ∈ C.radiusSearchSqueezed env'.squeezed_planner_cloud_kdtree_
              { q with g := 255 } vm.GetCoverageDilationRadius) ↔
        ∃ s ∈ (directPass C env.parameters_ robot_viewpoint vm 0 env.planner_cloud_).2,
          ∃ q : PlannerCloudPointType, env.planner_cloud_[s]? = some q ∧
            (((point.x - q.x : Int) : ℚ) ^ 2 + ((point.y - q.y : Int) : ℚ) ^ 2 +
                ((point.z : ℚ) / env.parameters_.kCoverCloudZSqueezeRatio - (q.z : ℚ)) ^ 2 ≤
              (vm.GetCoverageDilationRadius : ℚ) ^ 2) := by
      constructor
      · rintro ⟨s, hs, q, hq, hmem⟩
        exact ⟨s, hs, q, hq, (hpred q).1 hmem⟩
      · rintro ⟨s, hs, q, hq, hmem⟩
        exact ⟨s, hs, q, hq, (hpred q).2 hmem⟩
    constructor
    · rintro ⟨point', hp', hg'⟩
      by_contra hnot
      have hkeep := hno (by
        rintro (hpos | hs | hnb)
        · omega
        · exact hseed hs
        · exact hnot (hiff.1 hnb))
      rw [hkeep.1] at hp'
      cases hp'
      omega
    · intro hex
      exact ⟨_, hyes (Or.inr (Or.inr (hiff.2 hex))), Nat.succ_pos 254⟩
  · intro ratio radius h0 h1 hr
    obtain ⟨ha, hb, hab, hq⟩ := ratio_parts ratio h0 h1
    obtain ⟨hz0, hz1⟩ := squeezeEnv_heights ratio radius h0 h1
    have hpass := squeezeEnv_directPass ratio radius h0 h1 hr
    have hgapb := sq_gap ((ratio.den : Int) * (ratio.num - (ratio.den : Int))) (radius + 1)
      radius (mul_ne_zero hb hab) hr (by omega)
    -- the distance between the seed and its compressed copy
    have hdiff : ((squeezeSeed ratio radius).z : ℚ) - ((squeezeSeed ratio radius).z : ℚ) / ratio =
        ((((ratio.den : Int) * (ratio.num - (ratio.den : Int)) * (radius + 1) : Int)) : ℚ) := by
      rw [hz0]
      simp only [squeezeSeed]
      push_cast
      ring
    have hown : ¬ sqDistSqueezed (squeezePoint ratio { squeezeSeed ratio radius with g := 255 })
        (squeezePoint 1 { squeezeSeed ratio radius with g := 255 }) ≤ (radius : ℚ) ^ 2 := by
      have hval : sqDistSqueezed (squeezePoint ratio { squeezeSeed ratio radius with g := 255 })
          (squeezePoint 1 { squeezeSeed ratio radius with g := 255 }) =
          ((((ratio.den : Int) * (ratio.num - (ratio.den : Int)) * (radius + 1)) ^ 2 : Int) :
            ℚ) := by
        have hz0' := hz0
        simp only [squeezeSeed] at hz0'
        simp only [sqDistSqueezed, squeezePoint, squeezeSeed, div_one, hz0']
        push_cast
        ring
      rw [hval, not_le]
      exact_mod_cast hgapb
    have habove : sqDistSqueezed (squeezePoint ratio (squeezeAbove ratio radius))
        (squeezePoint 1 { squeezeSeed ratio radius with g := 255 }) ≤ (radius : ℚ) ^ 2 := by
      have hval : sqDistSqueezed (squeezePoint ratio (squeezeAbove ratio radius))
          (squeezePoint 1 { squeezeSeed ratio radius with g := 255 }) = 0 := by
        have hz1' := hz1
        simp only [squeezeSeed, squeezeAbove] at hz1'
        simp only [sqDistSqueezed, squeezePoint, squeezeSeed, squeezeAbove, div_one, hz1']
        push_cast
        ring
      rw [hval]
      positivity
    refine ⟨by rw [hpass], ?_, rfl, rfl, ?_, ?_, ?_, ?_⟩
    · rw [hdiff, ← Int.cast_abs]
      exact_mod_cast abs_gap ((ratio.den : Int) * (ratio.num - (ratio.den : Int))) (radius + 1)
        radius (mul_ne_zero hb hab) hr (by omega)
    · rw [← hz1]
      field_simp
    · have hgapa := sq_gap (ratio.num * (ratio.num - (ratio.den : Int))) (radius + 1) radius
        (mul_ne_zero ha hab) hr (by omega)
      have hval : sqDist (squeezeAbove ratio radius) (squeezeSeed ratio radius) =
          (ratio.num * (ratio.num - (ratio.den : Int)) * (radius + 1)) ^ 2 := by
        simp only [sqDist, squeezeSeed, squeezeAbove]
        ring
      rw [hval]
      exact hgapa
    · have hval : sqDistSqueezed (squeezePoint ratio (squeezeAbove ratio radius))
          (squeezePoint ratio (squeezeSeed ratio radius)) =
          ((((ratio.den : Int) * (ratio.num - (ratio.den : Int)) * (radius + 1)) ^ 2 : Int) :
            ℚ) := by
        have hz0' := hz0
        have hz1' := hz1
        simp only [squeezeSeed, squeezeAbove] at hz0' hz1'
        simp only [sqDistSqueezed, squeezePoint, squeezeSeed, squeezeAbove, hz0', hz1']
        push_cast
        ring
      rw [hval]
      exact_mod_cast hgapb
    · have hcloud : (squeezeEnv ratio radius).planner_cloud_ ≠ [] := by
        simp [squeezeEnv]
      have hratio : (squeezeEnv ratio radius).parameters_.kCoverCloudZSqueezeRatio = ratio :=
        rfl
      have hrad : (squeezeViewPointManager radius).GetCoverageDilationRadius = radius := rfl
      have hrs : sampleCollaborators.radiusSearchSqueezed = radiusSearchSqueezedModel := rfl
      obtain ⟨env', h⟩ := UpdateCoveredArea_total sampleCollaborators (squeezeEnv ratio radius)
        (squeezeLiDAR ratio radius) (squeezeViewPointManager radius)
        radiusSearchSqueezedModel_inRange
      obtain ⟨hrun, hkd, _, _⟩ := UpdateCoveredArea_fields sampleCollaborators
        (squeezeEnv ratio radius) (squeezeLiDAR ratio radius) (squeezeViewPointManager radius)
        env' hcloud h
      rw [hpass, hratio] at hkd
      have hzero : (0 : Int) ∉ sampleCollaborators.radiusSearchSqueezed
          env'.squeezed_planner_cloud_kdtree_
          { squeezeSeed ratio radius with g := 255 } radius := by
        intro hmem
        rw [hrs, hkd] at hmem
        obtain ⟨point, hpoint, hdist⟩ :=
          (mem_radiusSearchSqueezedModel _ _ _ 0).1 (by exact_mod_cast hmem)
        simp only [squeeze, List.map_cons, List.getElem?_cons_zero, Option.some.injEq]
          at hpoint
        rw [← hpoint] at hdist
        exact hown hdist
      have hone : (1 : Int) ∈ sampleCollaborators.radiusSearchSqueezed
          env'.squeezed_planner_cloud_kdtree_
          { squeezeSeed ratio radius with g := 255 } radius := by
        rw [hrs, hkd]
        have := (mem_radiusSearchSqueezedModel
          (squeeze ratio [{ squeezeSeed ratio radius with g := 255 }, squeezeAbove ratio radius])
          { squeezeSeed ratio radius with g := 255 } radius 1).2
          ⟨squeezePoint ratio (squeezeAbove ratio radius), rfl, habove⟩
        exact_mod_cast this
      -- the flags after the run
      have hseed0 : (0 : Nat) ∈ (directPass sampleCollaborators
          (squeezeEnv ratio radius).parameters_ (squeezeLiDAR ratio radius)
          (squeezeViewPointManager radius) 0 (squeezeEnv ratio radius).planner_cloud_).2 := by
        rw [hpass]
        exact List.mem_singleton.2 rfl
      have hflag0 := (UpdateCoveredArea_exact sampleCollaborators (squeezeEnv ratio radius)
        (squeezeLiDAR ratio radius) (squeezeViewPointManager radius) env' h 0
        (squeezeSeed ratio radius) rfl).1 (Or.inr (Or.inl hseed0))
      have hflag1 := (UpdateCoveredArea_exact sampleCollaborators (squeezeEnv ratio radius)
        (squeezeLiDAR ratio radius) (squeezeViewPointManager radius) env' h 1
        (squeezeAbove ratio radius) rfl).1
        (Or.inr (Or.inr ⟨0, hseed0, squeezeSeed ratio radius, rfl, by
          rw [hrad]
          exact_mod_cast hone⟩))
      have hlen : env'.planner_cloud_.length = 2 := by
        rw [(dilate_some sampleCollaborators _ _ _ _ _ hrun).1, hpass]
        rfl
      refine ⟨env', h, ?_, hzero, hone, ?_⟩
      · rw [hkd]
        rfl
      · apply List.ext_getElem?
        intro i
        match i with
        | 0 => rw [hflag0]; rfl
        | 1 => rw [hflag1]; rfl
        | (n + 2) =>
          rw [List.getElem?_eq_none (by rw [hlen]; omega)]
          rfl

/-- Witness for C25: squeeze ratio 3/2 and dilation radius 10; the seed is at
height 66, the point above it at height 99. -/
theorem dilation_searches_around_uncompressed_seed_witness :
    ∃ env', UpdateCoveredArea sampleCollaborators (squeezeEnv (3 / 2) 10)
        (squeezeLiDAR (3 / 2) 10) (squeezeViewPointManager 10) = some env' ∧
      env'.planner_cloud_ =
        [{ squeezeSeed (3 / 2) 10 with g := 255 }, { squeezeAbove (3 / 2) 10 with g := 255 }] := by
  obtain ⟨env', h, _, _, _, hcloud⟩ :=
    (dilation_searches_around_uncompressed_seed.2 (3 / 2) 10 (by norm_num) (by norm_num)
      (by decide)).2.2.2.2.2.2.2
  exact ⟨env', h, hcloud⟩

end planning_env_ns
